import Mathlib

/-!
# RINEX navigation record (`RinexNavData.cpp`): a shallow embedding

The transmit-week logic (`getXmitWS`, `setXmitWeek`, `setXmitTime`) and the
8-line text codec (`get*`, `put*`, `reallyGetRecord`, `reallyPutRecord`) are
transcribed from `src/core/lib/FileHandling/RINEX/RinexNavData.cpp`.

Conventions of the embedding.

* C++ `double` values are exact rationals (`ℚ`); rounding of the binary
  floating-point format is not represented.
* `short`, `long` and `unsigned` values are integers (`Int`, `Nat`).  The
  conversions to `short` that the source writes out (`short yr = ...`,
  `(short) codeL2`) reduce to 16 bits; a `double` converted to an integer type
  is truncated toward zero.  Members whose width is declared in
  `RinexNavData.hpp`, which is not among the sources, are kept exact.
* A member function that mutates `*this` is a function from the old record to
  the new one.  A decoding function returns the record as it stands when the
  function is left, together with a flag telling whether it was left by an
  exception (`Outcome`).
* Everything declared outside `RinexNavData.cpp` is either a parameter of the
  embedding (`Ext`) or a definition whose comment starts with
  `Modelled from the spec:`.
-/

namespace gpstk

/-- Modelled from the spec: the constant `FULLWEEK` of `GNSSconstants.hpp`,
which is not among the sources; 604800 seconds. -/
def FULLWEEK : Int := 604800

/-- Modelled from the spec: the constant `HALFWEEK` of `GNSSconstants.hpp`,
which is not among the sources; 302400 seconds. -/
def HALFWEEK : Int := 302400

/-- Modelled from the spec: the time-scale tag of the time library
(`TimeSystem.hpp`, not among the sources). -/
inductive TimeSystem where
  | Unknown
  | Any
  | GPS
deriving DecidableEq

/-- Modelled from the spec: the continuous time of the time library
(`CommonTime.hpp`, not among the sources), kept as a day count, the seconds of
that day, and the time-scale tag. -/
structure CommonTime where
  day : Int
  sod : ℚ
  timeSystem : TimeSystem
deriving DecidableEq

/-- Modelled from the spec: `CommonTime::BEGINNING_OF_TIME`, the sentinel epoch
of an empty record. -/
def CommonTime.BEGINNING_OF_TIME : CommonTime := ⟨0, 0, TimeSystem.Any⟩

/-- Modelled from the spec: `CommonTime::setTimeSystem`, which tags a time with
a time scale. -/
def CommonTime.setTimeSystem (t : CommonTime) (ts : TimeSystem) : CommonTime :=
  { t with timeSystem := ts }

/-- Modelled from the spec: a week number with seconds of week and a time-scale
tag (`GPSWeekSecond.hpp`, not among the sources). -/
structure GPSWeekSecond where
  week : Int
  sow : ℚ
  timeSystem : TimeSystem
deriving DecidableEq

/-- Modelled from the spec: the data members of `RinexNavData`.  The class is
declared in `RinexNavData.hpp`, which is not among the sources; the members are
those initialised by the constructor in `RinexNavData.cpp`, with the types of
the data model of the specification (`double` members are rationals, the
others integers). -/
structure RinexNavData where
  time : CommonTime
  PRNID : Int
  sf1XmitTime : Int
  toeWeek : Int
  codeflgs : Int
  accuracy : ℚ
  health : Int
  L2Pdata : Int
  IODC : ℚ
  IODE : ℚ
  af0 : ℚ
  af1 : ℚ
  af2 : ℚ
  Tgd : ℚ
  Cuc : ℚ
  Cus : ℚ
  Crc : ℚ
  Crs : ℚ
  Cic : ℚ
  Cis : ℚ
  Toe : ℚ
  M0 : ℚ
  dn : ℚ
  ecc : ℚ
  Ahalf : ℚ
  OMEGA0 : ℚ
  i0 : ℚ
  w : ℚ
  OMEGAdot : ℚ
  idot : ℚ
  fitint : ℚ
deriving DecidableEq

/-- The default constructor `RinexNavData::RinexNavData()`. -/
def RinexNavData.init : RinexNavData where
  time := CommonTime.BEGINNING_OF_TIME.setTimeSystem TimeSystem.GPS
  PRNID := -1
  sf1XmitTime := 0
  toeWeek := 0
  codeflgs := 0
  accuracy := 0
  health := 0
  L2Pdata := 0
  IODC := 0
  IODE := 0
  af0 := 0
  af1 := 0
  af2 := 0
  Tgd := 0
  Cuc := 0
  Cus := 0
  Crc := 0
  Crs := 0
  Cic := 0
  Cis := 0
  Toe := 0
  M0 := 0
  dn := 0
  ecc := 0
  Ahalf := 0
  OMEGA0 := 0
  i0 := 0
  w := 0
  OMEGAdot := 0
  idot := 0
  fitint := 4

/-! ## Transmit time and week -/

/-- Modelled from the spec: the seconds-of-week normalizer `fixSF1xmitSOW`,
which is declared in `RinexNavData.hpp` and is not part of the sources at hand.
The specification describes it as folding an arbitrary raw value into
`[0, FULLWEEK)`. -/
def fixSF1xmitSOW (sow : Int) : Int := sow % FULLWEEK

/-- `RinexNavData::getXmitWS`. -/
def getXmitWS (r : RinexNavData) : GPSWeekSecond :=
  if r.sf1XmitTime < 0 then
    let properXmit : Int := fixSF1xmitSOW (r.sf1XmitTime + FULLWEEK)
    ⟨r.toeWeek - 1, (properXmit : ℚ), TimeSystem.GPS⟩
  else
    let properXmit : Int := fixSF1xmitSOW r.sf1XmitTime
    let diff : ℚ := r.Toe - (properXmit : ℚ)
    if diff < -(HALFWEEK : ℚ) then
      ⟨r.toeWeek - 1, (properXmit : ℚ), TimeSystem.GPS⟩
    else if diff > (HALFWEEK : ℚ) then
      ⟨r.toeWeek + 1, (properXmit : ℚ), TimeSystem.GPS⟩
    else
      ⟨r.toeWeek, (properXmit : ℚ), TimeSystem.GPS⟩

/-- `RinexNavData::setXmitWeek(unsigned short fullweek)`. -/
def setXmitWeek (r : RinexNavData) (fullweek : Nat) : RinexNavData :=
  if r.sf1XmitTime < 0 then
    { r with toeWeek := (fullweek : Int) }
  else
    let diff : ℚ := r.Toe - (r.sf1XmitTime : ℚ)
    if diff < -(HALFWEEK : ℚ) then
      { r with toeWeek := (fullweek : Int) + 1, sf1XmitTime := r.sf1XmitTime - FULLWEEK }
    else if diff > (HALFWEEK : ℚ) then
      { r with toeWeek := (fullweek : Int) - 1, sf1XmitTime := r.sf1XmitTime + FULLWEEK }
    else
      { r with toeWeek := (fullweek : Int) }

/-- Modelled from the spec: the one-argument `setXmitTime(unsigned long sow)` of
`RinexNavData.hpp` (not part of the sources at hand); the specification says it
sets `transmitTimeRaw = secondsOfWeek`. -/
def setXmitTimeSow (r : RinexNavData) (sow : Nat) : RinexNavData :=
  { r with sf1XmitTime := (sow : Int) }

/-- `RinexNavData::setXmitTime(unsigned short fullweek, unsigned long sow)`. -/
def setXmitTime (r : RinexNavData) (fullweek : Nat) (sow : Nat) : RinexNavData :=
  setXmitWeek (setXmitTimeSow r sow) fullweek

/-! ## Fixed-column text -/

/-- A text line (`std::string`). -/
abbrev Line := List Char

/-- The call `s.substr(pos, len)`; `none` stands for the `std::out_of_range`
exception thrown when `pos > s.size()`. -/
def substr (s : Line) (pos len : Nat) : Option Line :=
  if pos > s.length then none else some ((s.drop pos).take len)

/-- The read `s[i]`; at or past the end of the line the terminating NUL is
read, which is not a blank. -/
def charAt (s : Line) (i : Nat) : Char := s.getD i (Char.ofNat 0)

/-- Conversion of an integer to `short`: reduction to 16 bits, two's
complement. -/
def toShort (z : Int) : Int := (z + 32768) % 65536 - 32768

/-- Conversion of a `double` to an integer type: truncation toward zero. -/
def truncate (v : ℚ) : Int := v.num.tdiv (v.den : Int)

/-- Modelled from the spec: the external collaborators of the record codec,
none of which is part of the sources at hand: the integer and decimal parsers
(`asInt`, `asDouble`), the fixed-width exponent-annotated codec (`for2doub`,
and `doub2for` at width 18 with a 2-digit exponent), `asString`,
`rightJustify`, and the calendar library (`CivilTime(...).convertToCommonTime()`,
`CommonTime::operator+=`, and `printTime` with the format of `writeTime`).
They are parameters of the embedding; a parser answers `none` when it
throws. -/
structure Ext where
  asInt : Line → Option Int
  asDouble : Line → Option ℚ
  for2doub : Line → Option ℚ
  doub2for : ℚ → Line
  asString : Int → Line
  rightJustify : Line → Nat → Line
  civilToCommon : Int → Int → Int → Int → Int → ℚ → TimeSystem → Option CommonTime
  addSeconds : CommonTime → ℚ → CommonTime
  printTime : CommonTime → Line

/-- The state in which a decoding member function is left: the record as it
stands, and whether the function was left by an exception. -/
structure Outcome where
  record : RinexNavData
  failed : Bool
deriving DecidableEq

/-- Continue with the value `v`, or leave by an exception with the record as
it stands when `v` could not be obtained. -/
def orFail {α : Type} (v : Option α) (r : RinexNavData) (k : α → Outcome) : Outcome :=
  match v with
  | none => ⟨r, true⟩
  | some a => k a

/-- The expression `for2doub(currentLine.substr(pos, 19))`. -/
def field (x : Ext) (currentLine : Line) (pos : Nat) : Option ℚ :=
  (substr currentLine pos 19).bind x.for2doub

/-! ## Decoding -/

/-- The epoch computed by `getPRNEpoch` (the statements from `short yr = ...`
to `if(ds != 0) time += ds;`), as a function of the line. -/
def epochOf (x : Ext) (currentLine : Line) : Option CommonTime :=
  ((substr currentLine 2 3).bind x.asInt).bind fun yr0 =>
  ((substr currentLine 5 3).bind x.asInt).bind fun mo0 =>
  ((substr currentLine 8 3).bind x.asInt).bind fun day0 =>
  ((substr currentLine 11 3).bind x.asInt).bind fun hr0 =>
  ((substr currentLine 14 3).bind x.asInt).bind fun min0 =>
  ((substr currentLine 17 5).bind x.asDouble).bind fun sec0 =>
  let yr : Int := toShort yr0
  let mo : Int := toShort mo0
  let day : Int := toShort day0
  let hr : Int := toShort hr0
  let min : Int := toShort min0
  let rolloverYear : Int := 80
  let yr : Int := if yr < rolloverYear then toShort (yr + 100) else yr
  let yr : Int := toShort (yr + 1900)
  let ds : ℚ := if sec0 ≥ 60 then sec0 else 0
  let sec : ℚ := if sec0 ≥ 60 then 0 else sec0
  (x.civilToCommon yr mo day hr min sec TimeSystem.GPS).bind fun t =>
  some (if ds ≠ 0 then x.addSeconds t ds else t)

/-- `RinexNavData::getPRNEpoch`. -/
def getPRNEpoch (x : Ext) (r : RinexNavData) (currentLine : Line) : Outcome :=
  if [2, 5, 8, 11, 14, 17].any (fun i => charAt currentLine i != ' ') then
    ⟨r, true⟩
  else
    orFail ((substr currentLine 0 2).bind x.asInt) r fun prn =>
    let r := { r with PRNID := prn }
    orFail (epochOf x currentLine) r fun t =>
    let r := { r with time := t }
    orFail (field x currentLine 22) r fun v =>
    let r := { r with af0 := v }
    orFail (field x currentLine 41) r fun v =>
    let r := { r with af1 := v }
    orFail (field x currentLine 60) r fun v =>
    ⟨{ r with af2 := v }, false⟩

/-- `RinexNavData::getBroadcastOrbit1`. -/
def getBroadcastOrbit1 (x : Ext) (r : RinexNavData) (currentLine : Line) : Outcome :=
  orFail (field x currentLine 3) r fun v =>
  let r := { r with IODE := v }
  orFail (field x currentLine 22) r fun v =>
  let r := { r with Crs := v }
  orFail (field x currentLine 41) r fun v =>
  let r := { r with dn := v }
  orFail (field x currentLine 60) r fun v =>
  ⟨{ r with M0 := v }, false⟩

/-- `RinexNavData::getBroadcastOrbit2`. -/
def getBroadcastOrbit2 (x : Ext) (r : RinexNavData) (currentLine : Line) : Outcome :=
  orFail (field x currentLine 3) r fun v =>
  let r := { r with Cuc := v }
  orFail (field x currentLine 22) r fun v =>
  let r := { r with ecc := v }
  orFail (field x currentLine 41) r fun v =>
  let r := { r with Cus := v }
  orFail (field x currentLine 60) r fun v =>
  ⟨{ r with Ahalf := v }, false⟩

/-- `RinexNavData::getBroadcastOrbit3`. -/
def getBroadcastOrbit3 (x : Ext) (r : RinexNavData) (currentLine : Line) : Outcome :=
  orFail (field x currentLine 3) r fun v =>
  let r := { r with Toe := v }
  orFail (field x currentLine 22) r fun v =>
  let r := { r with Cic := v }
  orFail (field x currentLine 41) r fun v =>
  let r := { r with OMEGA0 := v }
  orFail (field x currentLine 60) r fun v =>
  ⟨{ r with Cis := v }, false⟩

/-- `RinexNavData::getBroadcastOrbit4`. -/
def getBroadcastOrbit4 (x : Ext) (r : RinexNavData) (currentLine : Line) : Outcome :=
  orFail (field x currentLine 3) r fun v =>
  let r := { r with i0 := v }
  orFail (field x currentLine 22) r fun v =>
  let r := { r with Crc := v }
  orFail (field x currentLine 41) r fun v =>
  let r := { r with w := v }
  orFail (field x currentLine 60) r fun v =>
  ⟨{ r with OMEGAdot := v }, false⟩

/-- `RinexNavData::getBroadcastOrbit5`. -/
def getBroadcastOrbit5 (x : Ext) (r : RinexNavData) (currentLine : Line) : Outcome :=
  orFail (field x currentLine 3) r fun v =>
  let r := { r with idot := v }
  orFail (field x currentLine 22) r fun codeL2 =>
  orFail (field x currentLine 41) r fun toe_wn =>
  orFail (field x currentLine 60) r fun L2P =>
  ⟨{ r with
      codeflgs := toShort (truncate codeL2),
      L2Pdata := toShort (truncate L2P),
      toeWeek := toShort (truncate toe_wn) }, false⟩

/-- `RinexNavData::getBroadcastOrbit6`. -/
def getBroadcastOrbit6 (x : Ext) (r : RinexNavData) (currentLine : Line) : Outcome :=
  orFail (field x currentLine 3) r fun v =>
  let r := { r with accuracy := v }
  orFail (field x currentLine 22) r fun SV_health =>
  orFail (field x currentLine 41) r fun v =>
  let r := { r with Tgd := v }
  orFail (field x currentLine 60) r fun v =>
  let r := { r with IODC := v }
  ⟨{ r with health := toShort (truncate SV_health) }, false⟩

/-- `RinexNavData::getBroadcastOrbit7`. -/
def getBroadcastOrbit7 (x : Ext) (r : RinexNavData) (currentLine : Line) : Outcome :=
  orFail (field x currentLine 3) r fun HOW_sec =>
  let r := { r with sf1XmitTime := truncate HOW_sec }
  orFail (field x currentLine 22) r fun v =>
  ⟨{ r with fitint := v }, false⟩

/-- The call `strm.formattedGetLine(line)`: the next line of the input, or an
exception when the input is exhausted. -/
def withLine (lines : List Line) (r : RinexNavData)
    (k : Line → List Line → Outcome) : Outcome :=
  match lines with
  | [] => ⟨r, true⟩
  | line :: rest => k line rest

/-- Sequencing of two statements: the second runs only when the first was not
left by an exception. -/
def Outcome.andThen (o : Outcome) (k : RinexNavData → Outcome) : Outcome :=
  if o.failed then o else k o.record

/-- `RinexNavData::reallyGetRecord`, on a stream whose header has been read
and whose remaining lines are `lines`. -/
def reallyGetRecord (x : Ext) (r : RinexNavData) (lines : List Line) : Outcome :=
  withLine lines r fun line lines =>
  (getPRNEpoch x r line).andThen fun r =>
  withLine lines r fun line lines =>
  (getBroadcastOrbit1 x r line).andThen fun r =>
  withLine lines r fun line lines =>
  (getBroadcastOrbit2 x r line).andThen fun r =>
  withLine lines r fun line lines =>
  (getBroadcastOrbit3 x r line).andThen fun r =>
  withLine lines r fun line lines =>
  (getBroadcastOrbit4 x r line).andThen fun r =>
  withLine lines r fun line lines =>
  (getBroadcastOrbit5 x r line).andThen fun r =>
  withLine lines r fun line lines =>
  (getBroadcastOrbit6 x r line).andThen fun r =>
  withLine lines r fun line _ =>
  getBroadcastOrbit7 x r line

/-! ## Encoding -/

/-- `RinexNavData::writeTime`. -/
def writeTime (x : Ext) (dt : CommonTime) : Line := x.printTime dt

/-- The C++ expression `string(n, ' ')`. -/
def blanks (n : Nat) : Line := List.replicate n ' '

/-- `RinexNavData::putPRNEpoch`. -/
def putPRNEpoch (x : Ext) (r : RinexNavData) : Line :=
  x.rightJustify (x.asString r.PRNID) 2 ++ writeTime x r.time
    ++ blanks 1 ++ x.doub2for r.af0
    ++ blanks 1 ++ x.doub2for r.af1
    ++ blanks 1 ++ x.doub2for r.af2

/-- `RinexNavData::putBroadcastOrbit1`. -/
def putBroadcastOrbit1 (x : Ext) (r : RinexNavData) : Line :=
  blanks 3
    ++ blanks 1 ++ x.doub2for r.IODE
    ++ blanks 1 ++ x.doub2for r.Crs
    ++ blanks 1 ++ x.doub2for r.dn
    ++ blanks 1 ++ x.doub2for r.M0

/-- `RinexNavData::putBroadcastOrbit2`. -/
def putBroadcastOrbit2 (x : Ext) (r : RinexNavData) : Line :=
  blanks 3
    ++ blanks 1 ++ x.doub2for r.Cuc
    ++ blanks 1 ++ x.doub2for r.ecc
    ++ blanks 1 ++ x.doub2for r.Cus
    ++ blanks 1 ++ x.doub2for r.Ahalf

/-- `RinexNavData::putBroadcastOrbit3`. -/
def putBroadcastOrbit3 (x : Ext) (r : RinexNavData) : Line :=
  blanks 3
    ++ blanks 1 ++ x.doub2for r.Toe
    ++ blanks 1 ++ x.doub2for r.Cic
    ++ blanks 1 ++ x.doub2for r.OMEGA0
    ++ blanks 1 ++ x.doub2for r.Cis

/-- `RinexNavData::putBroadcastOrbit4`. -/
def putBroadcastOrbit4 (x : Ext) (r : RinexNavData) : Line :=
  blanks 3
    ++ blanks 1 ++ x.doub2for r.i0
    ++ blanks 1 ++ x.doub2for r.Crc
    ++ blanks 1 ++ x.doub2for r.w
    ++ blanks 1 ++ x.doub2for r.OMEGAdot

/-- `RinexNavData::putBroadcastOrbit5`. -/
def putBroadcastOrbit5 (x : Ext) (r : RinexNavData) : Line :=
  blanks 3
    ++ blanks 1 ++ x.doub2for r.idot
    ++ blanks 1 ++ x.doub2for (r.codeflgs : ℚ)
    ++ blanks 1 ++ x.doub2for (r.toeWeek : ℚ)
    ++ blanks 1 ++ x.doub2for (r.L2Pdata : ℚ)

/-- `RinexNavData::putBroadcastOrbit6`. -/
def putBroadcastOrbit6 (x : Ext) (r : RinexNavData) : Line :=
  blanks 3
    ++ blanks 1 ++ x.doub2for r.accuracy
    ++ blanks 1 ++ x.doub2for (r.health : ℚ)
    ++ blanks 1 ++ x.doub2for r.Tgd
    ++ blanks 1 ++ x.doub2for r.IODC

/-- `RinexNavData::putBroadcastOrbit7`. -/
def putBroadcastOrbit7 (x : Ext) (r : RinexNavData) (ver : ℚ) : Line :=
  let line := blanks 3 ++ blanks 1 ++ x.doub2for (r.sf1XmitTime : ℚ)
  if ver ≥ 21 / 10 then
    line ++ blanks 1 ++ x.doub2for r.fitint
  else
    line

/-- `RinexNavData::reallyPutRecord`: the eight lines written to the stream,
`ver` being `strm.header.version`. -/
def reallyPutRecord (x : Ext) (r : RinexNavData) (ver : ℚ) : List Line :=
  [putPRNEpoch x r, putBroadcastOrbit1 x r, putBroadcastOrbit2 x r,
   putBroadcastOrbit3 x r, putBroadcastOrbit4 x r, putBroadcastOrbit5 x r,
   putBroadcastOrbit6 x r, putBroadcastOrbit7 x r ver]

/-! ## A reference implementation of the collaborators

The theorems about decoding and encoding hold for every `Ext`.  The instance
`Ref.ext` below is used where a concrete collaborator is needed: to evaluate
the codec on explicit lines, and to show that assumptions made about the
collaborators can be met. -/

namespace Ref

/-- The value of a decimal digit. -/
def digitValue (c : Char) : Option Nat :=
  if '0' ≤ c ∧ c ≤ '9' then some (c.toNat - 48) else none

/-- Reads a run of decimal digits: the value read (continuing `acc`), the number
of digits read (continuing `n`), and the unread rest. -/
def readDigits : List Char → Nat → Nat → Nat × Nat × List Char
  | [], acc, n => (acc, n, [])
  | c :: cs, acc, n =>
    match digitValue c with
    | some d => readDigits cs (acc * 10 + d) (n + 1)
    | none => (acc, n, c :: cs)

/-- Skips leading white space. -/
def skipBlanks (s : Line) : Line := s.dropWhile fun c => c == ' ' || c == '\t'

/-- Reads an optional sign; `true` for a minus sign. -/
def readSign : List Char → Bool × List Char
  | '-' :: cs => (true, cs)
  | '+' :: cs => (false, cs)
  | cs => (false, cs)

/-- Modelled from the spec: the integer parser `asInt`.  Decimal integer at the
start of a string, after white space (`strtol`
in base 10); 0 when there is none. -/
def asInt (s : Line) : Int :=
  let p := readSign (skipBlanks s)
  let v : Int := ((readDigits p.2 0 0).1 : Int)
  if p.1 then -v else v

/-- The exponent following one of the markers `marks`, 0 when there is
none. -/
def readExponent (marks : List Char) : List Char → Int
  | [] => 0
  | c :: t =>
    if c ∈ marks then
      let p := readSign t
      let v : Int := ((readDigits p.2 0 0).1 : Int)
      if p.1 then -v else v
    else 0

/-- Modelled from the spec: the parsers `asDouble` and `for2doub`.  Decimal
number with optional fraction and optional exponent introduced by
one of `marks`, at the start of a string after white space; 0 when there is
none. -/
def readReal (marks : List Char) (s : Line) : ℚ :=
  let p := readSign (skipBlanks s)
  let ip := readDigits p.2 0 0
  let fp : Nat × Nat × List Char :=
    match ip.2.2 with
    | '.' :: t => readDigits t 0 0
    | t => (0, 0, t)
  let e : Int := readExponent marks fp.2.2
  let m : ℚ := (ip.1 : ℚ) + (fp.1 : ℚ) / (10 : ℚ) ^ fp.2.1
  let v : ℚ := if 0 ≤ e then m * (10 : ℚ) ^ e.toNat else m / (10 : ℚ) ^ (-e).toNat
  if p.1 then -v else v

/-- The decimal digits of `n` in exactly `width` positions, zero padded. -/
def digitsOf (width n : Nat) : Line :=
  (List.range width).reverse.map fun i => Char.ofNat (48 + n / 10 ^ i % 10)

/-- The least `k`, counting up from the given one, with `n < d * 10 ^ k`. -/
def expUp : Nat → Nat → Nat → Nat → Nat
  | 0, _, _, k => k
  | fuel + 1, n, d, k => if n < d * 10 ^ k then k else expUp fuel n d (k + 1)

/-- The least `j`, counting up from the given one, with `d ≤ n * 10 ^ (j + 1)`. -/
def expDown : Nat → Nat → Nat → Nat → Nat
  | 0, _, _, j => j
  | fuel + 1, n, d, j => if d ≤ n * 10 ^ (j + 1) then j else expDown fuel n d (j + 1)

/-- Modelled from the spec: the formatter `doub2for` at width 18 with a 2-digit
exponent.  A number in 18 characters: sign or zero, decimal point, 12 digits of
mantissa in `[0.1, 1)`, the letter `D`, and a signed 2-digit exponent. -/
def doub2for (v : ℚ) : Line :=
  if v = 0 then ['0', '.'] ++ digitsOf 12 0 ++ ['D', '+'] ++ digitsOf 2 0
  else
    let n : Nat := v.num.natAbs
    let d : Nat := v.den
    let e : Int := if d ≤ n then ((expUp 400 n d 1 : Nat) : Int) else -((expDown 400 n d 0 : Nat) : Int)
    let scaled : ℚ :=
      if 0 ≤ e then (n : ℚ) / (d : ℚ) / (10 : ℚ) ^ e.toNat * (10 : ℚ) ^ 12
      else (n : ℚ) / (d : ℚ) * (10 : ℚ) ^ (-e).toNat * (10 : ℚ) ^ 12
    let m0 : Nat := (Rat.floor (scaled + 1 / 2)).toNat
    let m : Nat := if 10 ^ 12 ≤ m0 then m0 / 10 else m0
    let e : Int := if 10 ^ 12 ≤ m0 then e + 1 else e
    [if v < 0 then '-' else '0', '.'] ++ digitsOf 12 m
      ++ ['D', if e < 0 then '-' else '+'] ++ digitsOf 2 e.natAbs

/-- Modelled from the spec: `asString`, the decimal text of an integer. -/
def asString (n : Int) : Line :=
  if n < 0 then '-' :: Nat.toDigits 10 n.natAbs else Nat.toDigits 10 n.natAbs

/-- Modelled from the spec: `rightJustify`.  Right-justifies in `len` characters:
padded with blanks on the left, or cut
on the left when longer. -/
def rightJustify (s : Line) (len : Nat) : Line :=
  if s.length < len then List.replicate (len - s.length) ' ' ++ s
  else s.drop (s.length - len)

/-- Modelled from the spec: the calendar library.  Day number of a civil date
(Julian day number of its noon), by the
Fliegel and Van Flandern formula. -/
def convertCalendarToJD (yy mm dd : Int) : Int :=
  let a : Int := (mm - 14).tdiv 12
  (1461 * (yy + 4800 + a)).tdiv 4 + (367 * (mm - 2 - 12 * a)).tdiv 12
    - (3 * ((yy + 4900 + a).tdiv 100)).tdiv 4 + dd - 32075

/-- Modelled from the spec: the calendar library.  Civil year, month and day of
a day number. -/
def convertJDtoCalendar (jd : Int) : Int × Int × Int :=
  let l : Int := jd + 68569
  let n : Int := (4 * l).tdiv 146097
  let l : Int := l - (146097 * n + 3).tdiv 4
  let i : Int := (4000 * (l + 1)).tdiv 1461001
  let l : Int := l - (1461 * i).tdiv 4 + 31
  let j : Int := (80 * l).tdiv 2447
  let d : Int := l - (2447 * j).tdiv 80
  let l : Int := j.tdiv 11
  let m : Int := j + 2 - 12 * l
  let y : Int := 100 * (n - 49) + i + l
  (y, m, d)

/-- Modelled from the spec: `CivilTime(...).convertToCommonTime()`.  Civil date
and time of day to continuous time; fails when the seconds of
day fall outside `[0, 86400)`. -/
def civilToCommon (yr mo day hr min : Int) (sec : ℚ) (ts : TimeSystem) : Option CommonTime :=
  let sod : ℚ := (hr : ℚ) * 3600 + (min : ℚ) * 60 + sec
  if 0 ≤ sod ∧ sod < 86400 then some ⟨convertCalendarToJD yr mo day, sod, ts⟩ else none

/-- Modelled from the spec: `CommonTime::operator+=`, which advances a
continuous time by a number of seconds. -/
def addSeconds (t : CommonTime) (s : ℚ) : CommonTime :=
  let total : ℚ := t.sod + s
  let k : Int := Rat.floor (total / 86400)
  ⟨t.day + k, total - 86400 * (k : ℚ), t.timeSystem⟩

/-- Modelled from the spec: the calendar library.  The civil year of a
continuous time. -/
def civilYear (t : CommonTime) : Int := (convertJDtoCalendar t.day).1

/-- An integer in at least 2 characters, padded with blanks on the left
(`%2d`). -/
def pad2 (n : Int) : Line :=
  let s := asString n
  List.replicate (2 - s.length) ' ' ++ s

/-- Seconds with one decimal in at least 5 characters (`%5.1f`). -/
def fixed51 (s : ℚ) : Line :=
  let tenths : Nat := (Rat.floor (s * 10 + 1 / 2)).toNat
  let body : Line := Nat.toDigits 10 (tenths / 10) ++ ['.'] ++ digitsOf 1 (tenths % 10)
  List.replicate (5 - body.length) ' ' ++ body

/-- Modelled from the spec: `printTime` with the format
`" %02y %2m %2d %2H %2M%5.1f"` of `writeTime`. -/
def printTime (t : CommonTime) : Line :=
  let c := convertJDtoCalendar t.day
  let h : Int := Rat.floor (t.sod / 3600)
  let mi : Int := Rat.floor ((t.sod - 3600 * (h : ℚ)) / 60)
  let s : ℚ := t.sod - 3600 * (h : ℚ) - 60 * (mi : ℚ)
  [' '] ++ digitsOf 2 (c.1 % 100).toNat
    ++ [' '] ++ pad2 c.2.1
    ++ [' '] ++ pad2 c.2.2
    ++ [' '] ++ pad2 h
    ++ [' '] ++ pad2 mi
    ++ fixed51 s

/-- Modelled from the spec: a reference implementation of the external
collaborators, which are not part of the sources at hand: decimal parsers, an
18-character exponent-annotated number format with its parser, and a
Gregorian calendar with continuous time kept as day number and seconds of
day. -/
def ext : Ext where
  asInt := fun s => some (asInt s)
  asDouble := fun s => some (readReal ['e', 'E'] s)
  for2doub := fun s => some (readReal ['e', 'E', 'D', 'd'] s)
  doub2for := doub2for
  asString := asString
  rightJustify := rightJustify
  civilToCommon := civilToCommon
  addSeconds := addSeconds
  printTime := printTime

end Ref

/-! ## Views used to state the theorems -/

/-- The decoder of line `k` of a record, lines counted from 0. -/
def getLine (x : Ext) : Nat → RinexNavData → Line → Outcome
  | 0 => getPRNEpoch x
  | 1 => getBroadcastOrbit1 x
  | 2 => getBroadcastOrbit2 x
  | 3 => getBroadcastOrbit3 x
  | 4 => getBroadcastOrbit4 x
  | 5 => getBroadcastOrbit5 x
  | 6 => getBroadcastOrbit6 x
  | _ => getBroadcastOrbit7 x

/-- The decoding of the next `n` lines, the first of them being line `k`:
the statements of `reallyGetRecord` from line `k` on, cut after `n` lines. -/
def decodeLines (x : Ext) : Nat → Nat → RinexNavData → List Line → Outcome
  | 0, _, r, _ => ⟨r, false⟩
  | _ + 1, _, r, [] => ⟨r, true⟩
  | n + 1, k, r, line :: rest =>
    (getLine x k r line).andThen fun r' => decodeLines x n (k + 1) r' rest

/-- The fields of a record that are assigned from line `k` (lines counted from
0), all other fields being reset: two records agree on the fields of line `k`
when their views of line `k` are equal. -/
def lineView (k : Nat) (r : RinexNavData) : RinexNavData :=
  match k with
  | 0 => { RinexNavData.init with
      PRNID := r.PRNID, time := r.time, af0 := r.af0, af1 := r.af1, af2 := r.af2 }
  | 1 => { RinexNavData.init with IODE := r.IODE, Crs := r.Crs, dn := r.dn, M0 := r.M0 }
  | 2 => { RinexNavData.init with Cuc := r.Cuc, ecc := r.ecc, Cus := r.Cus, Ahalf := r.Ahalf }
  | 3 => { RinexNavData.init with Toe := r.Toe, Cic := r.Cic, OMEGA0 := r.OMEGA0, Cis := r.Cis }
  | 4 => { RinexNavData.init with i0 := r.i0, Crc := r.Crc, w := r.w, OMEGAdot := r.OMEGAdot }
  | 5 => { RinexNavData.init with
      idot := r.idot, codeflgs := r.codeflgs, toeWeek := r.toeWeek, L2Pdata := r.L2Pdata }
  | 6 => { RinexNavData.init with
      accuracy := r.accuracy, health := r.health, Tgd := r.Tgd, IODC := r.IODC }
  | 7 => { RinexNavData.init with sf1XmitTime := r.sf1XmitTime, fitint := r.fitint }
  | _ => RinexNavData.init

/-! ## The record layout as text fields -/

/-- The text of a record split into the fields of the layout: the first 22
columns of line 1 (PRN and epoch), and the numeric fields, named after the
record field each one carries.  `fitint` is empty when line 8 carries no
second field. -/
structure RecordText where
  head : Line
  af0 : Line
  af1 : Line
  af2 : Line
  IODE : Line
  Crs : Line
  dn : Line
  M0 : Line
  Cuc : Line
  ecc : Line
  Cus : Line
  Ahalf : Line
  Toe : Line
  Cic : Line
  OMEGA0 : Line
  Cis : Line
  i0 : Line
  Crc : Line
  w : Line
  OMEGAdot : Line
  idot : Line
  codeflgs : Line
  toeWeek : Line
  L2Pdata : Line
  accuracy : Line
  health : Line
  Tgd : Line
  IODC : Line
  sf1XmitTime : Line
  fitint : Line

/-- The eight lines of the layout: line 1 is the head followed by three fields,
lines 2 to 7 are three blanks followed by four fields, line 8 is three blanks
followed by one or two fields. -/
def RecordText.lines (T : RecordText) : List Line :=
  [T.head ++ T.af0 ++ T.af1 ++ T.af2,
   blanks 3 ++ T.IODE ++ T.Crs ++ T.dn ++ T.M0,
   blanks 3 ++ T.Cuc ++ T.ecc ++ T.Cus ++ T.Ahalf,
   blanks 3 ++ T.Toe ++ T.Cic ++ T.OMEGA0 ++ T.Cis,
   blanks 3 ++ T.i0 ++ T.Crc ++ T.w ++ T.OMEGAdot,
   blanks 3 ++ T.idot ++ T.codeflgs ++ T.toeWeek ++ T.L2Pdata,
   blanks 3 ++ T.accuracy ++ T.health ++ T.Tgd ++ T.IODC,
   blanks 3 ++ T.sf1XmitTime ++ T.fitint]

/-- The numeric fields that are always present. -/
def RecordText.fields (T : RecordText) : List Line :=
  [T.af0, T.af1, T.af2, T.IODE, T.Crs, T.dn, T.M0, T.Cuc, T.ecc, T.Cus, T.Ahalf,
   T.Toe, T.Cic, T.OMEGA0, T.Cis, T.i0, T.Crc, T.w, T.OMEGAdot,
   T.idot, T.codeflgs, T.toeWeek, T.L2Pdata, T.accuracy, T.health, T.Tgd, T.IODC,
   T.sf1XmitTime]

/-- The column layout: a head of 22 characters with blanks at offsets 2, 5, 8,
11, 14 and 17, numeric fields of width 19, and a fit-interval field of width
19 or absent. -/
def RecordText.WellFormed (T : RecordText) : Prop :=
  T.head.length = 22 ∧
  (∀ i ∈ [2, 5, 8, 11, 14, 17], charAt T.head i = ' ') ∧
  (∀ f ∈ T.fields, f.length = 19) ∧
  (T.fitint.length = 19 ∨ T.fitint = [])

/-- Line 1 read field by field: the PRN and the epoch from the head, and the
three clock fields. -/
def parseLine0 (x : Ext) (T : RecordText) (r : RinexNavData) : Option RinexNavData :=
  ((substr T.head 0 2).bind x.asInt).bind fun prn =>
  (epochOf x T.head).bind fun t =>
  (x.for2doub T.af0).bind fun v1 =>
  (x.for2doub T.af1).bind fun v2 =>
  (x.for2doub T.af2).bind fun v3 =>
  some { r with PRNID := prn, time := t, af0 := v1, af1 := v2, af2 := v3 }

/-- Line 2 read field by field. -/
def parseLine1 (x : Ext) (T : RecordText) (r : RinexNavData) : Option RinexNavData :=
  (x.for2doub T.IODE).bind fun v1 =>
  (x.for2doub T.Crs).bind fun v2 =>
  (x.for2doub T.dn).bind fun v3 =>
  (x.for2doub T.M0).bind fun v4 =>
  some { r with IODE := v1, Crs := v2, dn := v3, M0 := v4 }

/-- Line 3 read field by field. -/
def parseLine2 (x : Ext) (T : RecordText) (r : RinexNavData) : Option RinexNavData :=
  (x.for2doub T.Cuc).bind fun v1 =>
  (x.for2doub T.ecc).bind fun v2 =>
  (x.for2doub T.Cus).bind fun v3 =>
  (x.for2doub T.Ahalf).bind fun v4 =>
  some { r with Cuc := v1, ecc := v2, Cus := v3, Ahalf := v4 }

/-- Line 4 read field by field. -/
def parseLine3 (x : Ext) (T : RecordText) (r : RinexNavData) : Option RinexNavData :=
  (x.for2doub T.Toe).bind fun v1 =>
  (x.for2doub T.Cic).bind fun v2 =>
  (x.for2doub T.OMEGA0).bind fun v3 =>
  (x.for2doub T.Cis).bind fun v4 =>
  some { r with Toe := v1, Cic := v2, OMEGA0 := v3, Cis := v4 }

/-- Line 5 read field by field. -/
def parseLine4 (x : Ext) (T : RecordText) (r : RinexNavData) : Option RinexNavData :=
  (x.for2doub T.i0).bind fun v1 =>
  (x.for2doub T.Crc).bind fun v2 =>
  (x.for2doub T.w).bind fun v3 =>
  (x.for2doub T.OMEGAdot).bind fun v4 =>
  some { r with i0 := v1, Crc := v2, w := v3, OMEGAdot := v4 }

/-- Line 6 read field by field; the last three values are converted to
`short`. -/
def parseLine5 (x : Ext) (T : RecordText) (r : RinexNavData) : Option RinexNavData :=
  (x.for2doub T.idot).bind fun v1 =>
  (x.for2doub T.codeflgs).bind fun codeL2 =>
  (x.for2doub T.toeWeek).bind fun toe_wn =>
  (x.for2doub T.L2Pdata).bind fun L2P =>
  some { r with
    idot := v1, codeflgs := toShort (truncate codeL2),
    L2Pdata := toShort (truncate L2P), toeWeek := toShort (truncate toe_wn) }

/-- Line 7 read field by field; the health is converted to `short`. -/
def parseLine6 (x : Ext) (T : RecordText) (r : RinexNavData) : Option RinexNavData :=
  (x.for2doub T.accuracy).bind fun v1 =>
  (x.for2doub T.health).bind fun SV_health =>
  (x.for2doub T.Tgd).bind fun v3 =>
  (x.for2doub T.IODC).bind fun v4 =>
  some { r with
    accuracy := v1, Tgd := v3, IODC := v4, health := toShort (truncate SV_health) }

/-- Line 8 read field by field; the transmit time is converted to an
integer. -/
def parseLine7 (x : Ext) (T : RecordText) (r : RinexNavData) : Option RinexNavData :=
  (x.for2doub T.sf1XmitTime).bind fun HOW_sec =>
  (x.for2doub T.fitint).bind fun v2 =>
  some { r with sf1XmitTime := truncate HOW_sec, fitint := v2 }

/-- The record read from the text field by field: each field is parsed on its
own and stored (after the conversions of `getBroadcastOrbit5`, `6` and `7`) in
the record field it is named after. -/
def parseText (x : Ext) (T : RecordText) (r : RinexNavData) : Option RinexNavData :=
  (parseLine0 x T r).bind fun r =>
  (parseLine1 x T r).bind fun r =>
  (parseLine2 x T r).bind fun r =>
  (parseLine3 x T r).bind fun r =>
  (parseLine4 x T r).bind fun r =>
  (parseLine5 x T r).bind fun r =>
  (parseLine6 x T r).bind fun r =>
  parseLine7 x T r

/-- The fields that encoding writes for a record: what `putPRNEpoch` to
`putBroadcastOrbit7` append, field by field. -/
def textOf (x : Ext) (r : RinexNavData) (ver : ℚ) : RecordText where
  head := x.rightJustify (x.asString r.PRNID) 2 ++ writeTime x r.time
  af0 := blanks 1 ++ x.doub2for r.af0
  af1 := blanks 1 ++ x.doub2for r.af1
  af2 := blanks 1 ++ x.doub2for r.af2
  IODE := blanks 1 ++ x.doub2for r.IODE
  Crs := blanks 1 ++ x.doub2for r.Crs
  dn := blanks 1 ++ x.doub2for r.dn
  M0 := blanks 1 ++ x.doub2for r.M0
  Cuc := blanks 1 ++ x.doub2for r.Cuc
  ecc := blanks 1 ++ x.doub2for r.ecc
  Cus := blanks 1 ++ x.doub2for r.Cus
  Ahalf := blanks 1 ++ x.doub2for r.Ahalf
  Toe := blanks 1 ++ x.doub2for r.Toe
  Cic := blanks 1 ++ x.doub2for r.Cic
  OMEGA0 := blanks 1 ++ x.doub2for r.OMEGA0
  Cis := blanks 1 ++ x.doub2for r.Cis
  i0 := blanks 1 ++ x.doub2for r.i0
  Crc := blanks 1 ++ x.doub2for r.Crc
  w := blanks 1 ++ x.doub2for r.w
  OMEGAdot := blanks 1 ++ x.doub2for r.OMEGAdot
  idot := blanks 1 ++ x.doub2for r.idot
  codeflgs := blanks 1 ++ x.doub2for (r.codeflgs : ℚ)
  toeWeek := blanks 1 ++ x.doub2for (r.toeWeek : ℚ)
  L2Pdata := blanks 1 ++ x.doub2for (r.L2Pdata : ℚ)
  accuracy := blanks 1 ++ x.doub2for r.accuracy
  health := blanks 1 ++ x.doub2for (r.health : ℚ)
  Tgd := blanks 1 ++ x.doub2for r.Tgd
  IODC := blanks 1 ++ x.doub2for r.IODC
  sf1XmitTime := blanks 1 ++ x.doub2for (r.sf1XmitTime : ℚ)
  fitint := if ver ≥ 21 / 10 then blanks 1 ++ x.doub2for r.fitint else []

/-- The numbers that encoding passes to `doub2for`, the fit interval
excepted. -/
def encodedValues (r : RinexNavData) : List ℚ :=
  [r.af0, r.af1, r.af2, r.IODE, r.Crs, r.dn, r.M0, r.Cuc, r.ecc, r.Cus, r.Ahalf,
   r.Toe, r.Cic, r.OMEGA0, r.Cis, r.i0, r.Crc, r.w, r.OMEGAdot,
   r.idot, (r.codeflgs : ℚ), (r.toeWeek : ℚ), (r.L2Pdata : ℚ),
   r.accuracy, (r.health : ℚ), r.Tgd, r.IODC, (r.sf1XmitTime : ℚ)]

/-! ## Assumptions on the collaborators, as predicates -/

/-- The range of a `short`. -/
def IsShort (z : Int) : Prop := -32768 ≤ z ∧ z ≤ 32767

/-- The number codec round-trips the value `v`: it is written in 18
characters, and the field made of a blank and these characters is read back as
`v`. -/
def NumberRoundTrips (x : Ext) (v : ℚ) : Prop :=
  (x.doub2for v).length = 18 ∧ x.for2doub (blanks 1 ++ x.doub2for v) = some v

/-- The PRN and epoch formatting round-trips for the record `r`: the PRN and the
epoch are written in 22 characters with blanks at offsets 2, 5, 8, 11, 14 and
17, from which the PRN and the epoch of `r` are read back. -/
def HeadRoundTrips (x : Ext) (r : RinexNavData) : Prop :=
  (x.rightJustify (x.asString r.PRNID) 2 ++ writeTime x r.time).length = 22 ∧
  (∀ i ∈ [2, 5, 8, 11, 14, 17],
    charAt (x.rightJustify (x.asString r.PRNID) 2 ++ writeTime x r.time) i = ' ') ∧
  (substr (x.rightJustify (x.asString r.PRNID) 2 ++ writeTime x r.time) 0 2).bind x.asInt
    = some r.PRNID ∧
  epochOf x (x.rightJustify (x.asString r.PRNID) 2 ++ writeTime x r.time) = some r.time

instance (x : Ext) (v : ℚ) : Decidable (NumberRoundTrips x v) := by
  unfold NumberRoundTrips
  infer_instance

instance (x : Ext) (r : RinexNavData) : Decidable (HeadRoundTrips x r) := by
  unfold HeadRoundTrips
  infer_instance

instance (T : RecordText) : Decidable T.WellFormed := by
  unfold RecordText.WellFormed
  infer_instance

/-! ## Example records and lines -/

/-- A PRN/epoch line for satellite 12 at 1999-12-31 23:59 with a seconds field
of 60.0. -/
def leapLine : Line :=
  ("12 99 12 31 23 59 60.0 0.123400000000D-03 -.500000000000D-11 0.000000000000D+00").toList

/-- A PRN/epoch line for satellite 12 on 15 October at 12:30:45.0, with the two
given digits as its year. -/
def yearLine (y1 y2 : Char) : Line :=
  ['1', '2', ' ', y1, y2]
    ++ (" 10 15 12 30 45.0 0.123400000000D-03 -.500000000000D-11 0.000000000000D+00").toList

/-- An orbit line cut after its first field. -/
def shortOrbitLine : Line := ("    0.100000000000D+01").toList

/-- A record for satellite 12 with epoch 2005-10-15 12:30:45 (day number
2453659) and a fit interval of 4 hours. -/
def exampleRecord : RinexNavData where
  time := ⟨2453659, 45045, TimeSystem.GPS⟩
  PRNID := 12
  sf1XmitTime := 518400
  toeWeek := 1345
  codeflgs := 1
  accuracy := 2
  health := 0
  L2Pdata := 0
  IODC := 69
  IODE := 69
  af0 := 1234 / 10000000
  af1 := -5 / 1000000000000
  af2 := 0
  Tgd := -465 / 100000000000
  Cuc := 15 / 10000000
  Cus := 95 / 10000000
  Crc := 200
  Crs := -25
  Cic := 1 / 10000000
  Cis := -1 / 10000000
  Toe := 518400
  M0 := 3 / 2
  dn := 45 / 10000000000
  ecc := 5 / 1000
  Ahalf := 10307 / 2
  OMEGA0 := -2
  i0 := 96 / 100
  w := 1
  OMEGAdot := -8 / 1000000000
  idot := 1 / 10000000000
  fitint := 4

/-- The orbit lines 2 to 8 of the example, line 8 carrying a fit interval. -/
def exampleOrbitLines : List Line :=
  [("    0.690000000000D+02 -.250000000000D+02 0.450000000000D-08 0.150000000000D+01").toList,
   ("    0.150000000000D-05 0.500000000000D-02 0.950000000000D-05 0.515350000000D+04").toList,
   ("    0.518400000000D+06 0.100000000000D-06 -.200000000000D+01 -.100000000000D-06").toList,
   ("    0.960000000000D+00 0.200000000000D+03 0.100000000000D+01 -.800000000000D-08").toList,
   ("    0.100000000000D-09 0.100000000000D+01 0.134500000000D+04 0.000000000000D+00").toList,
   ("    0.200000000000D+01 0.000000000000D+00 -.465000000000D-08 0.690000000000D+02").toList,
   ("    0.518400000000D+06 0.400000000000D+01").toList]

/-- The eight lines of the example record, as written for version 2.1. -/
def exampleText : List Line :=
  ("12 05 10 15 12 30 45.0 0.123400000000D-03 -.500000000000D-11 0.000000000000D+00").toList
    :: exampleOrbitLines

/-- The example with the epoch line replaced by the one of 1999-12-31 with a
seconds field of 60.0. -/
def leapText : List Line := leapLine :: exampleOrbitLines

/-- The fields of `leapText`: those written for the example record, with the
PRN and epoch columns `12 99 12 31 23 59 60.0`. -/
def leapRecordText : RecordText :=
  { textOf Ref.ext exampleRecord (21 / 10) with head := ("12 99 12 31 23 59 60.0").toList }

/-! ## Accessors, flattened export and conversions to the ephemeris models -/

/-- Modelled from the spec: the parts of the time library used by the
conversions, none of which is among the sources: the conversion of a week with
seconds of week to continuous time, the conversion back, and the addition of
seconds to a continuous time (`CommonTime::operator+`).  They are parameters of
the embedding. -/
structure TimeLib where
  toCommonTime : GPSWeekSecond → CommonTime
  toWeekSecond : CommonTime → GPSWeekSecond
  addSeconds : CommonTime → ℚ → CommonTime

/-- Modelled from the spec: `getHOWWS()` of `RinexNavData.hpp`, which is not
among the sources.  The specification takes the hand-over-word time of the
record to be its resolved subframe-1 transmit time (week and seconds of
week). -/
def getHOWWS (r : RinexNavData) : GPSWeekSecond := getXmitWS r

/-- Modelled from the spec: `getHOWTime()` of `RinexNavData.hpp`, the resolved
subframe-1 transmit time as a continuous time. -/
def getHOWTime (tl : TimeLib) (r : RinexNavData) : CommonTime :=
  tl.toCommonTime (getHOWWS r)

/-- Modelled from the spec: `getXmitTime()` of `RinexNavData.hpp`, the resolved
transmit time as a continuous time. -/
def getXmitTime (tl : TimeLib) (r : RinexNavData) : CommonTime :=
  tl.toCommonTime (getXmitWS r)

/-- Modelled from the spec: `getTocWS()` of `RinexNavData.hpp`, the clock epoch
as week and seconds of week. -/
def getTocWS (tl : TimeLib) (r : RinexNavData) : GPSWeekSecond :=
  tl.toWeekSecond r.time

/-- `RinexNavData::toList`. -/
def toList (tl : TimeLib) (r : RinexNavData) : List ℚ :=
  let howws : GPSWeekSecond := getHOWWS r
  [(r.PRNID : ℚ), howws.sow, (howws.week : ℚ), (r.codeflgs : ℚ), r.accuracy,
   (r.health : ℚ), (r.L2Pdata : ℚ), r.IODC, r.IODE, (getTocWS tl r).sow,
   r.af0, r.af1, r.af2, r.Tgd, r.Cuc, r.Cus, r.Crc, r.Crs, r.Cic, r.Cis,
   r.Toe, r.M0, r.dn, r.ecc, r.Ahalf, r.OMEGA0, r.i0, r.w, r.OMEGAdot, r.idot,
   r.fitint]

/-! ### The legacy subframe-oriented model (`EngEphemeris`) -/

/-- Modelled from the spec: the arguments of `EngEphemeris::setSF1`, in the
order of the call in `operator EngEphemeris`; the class is not among the
sources.  The names follow the comment of the call: telemetry word, hand-over
word time, alert flag, full week, code flags, accuracy flag, health, IODC, L2 P
data flag, group delay, clock epoch, the clock coefficients, tracker and
PRN. -/
structure SF1 where
  tlm : Int
  how : ℚ
  asalert : Int
  fullweek : Int
  cflags : Int
  acc : Int
  svhealth : Int
  iodc : Int
  l2pdata : Int
  tgd : ℚ
  toc : ℚ
  af2 : ℚ
  af1 : ℚ
  af0 : ℚ
  tracker : Int
  prn : Int
deriving DecidableEq

/-- Modelled from the spec: the arguments of `EngEphemeris::setSF2`, in the
order of the call; the last one is the fit-interval flag. -/
structure SF2 where
  tlm : Int
  how : ℚ
  asalert : Int
  iode : Int
  crs : ℚ
  dn : ℚ
  m0 : ℚ
  cuc : ℚ
  ecc : ℚ
  cus : ℚ
  ahalf : ℚ
  toe : ℚ
  fitInt : Int
deriving DecidableEq

/-- Modelled from the spec: the arguments of `EngEphemeris::setSF3`, in the
order of the call. -/
structure SF3 where
  tlm : Int
  how : ℚ
  asalert : Int
  cic : ℚ
  omega0 : ℚ
  cis : ℚ
  i0 : ℚ
  crc : ℚ
  w : ℚ
  omegaDot : ℚ
  idot : ℚ
deriving DecidableEq

/-- Modelled from the spec: the legacy model `EngEphemeris`, which is not among
the sources: a type `ε` of models with the default-constructed model and the
member functions called by the conversion.  They are parameters of the
embedding. -/
structure LegacyModel (ε : Type) where
  init : ε
  setSF1 : ε → SF1 → ε
  setSF2 : ε → SF2 → ε
  setSF3 : ε → SF3 → ε
  setFIC : ε → Bool → ε
  setAccuracy : ε → ℚ → ε

/-- The arguments of the call `ee.setSF1(...)` in `operator EngEphemeris`. -/
def sf1Args (tl : TimeLib) (r : RinexNavData) : SF1 :=
  let how1 : CommonTime := getHOWTime tl r
  let ws1 : GPSWeekSecond := tl.toWeekSecond how1
  { tlm := 0, how := ws1.sow, asalert := 0, fullweek := ws1.week, cflags := r.codeflgs,
    acc := 0, svhealth := r.health, iodc := toShort (truncate r.IODC),
    l2pdata := r.L2Pdata, tgd := r.Tgd, toc := (getTocWS tl r).sow,
    af2 := r.af2, af1 := r.af1, af0 := r.af0, tracker := 0, prn := r.PRNID }

/-- The arguments of the call `ee.setSF2(...)` in `operator EngEphemeris`. -/
def sf2Args (tl : TimeLib) (r : RinexNavData) : SF2 :=
  let how1 : CommonTime := getHOWTime tl r
  let how2 : CommonTime := tl.addSeconds how1 6
  let ws2 : GPSWeekSecond := tl.toWeekSecond how2
  { tlm := 0, how := ws2.sow, asalert := 0, iode := toShort (truncate r.IODE),
    crs := r.Crs, dn := r.dn, m0 := r.M0, cuc := r.Cuc, ecc := r.ecc, cus := r.Cus,
    ahalf := r.Ahalf, toe := r.Toe, fitInt := if r.fitint > 4 then 1 else 0 }

/-- The arguments of the call `ee.setSF3(...)` in `operator EngEphemeris`. -/
def sf3Args (tl : TimeLib) (r : RinexNavData) : SF3 :=
  let how1 : CommonTime := getHOWTime tl r
  let how2 : CommonTime := tl.addSeconds how1 6
  let how3 : CommonTime := tl.addSeconds how2 6
  let ws3 : GPSWeekSecond := tl.toWeekSecond how3
  { tlm := 0, how := ws3.sow, asalert := 0, cic := r.Cic, omega0 := r.OMEGA0,
    cis := r.Cis, i0 := r.i0, crc := r.Crc, w := r.w, omegaDot := r.OMEGAdot,
    idot := r.idot }

/-- `RinexNavData::operator EngEphemeris`. -/
def toEngEphemeris {ε : Type} (tl : TimeLib) (l : LegacyModel ε) (r : RinexNavData) : ε :=
  let ee : ε := l.init
  let ee : ε := l.setSF1 ee (sf1Args tl r)
  let ee : ε := l.setSF2 ee (sf2Args tl r)
  let ee : ε := l.setSF3 ee (sf3Args tl r)
  let ee : ε := l.setFIC ee false
  let ee : ε := l.setAccuracy ee r.accuracy
  ee

/-! ### The modern flattened model (`GPSEphemeris`) -/

/-- Modelled from the spec: the satellite system of a `SatID`. -/
inductive SatelliteSystem where
  | systemUnknown
  | systemGPS
deriving DecidableEq

/-- Modelled from the spec: a satellite identifier (`SatID`, not among the
sources). -/
structure SatID where
  id : Int
  system : SatelliteSystem
deriving DecidableEq

/-- Modelled from the spec: the modern model `GPSEphemeris`, which is not among
the sources: the members assigned by the conversion, numbers kept exact, and
one component `other : σ` for the state that the conversion does not assign
(the derived fit-interval and validity data). -/
structure GPSEphemeris (σ : Type) where
  satID : SatID
  ctToe : CommonTime
  ctToc : CommonTime
  af0 : ℚ
  af1 : ℚ
  af2 : ℚ
  M0 : ℚ
  dn : ℚ
  ecc : ℚ
  A : ℚ
  OMEGA0 : ℚ
  i0 : ℚ
  w : ℚ
  OMEGAdot : ℚ
  idot : ℚ
  dndot : ℚ
  Adot : ℚ
  Cuc : ℚ
  Cus : ℚ
  Crc : ℚ
  Crs : ℚ
  Cic : ℚ
  Cis : ℚ
  dataLoadedFlag : Bool
  IODC : ℚ
  IODE : ℚ
  health : Int
  accuracyFlag : ℚ
  Tgd : ℚ
  HOWtime : ℚ
  transmitTime : CommonTime
  codeflags : Int
  L2Pdata : Int
  fitint : ℚ
  other : σ
deriving DecidableEq

/-- Modelled from the spec: the member functions of `GPSEphemeris` called by the
conversion, with the default-constructed model.  `setFitIntervalFlag` derives
the fit-interval flag from a number of hours; `adjustValidity` finalizes the
derived state and answers `none` when it throws.  They are parameters of the
embedding. -/
structure ModernModel (σ : Type) where
  init : GPSEphemeris σ
  setFitIntervalFlag : GPSEphemeris σ → Int → GPSEphemeris σ
  adjustValidity : GPSEphemeris σ → Option (GPSEphemeris σ)

/-- The assignments of `operator GPSEphemeris`, from `gpse.satID = ...` to
`gpse.fitint = fitint;`, applied to the model `gpse`, the members in the order
of the source.  `ctToc` and `transmitTime` are assigned and then tagged with the
GPS time scale (`setTimeSystem`); the members not named keep their value. -/
def loadGPSEphemeris {σ : Type} (tl : TimeLib) (gpse : GPSEphemeris σ) (r : RinexNavData) :
    GPSEphemeris σ :=
  { gpse with
    satID := ⟨r.PRNID, SatelliteSystem.systemGPS⟩
    ctToe := r.time
    af0 := r.af0
    af1 := r.af1
    af2 := r.af2
    M0 := r.M0
    dn := r.dn
    ecc := r.ecc
    A := r.Ahalf * r.Ahalf
    OMEGA0 := r.OMEGA0
    i0 := r.i0
    w := r.w
    OMEGAdot := r.OMEGAdot
    idot := r.idot
    dndot := 0
    Adot := 0
    Cuc := r.Cuc
    Cus := r.Cus
    Crc := r.Crc
    Crs := r.Crs
    Cic := r.Cic
    Cis := r.Cis
    dataLoadedFlag := true
    ctToc := r.time.setTimeSystem TimeSystem.GPS
    IODC := r.IODC
    IODE := r.IODE
    health := r.health
    accuracyFlag := r.accuracy
    Tgd := r.Tgd
    HOWtime := (getHOWWS r).sow
    transmitTime := (getXmitTime tl r).setTimeSystem TimeSystem.GPS
    codeflags := r.codeflgs
    L2Pdata := r.L2Pdata
    fitint := r.fitint }

/-- `RinexNavData::operator GPSEphemeris`: the assignments, then
`gpse.setFitIntervalFlag(int(fitint))`, then `gpse.adjustValidity()`, whose
exception is rethrown. -/
def toGPSEphemeris {σ : Type} (tl : TimeLib) (m : ModernModel σ) (r : RinexNavData) :
    Option (GPSEphemeris σ) :=
  let gpse : GPSEphemeris σ := loadGPSEphemeris tl m.init r
  let gpse : GPSEphemeris σ := m.setFitIntervalFlag gpse (truncate r.fitint)
  m.adjustValidity gpse

/-! ### Reference implementations for the conversions -/

namespace Ref

/-- Modelled from the spec: the day number of the GPS epoch, 6 January 1980. -/
def gpsEpochDay : Int := convertCalendarToJD 1980 1 6

/-- Modelled from the spec: week and seconds of week to continuous time. -/
def toCommonTime (ws : GPSWeekSecond) : CommonTime :=
  let dow : Int := Rat.floor (ws.sow / 86400)
  ⟨gpsEpochDay + 7 * ws.week + dow, ws.sow - 86400 * (dow : ℚ), ws.timeSystem⟩

/-- Modelled from the spec: continuous time to week and seconds of week. -/
def toWeekSecond (t : CommonTime) : GPSWeekSecond :=
  let d : Int := t.day - gpsEpochDay
  ⟨d / 7, ((d % 7 : Int) : ℚ) * 86400 + t.sod, t.timeSystem⟩

/-- Modelled from the spec: a reference implementation of the time library used
by the conversions. -/
def timeLib : TimeLib where
  toCommonTime := toCommonTime
  toWeekSecond := toWeekSecond
  addSeconds := addSeconds

/-- The derived state of the reference modern model: the IODC that the model
held when its fit-interval flag was derived, the hours the flag was derived
from, and, once the validity has been adjusted, whether the flag had been
derived by then. -/
structure Derived where
  flagIODC : Option ℚ
  flagHours : Option Int
  adjustedAfterFlag : Option Bool
deriving DecidableEq

/-- Modelled from the spec: a reference modern model.  Its derived state records
what the fit-interval derivation and the validity adjustment see of the model;
neither changes a member assigned by the conversion. -/
def modern : ModernModel Derived where
  init := {
    satID := ⟨0, SatelliteSystem.systemUnknown⟩,
    ctToe := CommonTime.BEGINNING_OF_TIME, ctToc := CommonTime.BEGINNING_OF_TIME,
    af0 := 0, af1 := 0, af2 := 0, M0 := 0, dn := 0, ecc := 0, A := 0, OMEGA0 := 0,
    i0 := 0, w := 0, OMEGAdot := 0, idot := 0, dndot := 0, Adot := 0,
    Cuc := 0, Cus := 0, Crc := 0, Crs := 0, Cic := 0, Cis := 0,
    dataLoadedFlag := false, IODC := 0, IODE := 0, health := 0, accuracyFlag := 0,
    Tgd := 0, HOWtime := 0, transmitTime := CommonTime.BEGINNING_OF_TIME,
    codeflags := 0, L2Pdata := 0, fitint := 0,
    other := ⟨none, none, none⟩ }
  setFitIntervalFlag := fun g hours =>
    { g with other := { g.other with flagIODC := some g.IODC, flagHours := some hours } }
  adjustValidity := fun g =>
    some { g with other := { g.other with adjustedAfterFlag := some g.other.flagIODC.isSome } }

end Ref

/-! ### Further example records and lines -/

/-- A record whose transmit time, 604797 s into week 1000, lies 3 s before the
end of the week. -/
def weekEndRecord : RinexNavData :=
  { exampleRecord with toeWeek := 1000, Toe := 604000, sf1XmitTime := 604797 }

/-- A line 8 whose transmit-time field reads 518400.5. -/
def fractionalLine8 : Line := ("    0.518400500000D+06 0.400000000000D+01").toList

/-- A line 8 that carries only the transmit-time field. -/
def shortLine8 : Line := ("    0.518400000000D+06").toList

/-! ## Conditions of the round trips -/

/-- The PRN and epoch columns that `putPRNEpoch` writes for the PRN `prn` and
the time `t`. -/
def headOf (x : Ext) (prn : Int) (t : CommonTime) : Line :=
  x.rightJustify (x.asString prn) 2 ++ writeTime x t

/-- The seconds `s` are a whole number of tenths of a second: what the
conversion `%5.1f` of `writeTime` writes without loss. -/
def IsTenths (s : ℚ) : Prop := ((Rat.floor (s * 10) : Int) : ℚ) = s * 10

/-- The external formatters and parsers agree on the PRN and epoch columns
written for the PRN `prn` and for the time `t` whose civil fields are
`yr mo day hr min sec`: the columns are 22 characters with blanks at offsets 2,
5, 8, 11, 14 and 17; the parsers read from them the PRN, the last two digits of
the year, the month, the day, the hour, the minute, and the seconds to the
nearest tenth; and the calendar converts the civil fields to `t`. -/
def HeadCodec (x : Ext) (prn : Int) (t : CommonTime) (yr mo day hr min : Int) (sec : ℚ) :
    Prop :=
  (headOf x prn t).length = 22 ∧
  (∀ i ∈ [2, 5, 8, 11, 14, 17], charAt (headOf x prn t) i = ' ') ∧
  (substr (headOf x prn t) 0 2).bind x.asInt = some prn ∧
  (substr (headOf x prn t) 2 3).bind x.asInt = some (yr % 100) ∧
  (substr (headOf x prn t) 5 3).bind x.asInt = some mo ∧
  (substr (headOf x prn t) 8 3).bind x.asInt = some day ∧
  (substr (headOf x prn t) 11 3).bind x.asInt = some hr ∧
  (substr (headOf x prn t) 14 3).bind x.asInt = some min ∧
  (∃ s, (substr (headOf x prn t) 17 5).bind x.asDouble = some s ∧ IsTenths s ∧
    sec - 1 / 20 ≤ s ∧ s ≤ sec + 1 / 20) ∧
  x.civilToCommon yr mo day hr min sec TimeSystem.GPS = some t

/-- The external parsers read from the PRN and epoch columns `h` the PRN `prn`,
the last two digits of the year `yr`, the month, the day, the hour, the minute
and the seconds. -/
def HeadReads (x : Ext) (h : Line) (prn yr mo day hr min : Int) (sec : ℚ) : Prop :=
  (substr h 0 2).bind x.asInt = some prn ∧
  (substr h 2 3).bind x.asInt = some (yr % 100) ∧
  (substr h 5 3).bind x.asInt = some mo ∧
  (substr h 8 3).bind x.asInt = some day ∧
  (substr h 11 3).bind x.asInt = some hr ∧
  (substr h 14 3).bind x.asInt = some min ∧
  (substr h 17 5).bind x.asDouble = some sec

instance (x : Ext) (h : Line) (prn yr mo day hr min : Int) (sec : ℚ) :
    Decidable (HeadReads x h prn yr mo day hr min sec) := by
  unfold HeadReads
  infer_instance

/-- The numeric field `f` is what the number codec writes for the number that
it reads from `f`. -/
def IsRendering (x : Ext) (f : Line) : Prop :=
  (x.for2doub f).map (fun v => blanks 1 ++ x.doub2for v) = some f

instance (s : ℚ) : Decidable (IsTenths s) := by
  unfold IsTenths
  infer_instance

instance (x : Ext) (f : Line) : Decidable (IsRendering x f) := by
  unfold IsRendering
  infer_instance

/-! ### Example texts for the round trips -/

/-- The lines written for the record decoded from `lines`, the decoding
starting from the default record. -/
def reEncode (x : Ext) (ver : ℚ) (lines : List Line) : List Line :=
  reallyPutRecord x (reallyGetRecord x RinexNavData.init lines).record ver

/-- The example with the epoch line `12 79 12 31 23 59 60.0`, the last minute
of 2079 with a seconds field of 60.0. -/
def rolloverText : List Line :=
  ("12 79 12 31 23 59 60.0 0.123400000000D-03 -.500000000000D-11 0.000000000000D+00").toList
    :: exampleOrbitLines

/-- The example with a seconds field of 5.12 in its epoch line. -/
def hundredthsText : List Line :=
  ("12 05 10 15 12 30 5.12 0.123400000000D-03 -.500000000000D-11 0.000000000000D+00").toList
    :: exampleOrbitLines

/-- The example text with line `k` (counted from 0) replaced by `line`. -/
def exampleWith (k : Nat) (line : Line) : List Line := exampleText.set k line

/-- The example with a week of 40000 in line 6. -/
def wideWeekText : List Line :=
  exampleWith 5
    ("    0.100000000000D-09 0.100000000000D+01 0.400000000000D+05 0.000000000000D+00").toList

/-- The example with code flags of 1.5 in line 6. -/
def halfFlagText : List Line :=
  exampleWith 5
    ("    0.100000000000D-09 0.150000000000D+01 0.134500000000D+04 0.000000000000D+00").toList

/-- The example with a transmit time of 518400.5 in line 8. -/
def fractionalText : List Line := exampleWith 7 fractionalLine8

/-- The example with the exponent of the first field of line 2 introduced by
the letter `E`. -/
def exponentText : List Line :=
  exampleWith 1
    ("    0.690000000000E+02 -.250000000000D+02 0.450000000000D-08 0.150000000000D+01").toList

/-- The example with the epoch of 5 January 2005, month and day written with a
leading zero. -/
def paddedText : List Line :=
  exampleWith 0
    ("12 05 01 05 12 30 45.0 0.123400000000D-03 -.500000000000D-11 0.000000000000D+00").toList

/-- The example with a line 8 that carries no fit interval. -/
def shortText : List Line := exampleWith 7 shortLine8

/-! ## Transmit week: `getXmitWS`, `setXmitWeek`, `setXmitTime` -/

theorem fixSF1xmitSOW_nonneg (x : Int) : 0 ≤ fixSF1xmitSOW x := by
  unfold fixSF1xmitSOW FULLWEEK
  omega

theorem fixSF1xmitSOW_lt (x : Int) : fixSF1xmitSOW x < FULLWEEK := by
  unfold fixSF1xmitSOW FULLWEEK
  omega

theorem fixSF1xmitSOW_of_range (x : Int) (h0 : 0 ≤ x) (h1 : x < FULLWEEK) :
    fixSF1xmitSOW x = x := by
  unfold fixSF1xmitSOW
  unfold FULLWEEK at *
  omega

theorem fixSF1xmitSOW_add_FULLWEEK (x : Int) :
    fixSF1xmitSOW (x + FULLWEEK) = fixSF1xmitSOW x := by
  unfold fixSF1xmitSOW FULLWEEK
  omega

theorem HALFWEEK_cast : (HALFWEEK : ℚ) = 302400 := by
  unfold HALFWEEK
  norm_num

theorem FULLWEEK_cast : (FULLWEEK : ℚ) = 604800 := by
  unfold FULLWEEK
  norm_num

/-- C1 (as stated) fails: with a negative transmit time `setXmitWeek` stores
`toeWeek = fullweek` and `getXmitWS` then answers `toeWeek - 1`, so the pair
returns week 999 for `fullweek = 1000`; with a transmit time of a whole week
(604800, `Toe = 0`) the pair returns week 1001. -/
theorem C1_inverse_counterexample :
    (getXmitWS (setXmitWeek
        { RinexNavData.init with Toe := 604000, sf1XmitTime := -100 } 1000)).week = 999 ∧
    (getXmitWS (setXmitWeek
        { RinexNavData.init with Toe := 604000, sf1XmitTime := -100 } 1000)).week
      ≠ ((1000 : Nat) : Int) ∧
    (getXmitWS (setXmitWeek
        { RinexNavData.init with Toe := 0, sf1XmitTime := 604800 } 1000)).week = 1001 ∧
    (getXmitWS (setXmitWeek
        { RinexNavData.init with Toe := 0, sf1XmitTime := 604800 } 1000)).week
      ≠ ((1000 : Nat) : Int) := by
  refine ⟨by decide!, by decide!, by decide!, by decide!⟩

/-- C1 (amended): for every record whose transmit time lies in `[0, FULLWEEK)`
(any `Toe`) and every `fullweek`, `setXmitWeek` followed by `getXmitWS` returns
a week equal to `fullweek`. -/
theorem C1_setXmitWeek_getXmitWS (r : RinexNavData) (fullweek : Nat)
    (h0 : 0 ≤ r.sf1XmitTime) (h1 : r.sf1XmitTime < FULLWEEK) :
    (getXmitWS (setXmitWeek r fullweek)).week = (fullweek : Int) := by
  have hfix := fixSF1xmitSOW_of_range r.sf1XmitTime h0 h1
  have hF : (0 : Int) < FULLWEEK := by decide
  unfold setXmitWeek
  rw [if_neg (not_lt.mpr h0)]
  by_cases hA : r.Toe - (r.sf1XmitTime : ℚ) < -(HALFWEEK : ℚ)
  · have hneg : r.sf1XmitTime - FULLWEEK < 0 := by omega
    simp [hA, getXmitWS, hneg]
  · by_cases hB : r.Toe - (r.sf1XmitTime : ℚ) > (HALFWEEK : ℚ)
    · have hpos : ¬ (r.sf1XmitTime + FULLWEEK < 0) := by omega
      have hH : (0 : ℚ) < (HALFWEEK : ℚ) := by rw [HALFWEEK_cast]; norm_num
      have hA2 : ¬ (r.Toe - (r.sf1XmitTime : ℚ) < -(HALFWEEK : ℚ)) := hA
      have hB2 : (HALFWEEK : ℚ) < r.Toe - (r.sf1XmitTime : ℚ) := hB
      simp only [hA2, hB, if_false, if_true, getXmitWS, hpos,
        fixSF1xmitSOW_add_FULLWEEK, hfix]
      omega
    · have hneg : ¬ (r.sf1XmitTime < 0) := not_lt.mpr h0
      have hB2 : ¬ ((HALFWEEK : ℚ) < r.Toe - (r.sf1XmitTime : ℚ)) := hB
      simp only [hA, hB, hB2, if_false, getXmitWS, hneg, hfix]

/-- Witness for C1 (amended): transmit time 100 s, `Toe` 604000 s, week 1000. -/
theorem C1_setXmitWeek_getXmitWS_witness :
    (0 : Int) ≤ ({ RinexNavData.init with Toe := 604000, sf1XmitTime := 100 } :
        RinexNavData).sf1XmitTime ∧
    ({ RinexNavData.init with Toe := 604000, sf1XmitTime := 100 } :
        RinexNavData).sf1XmitTime < FULLWEEK ∧
    (getXmitWS (setXmitWeek
        { RinexNavData.init with Toe := 604000, sf1XmitTime := 100 } 1000)).week
      = ((1000 : Nat) : Int) :=
  ⟨by decide, by decide,
    C1_setXmitWeek_getXmitWS { RinexNavData.init with Toe := 604000, sf1XmitTime := 100 } 1000
      (by decide) (by decide)⟩

/-- C2: for a record with negative transmit time, `getXmitWS` returns week
`toeWeek - 1` and as seconds of week the normalizer applied to
`sf1XmitTime + FULLWEEK`, a value in `[0, FULLWEEK)`; for `toeWeek = 1000`,
`Toe = 604000`, `sf1XmitTime = -100` it returns week 999 and 604700 s. -/
theorem C2_getXmitWS_negative :
    (∀ r : RinexNavData, r.sf1XmitTime < 0 →
      (getXmitWS r).week = r.toeWeek - 1 ∧
      (getXmitWS r).sow = ((fixSF1xmitSOW (r.sf1XmitTime + FULLWEEK) : Int) : ℚ) ∧
      0 ≤ (getXmitWS r).sow ∧ (getXmitWS r).sow < (FULLWEEK : ℚ)) ∧
    (getXmitWS { RinexNavData.init with
        toeWeek := 1000, Toe := 604000, sf1XmitTime := -100 }).week = 999 ∧
    (getXmitWS { RinexNavData.init with
        toeWeek := 1000, Toe := 604000, sf1XmitTime := -100 }).sow = 604700 := by
  refine ⟨?_, by decide!, by decide!⟩
  intro r h
  have hsow : (getXmitWS r).sow = ((fixSF1xmitSOW (r.sf1XmitTime + FULLWEEK) : Int) : ℚ) := by
    simp [getXmitWS, h]
  refine ⟨by simp [getXmitWS, h], hsow, ?_, ?_⟩
  · rw [hsow]
    exact_mod_cast fixSF1xmitSOW_nonneg _
  · rw [hsow]
    exact_mod_cast fixSF1xmitSOW_lt _

/-- Witness for C2: the general statement applied to the record of the
example. -/
theorem C2_getXmitWS_negative_witness :
    ({ RinexNavData.init with
        toeWeek := 1000, Toe := 604000, sf1XmitTime := -100 } : RinexNavData).sf1XmitTime < 0 ∧
    (getXmitWS { RinexNavData.init with
        toeWeek := 1000, Toe := 604000, sf1XmitTime := -100 }).week = 1000 - 1 :=
  ⟨by decide,
    (C2_getXmitWS_negative.1 { RinexNavData.init with
        toeWeek := 1000, Toe := 604000, sf1XmitTime := -100 } (by decide)).1⟩

/-- C3: for a record with non-negative transmit time, `getXmitWS` returns the
normalized seconds of week `n` and, with `diff = Toe - n`, the week
`toeWeek - 1` when `diff < -HALFWEEK`, `toeWeek + 1` when `diff > HALFWEEK`
and `toeWeek` otherwise (so also at `diff = -HALFWEEK` and `diff = HALFWEEK`);
`toeWeek = 1000`, `Toe = 100`, `sf1XmitTime = 604700` gives week 999. -/
theorem C3_getXmitWS_nonneg :
    (∀ r : RinexNavData, 0 ≤ r.sf1XmitTime →
      (getXmitWS r).sow = ((fixSF1xmitSOW r.sf1XmitTime : Int) : ℚ) ∧
      (r.Toe - ((fixSF1xmitSOW r.sf1XmitTime : Int) : ℚ) < -(HALFWEEK : ℚ) →
        (getXmitWS r).week = r.toeWeek - 1) ∧
      (r.Toe - ((fixSF1xmitSOW r.sf1XmitTime : Int) : ℚ) > (HALFWEEK : ℚ) →
        (getXmitWS r).week = r.toeWeek + 1) ∧
      (-(HALFWEEK : ℚ) ≤ r.Toe - ((fixSF1xmitSOW r.sf1XmitTime : Int) : ℚ) →
        r.Toe - ((fixSF1xmitSOW r.sf1XmitTime : Int) : ℚ) ≤ (HALFWEEK : ℚ) →
        (getXmitWS r).week = r.toeWeek)) ∧
    (getXmitWS { RinexNavData.init with
        toeWeek := 1000, Toe := 100, sf1XmitTime := 604700 }).week = 999 := by
  refine ⟨?_, by decide!⟩
  intro r h
  have hneg : ¬ (r.sf1XmitTime < 0) := not_lt.mpr h
  have hH : (0 : ℚ) < (HALFWEEK : ℚ) := by rw [HALFWEEK_cast]; norm_num
  refine ⟨?_, ?_, ?_, ?_⟩
  · simp only [getXmitWS, hneg, if_false]
    split_ifs <;> rfl
  · intro hd
    simp only [getXmitWS, hneg, if_false, hd, if_true]
  · intro hd
    have hd2 : ¬ (r.Toe - ((fixSF1xmitSOW r.sf1XmitTime : Int) : ℚ) < -(HALFWEEK : ℚ)) := by
      linarith
    simp only [getXmitWS, hneg, if_false, hd2, hd, if_true]
  · intro hlo hhi
    have hd1 : ¬ (r.Toe - ((fixSF1xmitSOW r.sf1XmitTime : Int) : ℚ) < -(HALFWEEK : ℚ)) :=
      not_lt.mpr hlo
    have hd2 : ¬ (r.Toe - ((fixSF1xmitSOW r.sf1XmitTime : Int) : ℚ) > (HALFWEEK : ℚ)) :=
      not_lt.mpr hhi
    simp only [getXmitWS, hneg, if_false, hd1, hd2]

/-- Witness for C3: the boundary `diff = HALFWEEK` (`Toe = 302400`, transmit
time 0) keeps the week of `toeWeek`. -/
theorem C3_getXmitWS_nonneg_witness :
    (0 : Int) ≤ ({ RinexNavData.init with
        toeWeek := 1000, Toe := 302400, sf1XmitTime := 0 } : RinexNavData).sf1XmitTime ∧
    (getXmitWS { RinexNavData.init with
        toeWeek := 1000, Toe := 302400, sf1XmitTime := 0 }).week = 1000 :=
  ⟨by decide,
    (C3_getXmitWS_nonneg.1 { RinexNavData.init with
        toeWeek := 1000, Toe := 302400, sf1XmitTime := 0 } (by decide)).2.2.2
      (by decide!) (by decide!)⟩

/-- C4: `setXmitWeek` on a record `r` with argument `fullweek`.  With a negative
transmit time only `toeWeek` changes, to `fullweek`.  Otherwise, with
`diff = Toe - sf1XmitTime`: if `diff < -HALFWEEK` then `toeWeek = fullweek + 1`
and the transmit time is decreased by `FULLWEEK`; if `diff > HALFWEEK` then
`toeWeek = fullweek - 1` and the transmit time is increased by `FULLWEEK`;
else `toeWeek = fullweek` and the transmit time is unchanged. -/
theorem C4_setXmitWeek_cases (r : RinexNavData) (fullweek : Nat) :
    (r.sf1XmitTime < 0 →
      (setXmitWeek r fullweek).toeWeek = (fullweek : Int) ∧
      (setXmitWeek r fullweek).sf1XmitTime = r.sf1XmitTime) ∧
    (0 ≤ r.sf1XmitTime → r.Toe - (r.sf1XmitTime : ℚ) < -(HALFWEEK : ℚ) →
      (setXmitWeek r fullweek).toeWeek = (fullweek : Int) + 1 ∧
      (setXmitWeek r fullweek).sf1XmitTime = r.sf1XmitTime - FULLWEEK) ∧
    (0 ≤ r.sf1XmitTime → r.Toe - (r.sf1XmitTime : ℚ) > (HALFWEEK : ℚ) →
      (setXmitWeek r fullweek).toeWeek = (fullweek : Int) - 1 ∧
      (setXmitWeek r fullweek).sf1XmitTime = r.sf1XmitTime + FULLWEEK) ∧
    (0 ≤ r.sf1XmitTime → -(HALFWEEK : ℚ) ≤ r.Toe - (r.sf1XmitTime : ℚ) →
      r.Toe - (r.sf1XmitTime : ℚ) ≤ (HALFWEEK : ℚ) →
      (setXmitWeek r fullweek).toeWeek = (fullweek : Int) ∧
      (setXmitWeek r fullweek).sf1XmitTime = r.sf1XmitTime) := by
  have hH : (0 : ℚ) < (HALFWEEK : ℚ) := by rw [HALFWEEK_cast]; norm_num
  refine ⟨?_, ?_, ?_, ?_⟩
  · intro h
    simp only [setXmitWeek, h, if_true, and_self]
  · intro h hd
    have hneg : ¬ (r.sf1XmitTime < 0) := not_lt.mpr h
    simp only [setXmitWeek, hneg, if_false, hd, if_true, and_self]
  · intro h hd
    have hneg : ¬ (r.sf1XmitTime < 0) := not_lt.mpr h
    have hd2 : ¬ (r.Toe - (r.sf1XmitTime : ℚ) < -(HALFWEEK : ℚ)) := by linarith
    simp only [setXmitWeek, hneg, if_false, hd2, hd, if_true, and_self]
  · intro h hlo hhi
    have hneg : ¬ (r.sf1XmitTime < 0) := not_lt.mpr h
    have hd1 : ¬ (r.Toe - (r.sf1XmitTime : ℚ) < -(HALFWEEK : ℚ)) := not_lt.mpr hlo
    have hd2 : ¬ (r.Toe - (r.sf1XmitTime : ℚ) > (HALFWEEK : ℚ)) := not_lt.mpr hhi
    simp only [setXmitWeek, hneg, if_false, hd1, hd2, and_self]

/-- Witness for C4: transmit time 604700 s against `Toe` 100 s gives
`diff < -HALFWEEK`, so week 1000 is stored as `toeWeek = 1001` with the
transmit time lowered by a week. -/
theorem C4_setXmitWeek_cases_witness :
    (0 : Int) ≤ ({ RinexNavData.init with Toe := 100, sf1XmitTime := 604700 } :
        RinexNavData).sf1XmitTime ∧
    (setXmitWeek { RinexNavData.init with Toe := 100, sf1XmitTime := 604700 } 1000).toeWeek
        = ((1000 : Nat) : Int) + 1 ∧
    (setXmitWeek { RinexNavData.init with Toe := 100, sf1XmitTime := 604700 } 1000).sf1XmitTime
        = 604700 - FULLWEEK :=
  ⟨by decide,
    (C4_setXmitWeek_cases { RinexNavData.init with Toe := 100, sf1XmitTime := 604700 } 1000).2.1
      (by decide) (by decide!)⟩

/-- C5: `setXmitTime(fullweek, sow)` gives exactly the record obtained by
storing `sow` as transmit time and then applying `setXmitWeek(fullweek)`; the
result does not depend on the transmit time the record held before, and the
half-week test is the one on `Toe - sow`. -/
theorem C5_setXmitTime_order (r : RinexNavData) (fullweek sow : Nat) :
    setXmitTime r fullweek sow
      = setXmitWeek { r with sf1XmitTime := (sow : Int) } fullweek ∧
    (∀ old : Int,
      setXmitTime { r with sf1XmitTime := old } fullweek sow = setXmitTime r fullweek sow) ∧
    (setXmitTime r fullweek sow).toeWeek
      = (if r.Toe - (sow : ℚ) < -(HALFWEEK : ℚ) then (fullweek : Int) + 1
         else if r.Toe - (sow : ℚ) > (HALFWEEK : ℚ) then (fullweek : Int) - 1
         else (fullweek : Int)) ∧
    (setXmitTime r fullweek sow).sf1XmitTime
      = (if r.Toe - (sow : ℚ) < -(HALFWEEK : ℚ) then (sow : Int) - FULLWEEK
         else if r.Toe - (sow : ℚ) > (HALFWEEK : ℚ) then (sow : Int) + FULLWEEK
         else (sow : Int)) := by
  have hneg : ¬ ((sow : Int) < 0) := by omega
  refine ⟨rfl, fun old => rfl, ?_, ?_⟩
  · simp only [setXmitTime, setXmitTimeSow, setXmitWeek, hneg, if_false, Int.cast_natCast]
    split_ifs <;> rfl
  · simp only [setXmitTime, setXmitTimeSow, setXmitWeek, hneg, if_false, Int.cast_natCast]
    split_ifs <;> rfl

/-! ## Decoding of the PRN/epoch line -/

theorem charAt_of_getElem? (s : Line) (i : Nat) (c : Char) (h : s[i]? = some c) :
    charAt s i = c := by
  simp [charAt, List.getD_eq_getElem?_getD, h]

/-- C8: a PRN/epoch line with a character other than a blank at one of the
offsets 2, 5, 8, 11, 14, 17 makes `getPRNEpoch` fail and leaves the record as
it was; so does the decoding of a record that starts with such a line. -/
theorem C8_getPRNEpoch_separator (x : Ext) (r : RinexNavData) (currentLine : Line)
    (rest : List Line) (i : Nat) (c : Char)
    (hi : i ∈ [2, 5, 8, 11, 14, 17]) (hc : currentLine[i]? = some c) (hne : c ≠ ' ') :
    getPRNEpoch x r currentLine = ⟨r, true⟩ ∧
    reallyGetRecord x r (currentLine :: rest) = ⟨r, true⟩ := by
  have hany : [2, 5, 8, 11, 14, 17].any (fun i => charAt currentLine i != ' ') = true := by
    rw [List.any_eq_true]
    refine ⟨i, hi, ?_⟩
    rw [charAt_of_getElem? currentLine i c hc]
    simpa using hne
  have h1 : getPRNEpoch x r currentLine = ⟨r, true⟩ := by
    unfold getPRNEpoch
    rw [if_pos hany]
  refine ⟨h1, ?_⟩
  simp [reallyGetRecord, withLine, Outcome.andThen, h1]

/-- Witness for C8: a letter at offset 2 of an otherwise good line. -/
theorem C8_getPRNEpoch_separator_witness :
    (2 ∈ [2, 5, 8, 11, 14, 17]) ∧
    (("12X99 12 31 23 59 10.0").toList)[2]? = some 'X' ∧ 'X' ≠ ' ' ∧
    getPRNEpoch Ref.ext RinexNavData.init ("12X99 12 31 23 59 10.0").toList
      = ⟨RinexNavData.init, true⟩ ∧
    reallyGetRecord Ref.ext RinexNavData.init (("12X99 12 31 23 59 10.0").toList :: [])
      = ⟨RinexNavData.init, true⟩ :=
  ⟨by decide, by decide, by decide,
    C8_getPRNEpoch_separator Ref.ext RinexNavData.init ("12X99 12 31 23 59 10.0").toList [] 2 'X'
      (by decide) (by decide) (by decide)⟩

theorem toShort_of_range (z : Int) (h0 : -32768 ≤ z) (h1 : z ≤ 32767) : toShort z = z := by
  unfold toShort
  omega

theorem getPRNEpoch_ok_time (x : Ext) (r r' : RinexNavData) (currentLine : Line)
    (hok : getPRNEpoch x r currentLine = ⟨r', false⟩) :
    epochOf x currentLine = some r'.time := by
  unfold getPRNEpoch at hok
  split at hok
  · simp at hok
  · cases h1 : (substr currentLine 0 2).bind x.asInt with
    | none => simp [h1, orFail] at hok
    | some p =>
      cases h2 : epochOf x currentLine with
      | none => simp [h1, h2, orFail] at hok
      | some t =>
        cases h3 : field x currentLine 22 with
        | none => simp [h1, h2, h3, orFail] at hok
        | some a =>
          cases h4 : field x currentLine 41 with
          | none => simp [h1, h2, h3, h4, orFail] at hok
          | some b =>
            cases h5 : field x currentLine 60 with
            | none => simp [h1, h2, h3, h4, h5, orFail] at hok
            | some c =>
              simp only [h1, h2, h3, h4, h5, orFail, Outcome.mk.injEq, and_true] at hok
              rw [← hok]

/-- C10 (as stated) fails: on the line `12 99 12 31 23 59 60.0 ...` the
two-digit year is 99 and decoding succeeds, but the 60 seconds are added to
1999-12-31 23:59:00, so the calendar year of the epoch is 2000 (with the
reference calendar), not 1999. -/
theorem C10_year_counterexample :
    (substr leapLine 2 3).bind Ref.ext.asInt = some 99 ∧
    (getPRNEpoch Ref.ext RinexNavData.init leapLine).failed = false ∧
    Ref.civilYear (getPRNEpoch Ref.ext RinexNavData.init leapLine).record.time = 2000 ∧
    Ref.civilYear (getPRNEpoch Ref.ext RinexNavData.init leapLine).record.time ≠ 1900 + 99 := by
  refine ⟨by decide!, by decide!, by decide!, by decide!⟩

/-- C10 (amended): when `getPRNEpoch` succeeds on a line whose two-digit year
field reads `yy` with `0 ≤ yy ≤ 99`, the epoch is built from a civil timestamp
whose year is `1900 + yy` for `80 ≤ yy` and `2000 + yy` for `yy ≤ 79`: it is
that timestamp when the seconds field is below 60, and that timestamp with
seconds 0, advanced by the seconds field, otherwise.  With the reference
calendar, the years 05, 85, 79 and 80 give epochs in 2005, 1985, 2079 and
1980. -/
theorem C10_year_of_civil :
    (∀ (x : Ext) (r r' : RinexNavData) (currentLine : Line) (yy : Int),
      getPRNEpoch x r currentLine = ⟨r', false⟩ →
      (substr currentLine 2 3).bind x.asInt = some yy → 0 ≤ yy → yy ≤ 99 →
      ∃ (mo day hr min : Int) (sec : ℚ) (t : CommonTime),
        (substr currentLine 17 5).bind x.asDouble = some sec ∧
        x.civilToCommon (if 80 ≤ yy then 1900 + yy else 2000 + yy) mo day hr min
          (if sec ≥ 60 then 0 else sec) TimeSystem.GPS = some t ∧
        r'.time = (if sec ≥ 60 then x.addSeconds t sec else t)) ∧
    Ref.civilYear (getPRNEpoch Ref.ext RinexNavData.init (yearLine '0' '5')).record.time = 2005 ∧
    Ref.civilYear (getPRNEpoch Ref.ext RinexNavData.init (yearLine '8' '5')).record.time = 1985 ∧
    Ref.civilYear (getPRNEpoch Ref.ext RinexNavData.init (yearLine '7' '9')).record.time = 2079 ∧
    Ref.civilYear (getPRNEpoch Ref.ext RinexNavData.init (yearLine '8' '0')).record.time = 1980 := by
  refine ⟨?_, by decide!, by decide!, by decide!, by decide!⟩
  intro x r r' currentLine yy hok hyy h0 h99
  have ht := getPRNEpoch_ok_time x r r' currentLine hok
  unfold epochOf at ht
  rw [hyy] at ht
  cases hmo : (substr currentLine 5 3).bind x.asInt with
  | none => simp [hmo] at ht
  | some mo =>
  cases hday : (substr currentLine 8 3).bind x.asInt with
  | none => simp [hmo, hday] at ht
  | some day =>
  cases hhr : (substr currentLine 11 3).bind x.asInt with
  | none => simp [hmo, hday, hhr] at ht
  | some hr =>
  cases hmin : (substr currentLine 14 3).bind x.asInt with
  | none => simp [hmo, hday, hhr, hmin] at ht
  | some min =>
  cases hsec : (substr currentLine 17 5).bind x.asDouble with
  | none => simp [hmo, hday, hhr, hmin, hsec] at ht
  | some sec =>
  have hyr : toShort yy = yy := toShort_of_range yy (by omega) (by omega)
  have hY : toShort ((if toShort yy < 80 then toShort (toShort yy + 100) else toShort yy) + 1900)
      = (if 80 ≤ yy then 1900 + yy else 2000 + yy) := by
    rw [hyr]
    by_cases h80 : yy < 80
    · rw [if_pos h80, if_neg (by omega), toShort_of_range (yy + 100) (by omega) (by omega),
        toShort_of_range _ (by omega) (by omega)]
      omega
    · rw [if_neg h80, if_pos (by omega), toShort_of_range _ (by omega) (by omega)]
      omega
  simp only [hmo, hday, hhr, hmin, hsec, Option.some_bind, hY] at ht
  cases hciv : x.civilToCommon (if 80 ≤ yy then 1900 + yy else 2000 + yy) (toShort mo)
      (toShort day) (toShort hr) (toShort min) (if sec ≥ 60 then 0 else sec) TimeSystem.GPS with
  | none => simp [hciv] at ht
  | some t =>
    refine ⟨toShort mo, toShort day, toShort hr, toShort min, sec, t, rfl, hciv, ?_⟩
    simp only [hciv, Option.some_bind, Option.some.injEq] at ht
    rw [← ht]
    by_cases h60 : sec ≥ 60
    · have hne : sec ≠ 0 := by
        intro h
        rw [h] at h60
        norm_num at h60
      simp [h60, hne]
    · simp [h60]

/-- Witness for C10 (amended): the line with year digits 05, decoded with the
reference collaborators. -/
theorem C10_year_of_civil_witness :
    getPRNEpoch Ref.ext RinexNavData.init (yearLine '0' '5')
      = ⟨(getPRNEpoch Ref.ext RinexNavData.init (yearLine '0' '5')).record, false⟩ ∧
    (substr (yearLine '0' '5') 2 3).bind Ref.ext.asInt = some 5 ∧
    ∃ (mo day hr min : Int) (sec : ℚ) (t : CommonTime),
      (substr (yearLine '0' '5') 17 5).bind Ref.ext.asDouble = some sec ∧
      Ref.ext.civilToCommon (if (80 : Int) ≤ 5 then 1900 + 5 else 2000 + 5) mo day hr min
        (if sec ≥ 60 then 0 else sec) TimeSystem.GPS = some t ∧
      (getPRNEpoch Ref.ext RinexNavData.init (yearLine '0' '5')).record.time
        = (if sec ≥ 60 then Ref.ext.addSeconds t sec else t) :=
  ⟨by decide!, by decide!,
    C10_year_of_civil.1 Ref.ext RinexNavData.init
      (getPRNEpoch Ref.ext RinexNavData.init (yearLine '0' '5')).record (yearLine '0' '5') 5
      (by decide!) (by decide!) (by decide) (by decide)⟩

/-! ## Decoding of the eight lines: failure -/

theorem Outcome.andThen_done (o : Outcome) : (o.andThen fun r => ⟨r, false⟩) = o := by
  rcases o with ⟨r, _ | _⟩ <;> rfl

theorem reallyGetRecord_eq_decodeLines (x : Ext) (r : RinexNavData) (lines : List Line) :
    reallyGetRecord x r lines = decodeLines x 8 0 r lines := by
  rcases lines with _ | ⟨l1, _ | ⟨l2, _ | ⟨l3, _ | ⟨l4, _ | ⟨l5, _ | ⟨l6, _ | ⟨l7, _ | ⟨l8, rest⟩⟩⟩⟩⟩⟩⟩⟩ <;>
    simp only [reallyGetRecord, decodeLines, withLine, getLine, Outcome.andThen_done]

theorem getLine_frame (x : Ext) (k j : Nat) (hk : k < 8) (hj : j ≠ k) (r : RinexNavData)
    (line : Line) : lineView j (getLine x k r line).record = lineView j r := by
  rcases j with _ | _ | _ | _ | _ | _ | _ | _ | j <;>
  rcases k with _ | _ | _ | _ | _ | _ | _ | _ | k <;>
  first
  | omega
  | (simp only [getLine, getPRNEpoch, getBroadcastOrbit1, getBroadcastOrbit2, getBroadcastOrbit3,
      getBroadcastOrbit4, getBroadcastOrbit5, getBroadcastOrbit6, getBroadcastOrbit7, orFail]
     repeat' split
     all_goals rfl)

theorem decodeLines_ok_frame (x : Ext) :
    ∀ (n k : Nat) (r rm : RinexNavData) (lines : List Line), k + n ≤ 8 →
      decodeLines x n k r lines = ⟨rm, false⟩ →
      ∀ j, (j < k ∨ k + n ≤ j) → lineView j rm = lineView j r := by
  intro n
  induction n with
  | zero =>
    intro k r rm lines _ h j _
    simp only [decodeLines, Outcome.mk.injEq, and_true] at h
    rw [h]
  | succ n ih =>
    intro k r rm lines hk h j hj
    cases lines with
    | nil => simp [decodeLines] at h
    | cons line rest =>
      simp only [decodeLines, Outcome.andThen] at h
      split at h
      · rename_i hf
        rw [h] at hf
        simp at hf
      · have h1 := ih (k + 1) (getLine x k r line).record rm rest (by omega) h j (by omega)
        rw [h1]
        exact getLine_frame x k j (by omega) (by omega) r line

theorem decodeLines_fail (x : Ext) :
    ∀ (n k : Nat) (r : RinexNavData) (lines : List Line), k + n ≤ 8 →
      (decodeLines x n k r lines).failed = true →
      ∃ (m : Nat) (rm : RinexNavData), m < n ∧
        decodeLines x m k r lines = ⟨rm, false⟩ ∧
        decodeLines x n k r lines
          = (match lines.drop m with
             | [] => ⟨rm, true⟩
             | line :: _ => getLine x (k + m) rm line) ∧
        ∀ j, j ≠ k + m →
          lineView j (decodeLines x n k r lines).record = lineView j rm := by
  intro n
  induction n with
  | zero =>
    intro k r lines _ h
    simp [decodeLines] at h
  | succ n ih =>
    intro k r lines hk h
    cases lines with
    | nil =>
      exact ⟨0, r, by omega, rfl, rfl, fun j _ => rfl⟩
    | cons line rest =>
      by_cases hf : (getLine x k r line).failed = true
      · refine ⟨0, r, by omega, rfl, ?_, ?_⟩
        · simp only [decodeLines, Outcome.andThen, hf, if_true, List.drop_zero, Nat.add_zero]
        · intro j hj
          simp only [decodeLines, Outcome.andThen, hf, if_true]
          exact getLine_frame x k j (by omega) (by omega) r line
      · have hstep : decodeLines x (n + 1) k r (line :: rest)
            = decodeLines x n (k + 1) (getLine x k r line).record rest := by
          simp only [decodeLines, Outcome.andThen, hf]
          rfl
        rw [hstep] at h
        obtain ⟨m, rm, hm, hpre, hout, hfr⟩ :=
          ih (k + 1) (getLine x k r line).record rest (by omega) h
        refine ⟨m + 1, rm, by omega, ?_, ?_, ?_⟩
        · simp only [decodeLines, Outcome.andThen, hf]
          exact hpre
        · rw [hstep, hout, List.drop_succ_cons]
          have : k + 1 + m = k + (m + 1) := by omega
          rw [this]
        · intro j hj
          rw [hstep]
          exact hfr j (by omega)

/-- C9 (as stated) fails: decoding, from the default record, a good PRN/epoch
line for satellite 12 followed by an orbit line cut after its first field fails
(the field at offset 41 cannot be extracted), and the record is left with
`PRNID = 12` and `IODE = 1` where it had `-1` and `0`. -/
theorem C9_atomic_counterexample :
    substr shortOrbitLine 41 19 = none ∧
    (reallyGetRecord Ref.ext RinexNavData.init [yearLine '0' '5', shortOrbitLine]).failed = true ∧
    (reallyGetRecord Ref.ext RinexNavData.init [yearLine '0' '5', shortOrbitLine]).record.PRNID
      = 12 ∧
    RinexNavData.init.PRNID = -1 ∧
    (reallyGetRecord Ref.ext RinexNavData.init [yearLine '0' '5', shortOrbitLine]).record.IODE
      = 1 ∧
    RinexNavData.init.IODE = 0 ∧
    (reallyGetRecord Ref.ext RinexNavData.init [yearLine '0' '5', shortOrbitLine]).record
      ≠ RinexNavData.init := by
  refine ⟨by decide, by decide!, by decide!, by decide, by decide!, by decide!, by decide!⟩

/-- C9 (amended): when decoding the eight lines fails, nothing is rolled back.
There is a number `m < 8` of lines that were decoded without failure, giving a
record `rm`; the outcome is that of the decoder of the next line run on `rm`
(or of running out of lines); the fields of the lines before it hold the values
decoded into `rm`, and the fields of the lines after it are as they were before
the decoding started. -/
theorem C9_failure_keeps_decoded (x : Ext) (r : RinexNavData) (lines : List Line)
    (hfail : (reallyGetRecord x r lines).failed = true) :
    ∃ (m : Nat) (rm : RinexNavData), m < 8 ∧
      decodeLines x m 0 r lines = ⟨rm, false⟩ ∧
      reallyGetRecord x r lines
        = (match lines.drop m with
           | [] => ⟨rm, true⟩
           | line :: _ => getLine x m rm line) ∧
      (∀ j, j < m → lineView j (reallyGetRecord x r lines).record = lineView j rm) ∧
      (∀ j, m < j → lineView j (reallyGetRecord x r lines).record = lineView j r) := by
  rw [reallyGetRecord_eq_decodeLines] at hfail ⊢
  obtain ⟨m, rm, hm, hpre, hout, hfr⟩ := decodeLines_fail x 8 0 r lines (by omega) hfail
  refine ⟨m, rm, hm, hpre, ?_, ?_, ?_⟩
  · rw [hout, Nat.zero_add]
  · intro j hj
    exact hfr j (by omega)
  · intro j hj
    rw [hfr j (by omega)]
    exact decodeLines_ok_frame x m 0 r rm lines (by omega) hpre j (by omega)

/-- Witness for C9 (amended): the good PRN/epoch line followed by the cut orbit
line, decoded from the default record with the reference collaborators. -/
theorem C9_failure_keeps_decoded_witness :
    (reallyGetRecord Ref.ext RinexNavData.init [yearLine '0' '5', shortOrbitLine]).failed = true ∧
    ∃ (m : Nat) (rm : RinexNavData), m < 8 ∧
      decodeLines Ref.ext m 0 RinexNavData.init [yearLine '0' '5', shortOrbitLine]
        = ⟨rm, false⟩ ∧
      reallyGetRecord Ref.ext RinexNavData.init [yearLine '0' '5', shortOrbitLine]
        = (match [yearLine '0' '5', shortOrbitLine].drop m with
           | [] => ⟨rm, true⟩
           | line :: _ => getLine Ref.ext m rm line) ∧
      (∀ j, j < m →
        lineView j (reallyGetRecord Ref.ext RinexNavData.init
          [yearLine '0' '5', shortOrbitLine]).record = lineView j rm) ∧
      (∀ j, m < j →
        lineView j (reallyGetRecord Ref.ext RinexNavData.init
          [yearLine '0' '5', shortOrbitLine]).record = lineView j RinexNavData.init) :=
  ⟨by decide!,
    C9_failure_keeps_decoded Ref.ext RinexNavData.init [yearLine '0' '5', shortOrbitLine]
      (by decide!)⟩

/-! ## Fields at fixed offsets -/

theorem substr_mid (a b c : Line) (pos len : Nat) (ha : a.length = pos) (hb : b.length = len) :
    substr (a ++ b ++ c) pos len = some b := by
  unfold substr
  have hle : ¬ (pos > (a ++ b ++ c).length) := by
    simp only [List.length_append]
    omega
  rw [if_neg hle, List.append_assoc, List.drop_left' ha, List.take_left' hb]

theorem substr_tail (a b : Line) (pos len : Nat) (ha : a.length = pos) (hb : b.length ≤ len) :
    substr (a ++ b) pos len = some b := by
  unfold substr
  have hle : ¬ (pos > (a ++ b).length) := by
    simp only [List.length_append]
    omega
  rw [if_neg hle, List.drop_left' ha, List.take_of_length_le hb]

theorem substr_append_left (h rest : Line) (pos len : Nat) (hp : pos + len ≤ h.length) :
    substr (h ++ rest) pos len = substr h pos len := by
  unfold substr
  have h1 : ¬ (pos > (h ++ rest).length) := by
    simp only [List.length_append]
    omega
  have h2 : ¬ (pos > h.length) := by omega
  rw [if_neg h1, if_neg h2]
  congr 1
  rw [List.drop_append_of_le_length (by omega), List.take_append_of_le_length]
  simp only [List.length_drop]
  omega

theorem charAt_append_left (h rest : Line) (i : Nat) (hi : i < h.length) :
    charAt (h ++ rest) i = charAt h i := by
  unfold charAt
  rw [List.getD_eq_getElem?_getD, List.getD_eq_getElem?_getD, List.getElem?_append_left hi]

/-! ## Decoding a line of the layout -/

theorem blanks_length (n : Nat) : (blanks n).length = n := by
  simp [blanks]

theorem field_layout4 (x : Ext) (p f1 f2 f3 f4 : Line) (n : Nat) (hp : p.length = n)
    (h1 : f1.length = 19) (h2 : f2.length = 19) (h3 : f3.length = 19)
    (h4 : f4.length ≤ 19) :
    field x (p ++ f1 ++ f2 ++ f3 ++ f4) n = x.for2doub f1 ∧
    field x (p ++ f1 ++ f2 ++ f3 ++ f4) (n + 19) = x.for2doub f2 ∧
    field x (p ++ f1 ++ f2 ++ f3 ++ f4) (n + 38) = x.for2doub f3 ∧
    field x (p ++ f1 ++ f2 ++ f3 ++ f4) (n + 57) = x.for2doub f4 := by
  refine ⟨?_, ?_, ?_, ?_⟩
  · have e : p ++ f1 ++ f2 ++ f3 ++ f4 = p ++ f1 ++ (f2 ++ f3 ++ f4) := by
      simp only [List.append_assoc]
    rw [field, e, substr_mid p f1 _ n 19 hp h1]
    rfl
  · have e : p ++ f1 ++ f2 ++ f3 ++ f4 = (p ++ f1) ++ f2 ++ (f3 ++ f4) := by
      simp only [List.append_assoc]
    rw [field, e, substr_mid (p ++ f1) f2 _ (n + 19) 19 (by simp [hp, h1]) h2]
    rfl
  · have e : p ++ f1 ++ f2 ++ f3 ++ f4 = (p ++ f1 ++ f2) ++ f3 ++ f4 := by
      simp only [List.append_assoc]
    rw [field, e, substr_mid (p ++ f1 ++ f2) f3 _ (n + 38) 19 (by simp [hp, h1, h2]) h3]
    rfl
  · rw [field, substr_tail (p ++ f1 ++ f2 ++ f3) f4 (n + 57) 19 (by simp [hp, h1, h2, h3]) h4]
    rfl

theorem field_layout2 (x : Ext) (p f1 f2 : Line) (n : Nat) (hp : p.length = n)
    (h1 : f1.length = 19) (h2 : f2.length ≤ 19) :
    field x (p ++ f1 ++ f2) n = x.for2doub f1 ∧
    field x (p ++ f1 ++ f2) (n + 19) = x.for2doub f2 := by
  refine ⟨?_, ?_⟩
  · rw [field, substr_mid p f1 _ n 19 hp h1]
    rfl
  · rw [field, substr_tail (p ++ f1) f2 (n + 19) 19 (by simp [hp, h1]) h2]
    rfl

theorem epochOf_append_left (x : Ext) (h rest : Line) (hh : h.length = 22) :
    epochOf x (h ++ rest) = epochOf x h := by
  unfold epochOf
  rw [substr_append_left h rest 2 3 (by omega), substr_append_left h rest 5 3 (by omega),
    substr_append_left h rest 8 3 (by omega), substr_append_left h rest 11 3 (by omega),
    substr_append_left h rest 14 3 (by omega), substr_append_left h rest 17 5 (by omega)]

theorem getPRNEpoch_layout (x : Ext) (r : RinexNavData) (h a1 a2 a3 : Line)
    (prn : Int) (t : CommonTime) (v1 v2 v3 : ℚ)
    (hh : h.length = 22) (hb : ∀ i ∈ [2, 5, 8, 11, 14, 17], charAt h i = ' ')
    (l1 : a1.length = 19) (l2 : a2.length = 19) (l3 : a3.length = 19)
    (hprn : (substr h 0 2).bind x.asInt = some prn) (ht : epochOf x h = some t)
    (p1 : x.for2doub a1 = some v1) (p2 : x.for2doub a2 = some v2)
    (p3 : x.for2doub a3 = some v3) :
    getPRNEpoch x r (h ++ a1 ++ a2 ++ a3)
      = ⟨{ r with PRNID := prn, time := t, af0 := v1, af1 := v2, af2 := v3 }, false⟩ := by
  have e : h ++ a1 ++ a2 ++ a3 = h ++ (a1 ++ a2 ++ a3) := by simp only [List.append_assoc]
  have hany : ¬ ([2, 5, 8, 11, 14, 17].any
      (fun i => charAt (h ++ a1 ++ a2 ++ a3) i != ' ') = true) := by
    rw [List.any_eq_true]
    rintro ⟨i, hi, hne⟩
    have hlt : i < h.length := by
      rw [hh]
      simp only [List.mem_cons, List.mem_singleton, List.not_mem_nil, or_false] at hi
      omega
    rw [e, charAt_append_left h _ i hlt, hb i hi] at hne
    simp at hne
  have hf := field_layout4 x h a1 a2 a3 [] 22 hh l1 l2 l3 (by simp)
  simp only [List.append_nil] at hf
  unfold getPRNEpoch
  rw [if_neg hany, hf.1, hf.2.1, hf.2.2.1, p1, p2, p3]
  rw [e, substr_append_left h _ 0 2 (by omega), epochOf_append_left x h _ hh, hprn, ht]
  rfl

/-! ## Decoding by offsets agrees with reading field by field -/

theorem RecordText.WellFormed.field_length {T : RecordText} (hw : T.WellFormed) (f : Line)
    (hf : f ∈ T.fields) : f.length = 19 :=
  hw.2.2.1 f hf

theorem RecordText.WellFormed.fitint_length {T : RecordText} (hw : T.WellFormed) :
    T.fitint.length ≤ 19 := by
  rcases hw.2.2.2 with h | h
  · omega
  · simp [h]

theorem getPRNEpoch_parse (x : Ext) (T : RecordText) (r r' : RinexNavData)
    (hw : T.WellFormed) (hp : parseLine0 x T r = some r') :
    getPRNEpoch x r (T.head ++ T.af0 ++ T.af1 ++ T.af2) = ⟨r', false⟩ := by
  unfold parseLine0 at hp
  cases h0 : (substr T.head 0 2).bind x.asInt with
  | none => simp [h0] at hp
  | some prn =>
  cases h1 : epochOf x T.head with
  | none => simp [h0, h1] at hp
  | some t =>
  cases h2 : x.for2doub T.af0 with
  | none => simp [h0, h1, h2] at hp
  | some v1 =>
  cases h3 : x.for2doub T.af1 with
  | none => simp [h0, h1, h2, h3] at hp
  | some v2 =>
  cases h4 : x.for2doub T.af2 with
  | none => simp [h0, h1, h2, h3, h4] at hp
  | some v3 =>
  simp only [h0, h1, h2, h3, h4, Option.some_bind, Option.some.injEq] at hp
  rw [← hp]
  exact getPRNEpoch_layout x r T.head T.af0 T.af1 T.af2 prn t v1 v2 v3 hw.1 hw.2.1
    (hw.field_length _ (by simp [RecordText.fields]))
    (hw.field_length _ (by simp [RecordText.fields]))
    (hw.field_length _ (by simp [RecordText.fields])) h0 h1 h2 h3 h4

theorem getBroadcastOrbit1_parse (x : Ext) (T : RecordText) (r r' : RinexNavData)
    (hw : T.WellFormed) (hp : parseLine1 x T r = some r') :
    getBroadcastOrbit1 x r (blanks 3 ++ T.IODE ++ T.Crs ++ T.dn ++ T.M0) = ⟨r', false⟩ := by
  have hf := field_layout4 x (blanks 3) T.IODE T.Crs T.dn T.M0 3 (blanks_length 3)
    (hw.field_length _ (by simp [RecordText.fields]))
    (hw.field_length _ (by simp [RecordText.fields]))
    (hw.field_length _ (by simp [RecordText.fields]))
    (le_of_eq (hw.field_length _ (by simp [RecordText.fields])))
  unfold parseLine1 at hp
  unfold getBroadcastOrbit1
  rw [hf.1, hf.2.1, hf.2.2.1, hf.2.2.2]
  cases h1 : x.for2doub T.IODE with
  | none => simp [h1] at hp
  | some v1 =>
  cases h2 : x.for2doub T.Crs with
  | none => simp [h1, h2] at hp
  | some v2 =>
  cases h3 : x.for2doub T.dn with
  | none => simp [h1, h2, h3] at hp
  | some v3 =>
  cases h4 : x.for2doub T.M0 with
  | none => simp [h1, h2, h3, h4] at hp
  | some v4 =>
  simp only [h1, h2, h3, h4, Option.some_bind, Option.some.injEq] at hp
  rw [← hp]
  rfl

theorem getBroadcastOrbit2_parse (x : Ext) (T : RecordText) (r r' : RinexNavData)
    (hw : T.WellFormed) (hp : parseLine2 x T r = some r') :
    getBroadcastOrbit2 x r (blanks 3 ++ T.Cuc ++ T.ecc ++ T.Cus ++ T.Ahalf) = ⟨r', false⟩ := by
  have hf := field_layout4 x (blanks 3) T.Cuc T.ecc T.Cus T.Ahalf 3 (blanks_length 3)
    (hw.field_length _ (by simp [RecordText.fields]))
    (hw.field_length _ (by simp [RecordText.fields]))
    (hw.field_length _ (by simp [RecordText.fields]))
    (le_of_eq (hw.field_length _ (by simp [RecordText.fields])))
  unfold parseLine2 at hp
  unfold getBroadcastOrbit2
  rw [hf.1, hf.2.1, hf.2.2.1, hf.2.2.2]
  cases h1 : x.for2doub T.Cuc with
  | none => simp [h1] at hp
  | some v1 =>
  cases h2 : x.for2doub T.ecc with
  | none => simp [h1, h2] at hp
  | some v2 =>
  cases h3 : x.for2doub T.Cus with
  | none => simp [h1, h2, h3] at hp
  | some v3 =>
  cases h4 : x.for2doub T.Ahalf with
  | none => simp [h1, h2, h3, h4] at hp
  | some v4 =>
  simp only [h1, h2, h3, h4, Option.some_bind, Option.some.injEq] at hp
  rw [← hp]
  rfl

theorem getBroadcastOrbit3_parse (x : Ext) (T : RecordText) (r r' : RinexNavData)
    (hw : T.WellFormed) (hp : parseLine3 x T r = some r') :
    getBroadcastOrbit3 x r (blanks 3 ++ T.Toe ++ T.Cic ++ T.OMEGA0 ++ T.Cis) = ⟨r', false⟩ := by
  have hf := field_layout4 x (blanks 3) T.Toe T.Cic T.OMEGA0 T.Cis 3 (blanks_length 3)
    (hw.field_length _ (by simp [RecordText.fields]))
    (hw.field_length _ (by simp [RecordText.fields]))
    (hw.field_length _ (by simp [RecordText.fields]))
    (le_of_eq (hw.field_length _ (by simp [RecordText.fields])))
  unfold parseLine3 at hp
  unfold getBroadcastOrbit3
  rw [hf.1, hf.2.1, hf.2.2.1, hf.2.2.2]
  cases h1 : x.for2doub T.Toe with
  | none => simp [h1] at hp
  | some v1 =>
  cases h2 : x.for2doub T.Cic with
  | none => simp [h1, h2] at hp
  | some v2 =>
  cases h3 : x.for2doub T.OMEGA0 with
  | none => simp [h1, h2, h3] at hp
  | some v3 =>
  cases h4 : x.for2doub T.Cis with
  | none => simp [h1, h2, h3, h4] at hp
  | some v4 =>
  simp only [h1, h2, h3, h4, Option.some_bind, Option.some.injEq] at hp
  rw [← hp]
  rfl

theorem getBroadcastOrbit4_parse (x : Ext) (T : RecordText) (r r' : RinexNavData)
    (hw : T.WellFormed) (hp : parseLine4 x T r = some r') :
    getBroadcastOrbit4 x r (blanks 3 ++ T.i0 ++ T.Crc ++ T.w ++ T.OMEGAdot) = ⟨r', false⟩ := by
  have hf := field_layout4 x (blanks 3) T.i0 T.Crc T.w T.OMEGAdot 3 (blanks_length 3)
    (hw.field_length _ (by simp [RecordText.fields]))
    (hw.field_length _ (by simp [RecordText.fields]))
    (hw.field_length _ (by simp [RecordText.fields]))
    (le_of_eq (hw.field_length _ (by simp [RecordText.fields])))
  unfold parseLine4 at hp
  unfold getBroadcastOrbit4
  rw [hf.1, hf.2.1, hf.2.2.1, hf.2.2.2]
  cases h1 : x.for2doub T.i0 with
  | none => simp [h1] at hp
  | some v1 =>
  cases h2 : x.for2doub T.Crc with
  | none => simp [h1, h2] at hp
  | some v2 =>
  cases h3 : x.for2doub T.w with
  | none => simp [h1, h2, h3] at hp
  | some v3 =>
  cases h4 : x.for2doub T.OMEGAdot with
  | none => simp [h1, h2, h3, h4] at hp
  | some v4 =>
  simp only [h1, h2, h3, h4, Option.some_bind, Option.some.injEq] at hp
  rw [← hp]
  rfl

theorem getBroadcastOrbit5_parse (x : Ext) (T : RecordText) (r r' : RinexNavData)
    (hw : T.WellFormed) (hp : parseLine5 x T r = some r') :
    getBroadcastOrbit5 x r (blanks 3 ++ T.idot ++ T.codeflgs ++ T.toeWeek ++ T.L2Pdata)
      = ⟨r', false⟩ := by
  have hf := field_layout4 x (blanks 3) T.idot T.codeflgs T.toeWeek T.L2Pdata 3
    (blanks_length 3)
    (hw.field_length _ (by simp [RecordText.fields]))
    (hw.field_length _ (by simp [RecordText.fields]))
    (hw.field_length _ (by simp [RecordText.fields]))
    (le_of_eq (hw.field_length _ (by simp [RecordText.fields])))
  unfold parseLine5 at hp
  unfold getBroadcastOrbit5
  rw [hf.1, hf.2.1, hf.2.2.1, hf.2.2.2]
  cases h1 : x.for2doub T.idot with
  | none => simp [h1] at hp
  | some v1 =>
  cases h2 : x.for2doub T.codeflgs with
  | none => simp [h1, h2] at hp
  | some v2 =>
  cases h3 : x.for2doub T.toeWeek with
  | none => simp [h1, h2, h3] at hp
  | some v3 =>
  cases h4 : x.for2doub T.L2Pdata with
  | none => simp [h1, h2, h3, h4] at hp
  | some v4 =>
  simp only [h1, h2, h3, h4, Option.some_bind, Option.some.injEq] at hp
  rw [← hp]
  rfl

theorem getBroadcastOrbit6_parse (x : Ext) (T : RecordText) (r r' : RinexNavData)
    (hw : T.WellFormed) (hp : parseLine6 x T r = some r') :
    getBroadcastOrbit6 x r (blanks 3 ++ T.accuracy ++ T.health ++ T.Tgd ++ T.IODC)
      = ⟨r', false⟩ := by
  have hf := field_layout4 x (blanks 3) T.accuracy T.health T.Tgd T.IODC 3 (blanks_length 3)
    (hw.field_length _ (by simp [RecordText.fields]))
    (hw.field_length _ (by simp [RecordText.fields]))
    (hw.field_length _ (by simp [RecordText.fields]))
    (le_of_eq (hw.field_length _ (by simp [RecordText.fields])))
  unfold parseLine6 at hp
  unfold getBroadcastOrbit6
  rw [hf.1, hf.2.1, hf.2.2.1, hf.2.2.2]
  cases h1 : x.for2doub T.accuracy with
  | none => simp [h1] at hp
  | some v1 =>
  cases h2 : x.for2doub T.health with
  | none => simp [h1, h2] at hp
  | some v2 =>
  cases h3 : x.for2doub T.Tgd with
  | none => simp [h1, h2, h3] at hp
  | some v3 =>
  cases h4 : x.for2doub T.IODC with
  | none => simp [h1, h2, h3, h4] at hp
  | some v4 =>
  simp only [h1, h2, h3, h4, Option.some_bind, Option.some.injEq] at hp
  rw [← hp]
  rfl

theorem getBroadcastOrbit7_parse (x : Ext) (T : RecordText) (r r' : RinexNavData)
    (hw : T.WellFormed) (hp : parseLine7 x T r = some r') :
    getBroadcastOrbit7 x r (blanks 3 ++ T.sf1XmitTime ++ T.fitint) = ⟨r', false⟩ := by
  have hf := field_layout2 x (blanks 3) T.sf1XmitTime T.fitint 3 (blanks_length 3)
    (hw.field_length _ (by simp [RecordText.fields])) hw.fitint_length
  unfold parseLine7 at hp
  unfold getBroadcastOrbit7
  rw [hf.1, hf.2]
  cases h1 : x.for2doub T.sf1XmitTime with
  | none => simp [h1] at hp
  | some v1 =>
  cases h2 : x.for2doub T.fitint with
  | none => simp [h1, h2] at hp
  | some v2 =>
  simp only [h1, h2, Option.some_bind, Option.some.injEq] at hp
  rw [← hp]
  rfl

theorem reallyGetRecord_parse (x : Ext) (T : RecordText) (r r' : RinexNavData)
    (hw : T.WellFormed) (hp : parseText x T r = some r') :
    reallyGetRecord x r T.lines = ⟨r', false⟩ := by
  unfold parseText at hp
  cases h0 : parseLine0 x T r with
  | none => simp [h0] at hp
  | some r0 =>
  cases h1 : parseLine1 x T r0 with
  | none => simp [h0, h1] at hp
  | some r1 =>
  cases h2 : parseLine2 x T r1 with
  | none => simp [h0, h1, h2] at hp
  | some r2 =>
  cases h3 : parseLine3 x T r2 with
  | none => simp [h0, h1, h2, h3] at hp
  | some r3 =>
  cases h4 : parseLine4 x T r3 with
  | none => simp [h0, h1, h2, h3, h4] at hp
  | some r4 =>
  cases h5 : parseLine5 x T r4 with
  | none => simp [h0, h1, h2, h3, h4, h5] at hp
  | some r5 =>
  cases h6 : parseLine6 x T r5 with
  | none => simp [h0, h1, h2, h3, h4, h5, h6] at hp
  | some r6 =>
  simp only [h0, h1, h2, h3, h4, h5, h6, Option.some_bind] at hp
  simp only [reallyGetRecord, RecordText.lines, withLine, Outcome.andThen,
    getPRNEpoch_parse x T r r0 hw h0, getBroadcastOrbit1_parse x T r0 r1 hw h1,
    getBroadcastOrbit2_parse x T r1 r2 hw h2, getBroadcastOrbit3_parse x T r2 r3 hw h3,
    getBroadcastOrbit4_parse x T r3 r4 hw h4, getBroadcastOrbit5_parse x T r4 r5 hw h5,
    getBroadcastOrbit6_parse x T r5 r6 hw h6, getBroadcastOrbit7_parse x T r6 r' hw hp,
    Bool.false_eq_true, if_false]

theorem reallyPutRecord_eq_lines (x : Ext) (r : RinexNavData) (ver : ℚ) :
    reallyPutRecord x r ver = (textOf x r ver).lines := by
  unfold reallyPutRecord RecordText.lines textOf putPRNEpoch putBroadcastOrbit1
    putBroadcastOrbit2 putBroadcastOrbit3 putBroadcastOrbit4 putBroadcastOrbit5
    putBroadcastOrbit6 putBroadcastOrbit7
  by_cases hv : ver ≥ 21 / 10
  · simp only [hv, if_true, List.append_assoc]
  · simp only [hv, if_false, List.append_assoc, List.append_nil]

/-! ## Round trips -/

theorem toShort_isShort (z : Int) : IsShort (toShort z) := by
  unfold IsShort toShort
  omega

theorem truncate_intCast (z : Int) : truncate (z : ℚ) = z := by
  unfold truncate
  simp

theorem toShort_truncate_intCast (z : Int) (h : IsShort z) :
    toShort (truncate (z : ℚ)) = z := by
  rw [truncate_intCast]
  exact toShort_of_range z h.1 h.2

theorem decodeLines_ok_at (x : Ext) (P : RinexNavData → Prop) (j : Nat)
    (hP : ∀ r line, (getLine x j r line).failed = false → P (getLine x j r line).record)
    (hframe : ∀ a b, lineView j a = lineView j b → P b → P a) :
    ∀ (n k : Nat) (r rm : RinexNavData) (lines : List Line), k + n ≤ 8 → k ≤ j → j < k + n →
      decodeLines x n k r lines = ⟨rm, false⟩ → P rm := by
  intro n
  induction n with
  | zero =>
    intro k r rm lines _ h1 h2 _
    omega
  | succ n ih =>
    intro k r rm lines hk h1 h2 h
    cases lines with
    | nil => simp [decodeLines] at h
    | cons line rest =>
      simp only [decodeLines, Outcome.andThen] at h
      split at h
      · rename_i hf
        rw [h] at hf
        simp at hf
      · rename_i hf
        by_cases hkj : k = j
        · subst hkj
          have h3 := hP r line (by simpa using hf)
          have h4 := decodeLines_ok_frame x n (k + 1) (getLine x k r line).record rm rest
            (by omega) h k (by omega)
          exact hframe _ _ h4 h3
        · exact ih (k + 1) (getLine x k r line).record rm rest (by omega) (by omega)
            (by omega) h

theorem decoded_shorts (x : Ext) (r0 r : RinexNavData) (lines : List Line)
    (h : reallyGetRecord x r0 lines = ⟨r, false⟩) :
    IsShort r.codeflgs ∧ IsShort r.toeWeek ∧ IsShort r.L2Pdata ∧ IsShort r.health := by
  rw [reallyGetRecord_eq_decodeLines] at h
  have h5 : IsShort r.codeflgs ∧ IsShort r.toeWeek ∧ IsShort r.L2Pdata := by
    refine decodeLines_ok_at x
      (fun r => IsShort r.codeflgs ∧ IsShort r.toeWeek ∧ IsShort r.L2Pdata) 5 ?_ ?_
      8 0 r0 r lines (by omega) (by omega) (by omega) h
    · intro r line hf
      simp only [getLine, getBroadcastOrbit5, orFail] at hf ⊢
      repeat' split at hf
      all_goals first
        | (simp at hf; done)
        | skip
      all_goals simp_all only [toShort_isShort, and_self]
    · intro a b hv hb
      have e1 : a.codeflgs = b.codeflgs :=
        (congrArg RinexNavData.codeflgs hv :
          (lineView 5 a).codeflgs = (lineView 5 b).codeflgs)
      have e2 : a.toeWeek = b.toeWeek :=
        (congrArg RinexNavData.toeWeek hv :
          (lineView 5 a).toeWeek = (lineView 5 b).toeWeek)
      have e3 : a.L2Pdata = b.L2Pdata :=
        (congrArg RinexNavData.L2Pdata hv :
          (lineView 5 a).L2Pdata = (lineView 5 b).L2Pdata)
      rw [e1, e2, e3]
      exact hb
  have h6 : IsShort r.health := by
    refine decodeLines_ok_at x (fun r => IsShort r.health) 6 ?_ ?_
      8 0 r0 r lines (by omega) (by omega) (by omega) h
    · intro r line hf
      simp only [getLine, getBroadcastOrbit6, orFail] at hf ⊢
      repeat' split at hf
      all_goals first
        | (simp at hf; done)
        | skip
      all_goals simp_all only [toShort_isShort]
    · intro a b hv hb
      have e1 : a.health = b.health :=
        (congrArg RinexNavData.health hv :
          (lineView 6 a).health = (lineView 6 b).health)
      rw [e1]
      exact hb
  exact ⟨h5.1, h5.2.1, h5.2.2, h6⟩

theorem textOf_fields (x : Ext) (r : RinexNavData) (ver : ℚ) :
    (textOf x r ver).fields = (encodedValues r).map fun v => blanks 1 ++ x.doub2for v :=
  rfl

theorem textOf_wellFormed (x : Ext) (r : RinexNavData) (ver : ℚ)
    (hnum : ∀ v ∈ encodedValues r, NumberRoundTrips x v)
    (hfit : ver ≥ 21 / 10 → NumberRoundTrips x r.fitint)
    (hhead : HeadRoundTrips x r) : (textOf x r ver).WellFormed := by
  refine ⟨hhead.1, hhead.2.1, ?_, ?_⟩
  · intro f hf
    rw [textOf_fields, List.mem_map] at hf
    obtain ⟨v, hv, rfl⟩ := hf
    rw [List.length_append, blanks_length, (hnum v hv).1]
  · by_cases hv : ver ≥ 21 / 10
    · left
      simp only [textOf, hv, if_true]
      rw [List.length_append, blanks_length, (hfit hv).1]
    · right
      simp only [textOf, hv, if_false]

theorem parseText_textOf (x : Ext) (r r0 : RinexNavData) (ver : ℚ) (z : ℚ)
    (hnum : ∀ v ∈ encodedValues r, NumberRoundTrips x v)
    (hz : x.for2doub (textOf x r ver).fitint = some z)
    (hhead : HeadRoundTrips x r)
    (hs : IsShort r.codeflgs ∧ IsShort r.toeWeek ∧ IsShort r.L2Pdata ∧ IsShort r.health) :
    parseText x (textOf x r ver) r0 = some { r with fitint := z } := by
  have hc : ∀ v ∈ encodedValues r, x.for2doub (blanks 1 ++ x.doub2for v) = some v :=
    fun v hv => (hnum v hv).2
  have h0 : ∀ r', parseLine0 x (textOf x r ver) r'
      = some { r' with PRNID := r.PRNID, time := r.time, af0 := r.af0, af1 := r.af1,
                       af2 := r.af2 } := by
    intro r'
    simp only [parseLine0, textOf, hhead.2.2.1, hhead.2.2.2, Option.some_bind,
      hc r.af0 (by simp [encodedValues]), hc r.af1 (by simp [encodedValues]),
      hc r.af2 (by simp [encodedValues])]
  have h1 : ∀ r', parseLine1 x (textOf x r ver) r'
      = some { r' with IODE := r.IODE, Crs := r.Crs, dn := r.dn, M0 := r.M0 } := by
    intro r'
    simp only [parseLine1, textOf, Option.some_bind,
      hc r.IODE (by simp [encodedValues]), hc r.Crs (by simp [encodedValues]),
      hc r.dn (by simp [encodedValues]), hc r.M0 (by simp [encodedValues])]
  have h2 : ∀ r', parseLine2 x (textOf x r ver) r'
      = some { r' with Cuc := r.Cuc, ecc := r.ecc, Cus := r.Cus, Ahalf := r.Ahalf } := by
    intro r'
    simp only [parseLine2, textOf, Option.some_bind,
      hc r.Cuc (by simp [encodedValues]), hc r.ecc (by simp [encodedValues]),
      hc r.Cus (by simp [encodedValues]), hc r.Ahalf (by simp [encodedValues])]
  have h3 : ∀ r', parseLine3 x (textOf x r ver) r'
      = some { r' with Toe := r.Toe, Cic := r.Cic, OMEGA0 := r.OMEGA0, Cis := r.Cis } := by
    intro r'
    simp only [parseLine3, textOf, Option.some_bind,
      hc r.Toe (by simp [encodedValues]), hc r.Cic (by simp [encodedValues]),
      hc r.OMEGA0 (by simp [encodedValues]), hc r.Cis (by simp [encodedValues])]
  have h4 : ∀ r', parseLine4 x (textOf x r ver) r'
      = some { r' with i0 := r.i0, Crc := r.Crc, w := r.w, OMEGAdot := r.OMEGAdot } := by
    intro r'
    simp only [parseLine4, textOf, Option.some_bind,
      hc r.i0 (by simp [encodedValues]), hc r.Crc (by simp [encodedValues]),
      hc r.w (by simp [encodedValues]), hc r.OMEGAdot (by simp [encodedValues])]
  have h5 : ∀ r', parseLine5 x (textOf x r ver) r'
      = some { r' with idot := r.idot, codeflgs := r.codeflgs, L2Pdata := r.L2Pdata,
                       toeWeek := r.toeWeek } := by
    intro r'
    simp only [parseLine5, textOf, Option.some_bind,
      hc r.idot (by simp [encodedValues]), hc (r.codeflgs : ℚ) (by simp [encodedValues]),
      hc (r.toeWeek : ℚ) (by simp [encodedValues]),
      hc (r.L2Pdata : ℚ) (by simp [encodedValues]),
      toShort_truncate_intCast _ hs.1, toShort_truncate_intCast _ hs.2.1,
      toShort_truncate_intCast _ hs.2.2.1]
  have h6 : ∀ r', parseLine6 x (textOf x r ver) r'
      = some { r' with accuracy := r.accuracy, Tgd := r.Tgd, IODC := r.IODC,
                       health := r.health } := by
    intro r'
    simp only [parseLine6, textOf, Option.some_bind,
      hc r.accuracy (by simp [encodedValues]), hc (r.health : ℚ) (by simp [encodedValues]),
      hc r.Tgd (by simp [encodedValues]), hc r.IODC (by simp [encodedValues]),
      toShort_truncate_intCast _ hs.2.2.2]
  have h7 : ∀ r', parseLine7 x (textOf x r ver) r'
      = some { r' with sf1XmitTime := r.sf1XmitTime, fitint := z } := by
    intro r'
    have e : (textOf x r ver).sf1XmitTime = blanks 1 ++ x.doub2for (r.sf1XmitTime : ℚ) := rfl
    simp only [parseLine7, e, hz, Option.some_bind,
      hc (r.sf1XmitTime : ℚ) (by simp [encodedValues]), truncate_intCast]
  simp only [parseText, h0, h1, h2, h3, h4, h5, h6, h7, Option.some_bind]

theorem epochOf_of_fields (x : Ext) (currentLine : Line) (yy mo day hr min : Int) (s : ℚ)
    (hyy : (substr currentLine 2 3).bind x.asInt = some yy)
    (hmo : (substr currentLine 5 3).bind x.asInt = some mo)
    (hday : (substr currentLine 8 3).bind x.asInt = some day)
    (hhr : (substr currentLine 11 3).bind x.asInt = some hr)
    (hmin : (substr currentLine 14 3).bind x.asInt = some min)
    (hs : (substr currentLine 17 5).bind x.asDouble = some s)
    (ryy : 0 ≤ yy ∧ yy ≤ 99) (rmo : IsShort mo) (rday : IsShort day) (rhr : IsShort hr)
    (rmin : IsShort min) :
    epochOf x currentLine
      = (x.civilToCommon (if 80 ≤ yy then 1900 + yy else 2000 + yy) mo day hr min
          (if s ≥ 60 then 0 else s) TimeSystem.GPS).bind
          fun t => some (if s ≥ 60 then x.addSeconds t s else t) := by
  have hyr : toShort yy = yy := toShort_of_range yy (by omega) (by omega)
  have hY : toShort ((if toShort yy < 80 then toShort (toShort yy + 100) else toShort yy) + 1900)
      = (if 80 ≤ yy then 1900 + yy else 2000 + yy) := by
    rw [hyr]
    by_cases h80 : yy < 80
    · rw [if_pos h80, if_neg (by omega), toShort_of_range (yy + 100) (by omega) (by omega),
        toShort_of_range _ (by omega) (by omega)]
      omega
    · rw [if_neg h80, if_pos (by omega), toShort_of_range _ (by omega) (by omega)]
      omega
  have hds : ∀ t : CommonTime,
      (if (if s ≥ 60 then s else 0) ≠ 0 then x.addSeconds t (if s ≥ 60 then s else 0) else t)
        = (if s ≥ 60 then x.addSeconds t s else t) := by
    intro t
    by_cases h60 : s ≥ 60
    · have hne : s ≠ 0 := by
        intro h
        rw [h] at h60
        norm_num at h60
      simp [h60, hne]
    · simp [h60]
  unfold epochOf
  simp only [hyy, hmo, hday, hhr, hmin, hs, Option.some_bind, hY,
    toShort_of_range mo rmo.1 rmo.2, toShort_of_range day rday.1 rday.2,
    toShort_of_range hr rhr.1 rhr.2, toShort_of_range min rmin.1 rmin.2, hds]

theorem isTenths_unique (s sec : ℚ) (hs : IsTenths s) (hsec : IsTenths sec)
    (hlo : sec - 1 / 20 ≤ s) (hhi : s ≤ sec + 1 / 20) : s = sec := by
  unfold IsTenths at hs hsec
  have h1 : ((Rat.floor (s * 10) - Rat.floor (sec * 10) : Int) : ℚ) < 1 := by
    push_cast
    rw [hs, hsec]
    linarith
  have h2 : (-1 : ℚ) < ((Rat.floor (s * 10) - Rat.floor (sec * 10) : Int) : ℚ) := by
    push_cast
    rw [hs, hsec]
    linarith
  have h3 : Rat.floor (s * 10) - Rat.floor (sec * 10) < 1 := by exact_mod_cast h1
  have h4 : -1 < Rat.floor (s * 10) - Rat.floor (sec * 10) := by exact_mod_cast h2
  have h5 : Rat.floor (s * 10) = Rat.floor (sec * 10) := by omega
  have h6 : s * 10 = sec * 10 := by rw [← hs, ← hsec, h5]
  linarith

/-- The in-source part of the round trip of the PRN and epoch columns: when the
external formatters and parsers agree on the columns written for the record,
the civil year of its epoch lies in 1980..2079, the month, day, hour and minute
are in the range of a `short`, and the seconds are below 60 and a whole number
of tenths, `getPRNEpoch` reads the epoch of the record from them. -/
theorem headRoundTrips_of_headCodec (x : Ext) (r : RinexNavData) (yr mo day hr min : Int)
    (sec : ℚ) (hh : HeadCodec x r.PRNID r.time yr mo day hr min sec)
    (hyr : 1980 ≤ yr ∧ yr ≤ 2079)
    (rmo : IsShort mo) (rday : IsShort day) (rhr : IsShort hr) (rmin : IsShort min)
    (hs60 : sec < 60) (hten : IsTenths sec) : HeadRoundTrips x r := by
  obtain ⟨hlen, hsep, hprn, hyy, hmo, hday, hhr, hmin, ⟨s, hs, hsten, hlo, hhi⟩, hcal⟩ := hh
  have hsec : s = sec := isTenths_unique s sec hsten hten hlo hhi
  subst hsec
  have he := epochOf_of_fields x (headOf x r.PRNID r.time) (yr % 100) mo day hr min s
    hyy hmo hday hhr hmin hs (by omega) rmo rday rhr rmin
  have hY : (if 80 ≤ yr % 100 then 1900 + yr % 100 else 2000 + yr % 100) = yr := by
    split <;> omega
  have h60 : ¬ (s ≥ 60) := not_le.mpr hs60
  rw [hY] at he
  simp only [h60, if_false] at he
  rw [hcal] at he
  exact ⟨hlen, hsep, hprn, he⟩

/-- C6 (as stated) fails, in three ways, each for a record produced by decoding
whose numbers all round-trip through the number codec.  With version 2, line 8
carries only the transmit time and the example record, whose fit interval is 4,
is read back with fit interval 0.  With version 2.1, the record decoded from
`12 79 12 31 23 59 60.0` has its epoch on 2080-01-01 (day 2480765), is written
with the year `80`, and is read back with its epoch on 1980-01-01 (day
2444240); and the record decoded from a seconds field `5.12` is written with
the seconds ` 5.1` and read back with an epoch 0.02 s earlier.  In both cases
the external formatters and parsers agree on the columns written: the year 2080
is outside 1980..2079, and 5.12 is not a whole number of tenths. -/
theorem C6_value_round_trip_counterexample :
    (reallyGetRecord Ref.ext RinexNavData.init exampleText = ⟨exampleRecord, false⟩ ∧
      exampleRecord.fitint = 4 ∧
      reallyGetRecord Ref.ext RinexNavData.init (reallyPutRecord Ref.ext exampleRecord 2)
        = ⟨{ exampleRecord with fitint := 0 }, false⟩ ∧
      reallyGetRecord Ref.ext RinexNavData.init (reallyPutRecord Ref.ext exampleRecord 2)
        ≠ ⟨exampleRecord, false⟩) ∧
    (reallyGetRecord Ref.ext RinexNavData.init rolloverText
        = ⟨{ exampleRecord with time := ⟨2480765, 0, TimeSystem.GPS⟩ }, false⟩ ∧
      (∀ v ∈ encodedValues { exampleRecord with time := ⟨2480765, 0, TimeSystem.GPS⟩ },
        NumberRoundTrips Ref.ext v) ∧
      NumberRoundTrips Ref.ext exampleRecord.fitint ∧
      HeadCodec Ref.ext 12 ⟨2480765, 0, TimeSystem.GPS⟩ 2080 1 1 0 0 0 ∧
      reallyGetRecord Ref.ext RinexNavData.init
          (reallyPutRecord Ref.ext
            { exampleRecord with time := ⟨2480765, 0, TimeSystem.GPS⟩ } (21 / 10))
        = ⟨{ exampleRecord with time := ⟨2444240, 0, TimeSystem.GPS⟩ }, false⟩ ∧
      ({ exampleRecord with time := ⟨2444240, 0, TimeSystem.GPS⟩ } : RinexNavData)
        ≠ { exampleRecord with time := ⟨2480765, 0, TimeSystem.GPS⟩ }) ∧
    (reallyGetRecord Ref.ext RinexNavData.init hundredthsText
        = ⟨{ exampleRecord with time := ⟨2453659, 1125128 / 25, TimeSystem.GPS⟩ }, false⟩ ∧
      HeadCodec Ref.ext 12 ⟨2453659, 1125128 / 25, TimeSystem.GPS⟩ 2005 10 15 12 30 (128 / 25) ∧
      ¬ IsTenths (128 / 25) ∧
      reallyGetRecord Ref.ext RinexNavData.init
          (reallyPutRecord Ref.ext
            { exampleRecord with time := ⟨2453659, 1125128 / 25, TimeSystem.GPS⟩ } (21 / 10))
        = ⟨{ exampleRecord with time := ⟨2453659, 450051 / 10, TimeSystem.GPS⟩ }, false⟩ ∧
      ({ exampleRecord with time := ⟨2453659, 450051 / 10, TimeSystem.GPS⟩ } : RinexNavData)
        ≠ { exampleRecord with time := ⟨2453659, 1125128 / 25, TimeSystem.GPS⟩ }) := by
  have h1 : HeadCodec Ref.ext 12 ⟨2480765, 0, TimeSystem.GPS⟩ 2080 1 1 0 0 0 :=
    ⟨by decide!, by decide!, by decide!, by decide!, by decide!, by decide!, by decide!,
      by decide!, ⟨0, by decide!, by decide!, by decide!, by decide!⟩, by decide!⟩
  have h2 : HeadCodec Ref.ext 12 ⟨2453659, 1125128 / 25, TimeSystem.GPS⟩ 2005 10 15 12 30
      (128 / 25) :=
    ⟨by decide!, by decide!, by decide!, by decide!, by decide!, by decide!, by decide!,
      by decide!, ⟨51 / 10, by decide!, by decide!, by decide!, by decide!⟩, by decide!⟩
  exact ⟨⟨by decide!, by decide!, by decide!, by decide!⟩,
    ⟨by decide!, by decide!, by decide!, h1, by decide!, by decide!⟩,
    ⟨by decide!, h2, by decide!, by decide!, by decide!⟩⟩

/-- C6 (amended): let `r` be a record produced by decoding whose epoch is the
civil timestamp `yr mo day hr min sec`, with `yr` in 1980..2079, the month,
day, hour and minute in the range of a `short`, and `sec` below 60 and a whole
number of tenths.  Assume that the number codec round-trips every number
written for `r` and that the external formatters and parsers agree on the PRN
and epoch columns written for `r` (`HeadCodec`).  Then decoding the eight lines
written for `r` with a version of at least 2.1 gives `r` again, whatever record
the decoding starts from; with a version below 2.1 it gives `r` in every field
except the fit interval, which is whatever the codec reads from an empty
field. -/
theorem C6_value_round_trip (x : Ext) (r r1 r0 : RinexNavData) (lines1 : List Line) (ver : ℚ)
    (yr mo day hr min : Int) (sec : ℚ)
    (hprod : reallyGetRecord x r1 lines1 = ⟨r, false⟩)
    (hnum : ∀ v ∈ encodedValues r, NumberRoundTrips x v)
    (hcodec : HeadCodec x r.PRNID r.time yr mo day hr min sec)
    (hyr : 1980 ≤ yr ∧ yr ≤ 2079)
    (rmo : IsShort mo) (rday : IsShort day) (rhr : IsShort hr) (rmin : IsShort min)
    (hs60 : sec < 60) (hten : IsTenths sec) :
    (ver ≥ 21 / 10 → NumberRoundTrips x r.fitint →
      reallyGetRecord x r0 (reallyPutRecord x r ver) = ⟨r, false⟩) ∧
    (ver < 21 / 10 → ∀ z, x.for2doub [] = some z →
      reallyGetRecord x r0 (reallyPutRecord x r ver) = ⟨{ r with fitint := z }, false⟩) := by
  have hs := decoded_shorts x r1 r lines1 hprod
  have hhead : HeadRoundTrips x r :=
    headRoundTrips_of_headCodec x r yr mo day hr min sec hcodec hyr rmo rday rhr rmin hs60 hten
  constructor
  · intro hv hfit
    have hw := textOf_wellFormed x r ver hnum (fun _ => hfit) hhead
    have hz : x.for2doub (textOf x r ver).fitint = some r.fitint := by
      simp only [textOf, hv, if_true]
      exact hfit.2
    rw [reallyPutRecord_eq_lines]
    exact reallyGetRecord_parse x _ r0 r hw (parseText_textOf x r r0 ver r.fitint hnum hz hhead hs)
  · intro hv z hz0
    have hnv : ¬ (ver ≥ 21 / 10) := not_le.mpr hv
    have hw := textOf_wellFormed x r ver hnum (fun h => absurd h hnv) hhead
    have hz : x.for2doub (textOf x r ver).fitint = some z := by
      simp only [textOf, hnv, if_false]
      exact hz0
    rw [reallyPutRecord_eq_lines]
    exact reallyGetRecord_parse x _ r0 _ hw (parseText_textOf x r r0 ver z hnum hz hhead hs)

/-- Witness for C6 (amended): the example record, produced by decoding the
example text, whose epoch is 2005-10-15 12:30:45.0, with the reference
collaborators. -/
theorem C6_value_round_trip_witness :
    reallyGetRecord Ref.ext RinexNavData.init exampleText = ⟨exampleRecord, false⟩ ∧
    (∀ v ∈ encodedValues exampleRecord, NumberRoundTrips Ref.ext v) ∧
    HeadCodec Ref.ext exampleRecord.PRNID exampleRecord.time 2005 10 15 12 30 45 ∧
    IsTenths 45 ∧
    NumberRoundTrips Ref.ext exampleRecord.fitint ∧
    Ref.ext.for2doub [] = some 0 ∧
    reallyGetRecord Ref.ext RinexNavData.init (reallyPutRecord Ref.ext exampleRecord (21 / 10))
      = ⟨exampleRecord, false⟩ ∧
    reallyGetRecord Ref.ext RinexNavData.init (reallyPutRecord Ref.ext exampleRecord 2)
      = ⟨{ exampleRecord with fitint := 0 }, false⟩ := by
  have hcodec : HeadCodec Ref.ext exampleRecord.PRNID exampleRecord.time 2005 10 15 12 30 45 :=
    ⟨by decide!, by decide!, by decide!, by decide!, by decide!, by decide!, by decide!,
      by decide!, ⟨45, by decide!, by decide!, by decide!, by decide!⟩, by decide!⟩
  exact ⟨by decide!, by decide!, hcodec, by decide!, by decide!, by decide!,
    (C6_value_round_trip Ref.ext exampleRecord RinexNavData.init RinexNavData.init exampleText
      (21 / 10) 2005 10 15 12 30 45 (by decide!) (by decide!) hcodec (by decide)
      (by unfold IsShort; decide) (by unfold IsShort; decide) (by unfold IsShort; decide)
      (by unfold IsShort; decide) (by decide!) (by decide!)).1 (by decide!) (by decide!),
    (C6_value_round_trip Ref.ext exampleRecord RinexNavData.init RinexNavData.init exampleText
      2 2005 10 15 12 30 45 (by decide!) (by decide!) hcodec (by decide)
      (by unfold IsShort; decide) (by unfold IsShort; decide) (by unfold IsShort; decide)
      (by unfold IsShort; decide) (by decide!) (by decide!)).2 (by decide!) 0 (by decide!)⟩

/-- C7 (as stated) fails, for texts in the record layout that are decoded
without error.  The epoch line `12 99 12 31 23 59 60.0` is written back as
`12 00  1  1  0  0  0.0`.  A week of 40000 is stored as the `short` -25536 and
written back as such; code flags of 1.5 and a transmit time of 518400.5 are
stored as 1 and 518400.  An exponent introduced by `E` is written back with
`D`, and a month and day `01 05` as ` 1  5`.  A line 8 without fit interval is
written back with one for version 2.1, and a line 8 with a fit interval is
written back without it for version 2. -/
theorem C7_text_round_trip_counterexample :
    (leapRecordText.WellFormed ∧ leapRecordText.lines = leapText ∧
      leapText.map List.length = [79, 79, 79, 79, 79, 79, 79, 41] ∧
      (reallyGetRecord Ref.ext RinexNavData.init leapText).failed = false ∧
      reallyPutRecord Ref.ext (reallyGetRecord Ref.ext RinexNavData.init leapText).record
          (21 / 10)
        = ("12 00  1  1  0  0  0.0 0.123400000000D-03 -.500000000000D-11 0.000000000000D+00").toList
            :: exampleOrbitLines ∧
      reallyPutRecord Ref.ext (reallyGetRecord Ref.ext RinexNavData.init leapText).record
          (21 / 10)
        ≠ leapText) ∧
    (wideWeekText.map List.length = [79, 79, 79, 79, 79, 79, 79, 41] ∧
      (reallyGetRecord Ref.ext RinexNavData.init wideWeekText).failed = false ∧
      (reallyGetRecord Ref.ext RinexNavData.init wideWeekText).record.toeWeek = -25536 ∧
      reEncode Ref.ext (21 / 10) wideWeekText
        = exampleWith 5
            ("    0.100000000000D-09 0.100000000000D+01 -.255360000000D+05 0.000000000000D+00").toList ∧
      reEncode Ref.ext (21 / 10) wideWeekText ≠ wideWeekText) ∧
    (halfFlagText.map List.length = [79, 79, 79, 79, 79, 79, 79, 41] ∧
      (reallyGetRecord Ref.ext RinexNavData.init halfFlagText).failed = false ∧
      reEncode Ref.ext (21 / 10) halfFlagText = exampleText ∧
      reEncode Ref.ext (21 / 10) halfFlagText ≠ halfFlagText) ∧
    (fractionalText.map List.length = [79, 79, 79, 79, 79, 79, 79, 41] ∧
      (reallyGetRecord Ref.ext RinexNavData.init fractionalText).failed = false ∧
      reEncode Ref.ext (21 / 10) fractionalText = exampleText ∧
      reEncode Ref.ext (21 / 10) fractionalText ≠ fractionalText) ∧
    (exponentText.map List.length = [79, 79, 79, 79, 79, 79, 79, 41] ∧
      (reallyGetRecord Ref.ext RinexNavData.init exponentText).failed = false ∧
      reEncode Ref.ext (21 / 10) exponentText = exampleText ∧
      reEncode Ref.ext (21 / 10) exponentText ≠ exponentText) ∧
    (paddedText.map List.length = [79, 79, 79, 79, 79, 79, 79, 41] ∧
      (reallyGetRecord Ref.ext RinexNavData.init paddedText).failed = false ∧
      reEncode Ref.ext (21 / 10) paddedText
        = exampleWith 0
            ("12 05  1  5 12 30 45.0 0.123400000000D-03 -.500000000000D-11 0.000000000000D+00").toList ∧
      reEncode Ref.ext (21 / 10) paddedText ≠ paddedText) ∧
    (shortText.map List.length = [79, 79, 79, 79, 79, 79, 79, 22] ∧
      (reallyGetRecord Ref.ext RinexNavData.init shortText).failed = false ∧
      reEncode Ref.ext (21 / 10) shortText
        = exampleWith 7 ("    0.518400000000D+06 0.000000000000D+00").toList ∧
      reEncode Ref.ext (21 / 10) shortText ≠ shortText) ∧
    (exampleText.map List.length = [79, 79, 79, 79, 79, 79, 79, 41] ∧
      (reallyGetRecord Ref.ext RinexNavData.init exampleText).failed = false ∧
      reEncode Ref.ext 2 exampleText = shortText ∧
      reEncode Ref.ext 2 exampleText ≠ exampleText) := by
  refine ⟨⟨by decide!, by decide!, by decide, by decide!, by decide!, by decide!⟩,
    ⟨by decide, by decide!, by decide!, by decide!, by decide!⟩,
    ⟨by decide, by decide!, by decide!, by decide!⟩,
    ⟨by decide, by decide!, by decide!, by decide!⟩,
    ⟨by decide, by decide!, by decide!, by decide!⟩,
    ⟨by decide, by decide!, by decide!, by decide!⟩,
    ⟨by decide, by decide!, by decide!, by decide!⟩,
    ⟨by decide, by decide!, by decide!, by decide!⟩⟩

theorem IsRendering.exists_value {x : Ext} {f : Line} (h : IsRendering x f) :
    ∃ v, x.for2doub f = some v ∧ blanks 1 ++ x.doub2for v = f := by
  unfold IsRendering at h
  cases hv : x.for2doub f with
  | none => simp [hv] at h
  | some v =>
    rw [hv] at h
    exact ⟨v, rfl, by simpa using h⟩

theorem IsRendering.of_value {x : Ext} {f : Line} {v : ℚ} (h : IsRendering x f)
    (hv : x.for2doub f = some v) : blanks 1 ++ x.doub2for v = f := by
  unfold IsRendering at h
  rw [hv] at h
  simpa using h

/-- C7 (amended): let `T` be a text in the record layout such that
(a) the parsers read from its PRN and epoch columns a PRN and the civil fields
`yr mo day hr min sec` (`yr` being the year in 1980..2079 with the two digits
of the text), with month, day, hour and minute in the range of a `short` and
seconds below 60, and these columns are what the formatters write for that PRN
and for the time `t` of that civil timestamp;
(b) every numeric field is what the number codec writes for the number it
reads from the field;
(c) the fields of the code flags, the week, the L2 P flag and the health hold
integers in the range of a `short`, and the field of the transmit time holds an
integer;
(d) with a version of at least 2.1 the fit-interval field is what the number
codec writes for the number it reads from it, and with a version below 2.1 it
is absent, the codec reading a number from the empty string.
Then decoding the eight lines succeeds and encoding the record decoded, with
that version, reproduces the eight lines. -/
theorem C7_text_round_trip (x : Ext) (ver : ℚ) (T : RecordText) (r0 : RinexNavData)
    (prn yr mo day hr min : Int) (sec : ℚ) (t : CommonTime) (cf tw l2 hl xm : Int)
    (hw : T.WellFormed)
    (hreads : HeadReads x T.head prn yr mo day hr min sec)
    (hyr : 1980 ≤ yr ∧ yr ≤ 2079)
    (rmo : IsShort mo) (rday : IsShort day) (rhr : IsShort hr) (rmin : IsShort min)
    (hs60 : sec < 60)
    (hcal : x.civilToCommon yr mo day hr min sec TimeSystem.GPS = some t)
    (hhead : headOf x prn t = T.head)
    (hnum : ∀ f ∈ T.fields, IsRendering x f)
    (hcf : x.for2doub T.codeflgs = some (cf : ℚ)) (rcf : IsShort cf)
    (htw : x.for2doub T.toeWeek = some (tw : ℚ)) (rtw : IsShort tw)
    (hl2 : x.for2doub T.L2Pdata = some (l2 : ℚ)) (rl2 : IsShort l2)
    (hhl : x.for2doub T.health = some (hl : ℚ)) (rhl : IsShort hl)
    (hxm : x.for2doub T.sf1XmitTime = some (xm : ℚ))
    (hfit : (ver ≥ 21 / 10 → IsRendering x T.fitint) ∧
      (ver < 21 / 10 → T.fitint = [] ∧ (x.for2doub []).isSome = true)) :
    (reallyGetRecord x r0 T.lines).failed = false ∧
    reallyPutRecord x (reallyGetRecord x r0 T.lines).record ver = T.lines := by
  obtain ⟨hprn, hyy, hmo, hday, hhr, hmin, hsec⟩ := hreads
  have he : epochOf x T.head = some t := by
    have he := epochOf_of_fields x T.head (yr % 100) mo day hr min sec
      hyy hmo hday hhr hmin hsec (by omega) rmo rday rhr rmin
    have hY : (if 80 ≤ yr % 100 then 1900 + yr % 100 else 2000 + yr % 100) = yr := by
      split <;> omega
    have h60 : ¬ (sec ≥ 60) := not_le.mpr hs60
    rw [hY] at he
    simp only [h60, if_false] at he
    rw [hcal] at he
    exact he
  have hfit' : ∃ vfit, x.for2doub T.fitint = some vfit ∧
      (if ver ≥ 21 / 10 then blanks 1 ++ x.doub2for vfit else []) = T.fitint := by
    by_cases hv : ver ≥ 21 / 10
    · obtain ⟨v, h1, h2⟩ := (hfit.1 hv).exists_value
      exact ⟨v, h1, by rw [if_pos hv, h2]⟩
    · obtain ⟨h1, h2⟩ := hfit.2 (not_le.mp hv)
      rw [h1]
      cases hz : x.for2doub [] with
      | none => simp [hz] at h2
      | some z => exact ⟨z, rfl, by rw [if_neg hv]⟩
  obtain ⟨vfit, pfit, efit⟩ := hfit'
  obtain ⟨v_af0, p_af0, e_af0⟩ :=
    (hnum T.af0 (by simp [RecordText.fields])).exists_value
  obtain ⟨v_af1, p_af1, e_af1⟩ :=
    (hnum T.af1 (by simp [RecordText.fields])).exists_value
  obtain ⟨v_af2, p_af2, e_af2⟩ :=
    (hnum T.af2 (by simp [RecordText.fields])).exists_value
  obtain ⟨v_IODE, p_IODE, e_IODE⟩ :=
    (hnum T.IODE (by simp [RecordText.fields])).exists_value
  obtain ⟨v_Crs, p_Crs, e_Crs⟩ :=
    (hnum T.Crs (by simp [RecordText.fields])).exists_value
  obtain ⟨v_dn, p_dn, e_dn⟩ :=
    (hnum T.dn (by simp [RecordText.fields])).exists_value
  obtain ⟨v_M0, p_M0, e_M0⟩ :=
    (hnum T.M0 (by simp [RecordText.fields])).exists_value
  obtain ⟨v_Cuc, p_Cuc, e_Cuc⟩ :=
    (hnum T.Cuc (by simp [RecordText.fields])).exists_value
  obtain ⟨v_ecc, p_ecc, e_ecc⟩ :=
    (hnum T.ecc (by simp [RecordText.fields])).exists_value
  obtain ⟨v_Cus, p_Cus, e_Cus⟩ :=
    (hnum T.Cus (by simp [RecordText.fields])).exists_value
  obtain ⟨v_Ahalf, p_Ahalf, e_Ahalf⟩ :=
    (hnum T.Ahalf (by simp [RecordText.fields])).exists_value
  obtain ⟨v_Toe, p_Toe, e_Toe⟩ :=
    (hnum T.Toe (by simp [RecordText.fields])).exists_value
  obtain ⟨v_Cic, p_Cic, e_Cic⟩ :=
    (hnum T.Cic (by simp [RecordText.fields])).exists_value
  obtain ⟨v_OMEGA0, p_OMEGA0, e_OMEGA0⟩ :=
    (hnum T.OMEGA0 (by simp [RecordText.fields])).exists_value
  obtain ⟨v_Cis, p_Cis, e_Cis⟩ :=
    (hnum T.Cis (by simp [RecordText.fields])).exists_value
  obtain ⟨v_i0, p_i0, e_i0⟩ :=
    (hnum T.i0 (by simp [RecordText.fields])).exists_value
  obtain ⟨v_Crc, p_Crc, e_Crc⟩ :=
    (hnum T.Crc (by simp [RecordText.fields])).exists_value
  obtain ⟨v_w, p_w, e_w⟩ :=
    (hnum T.w (by simp [RecordText.fields])).exists_value
  obtain ⟨v_OMEGAdot, p_OMEGAdot, e_OMEGAdot⟩ :=
    (hnum T.OMEGAdot (by simp [RecordText.fields])).exists_value
  obtain ⟨v_idot, p_idot, e_idot⟩ :=
    (hnum T.idot (by simp [RecordText.fields])).exists_value
  obtain ⟨v_accuracy, p_accuracy, e_accuracy⟩ :=
    (hnum T.accuracy (by simp [RecordText.fields])).exists_value
  obtain ⟨v_Tgd, p_Tgd, e_Tgd⟩ :=
    (hnum T.Tgd (by simp [RecordText.fields])).exists_value
  obtain ⟨v_IODC, p_IODC, e_IODC⟩ :=
    (hnum T.IODC (by simp [RecordText.fields])).exists_value
  have e_codeflgs : blanks 1 ++ x.doub2for (cf : ℚ) = T.codeflgs :=
    (hnum T.codeflgs (by simp [RecordText.fields])).of_value hcf
  have e_toeWeek : blanks 1 ++ x.doub2for (tw : ℚ) = T.toeWeek :=
    (hnum T.toeWeek (by simp [RecordText.fields])).of_value htw
  have e_L2Pdata : blanks 1 ++ x.doub2for (l2 : ℚ) = T.L2Pdata :=
    (hnum T.L2Pdata (by simp [RecordText.fields])).of_value hl2
  have e_health : blanks 1 ++ x.doub2for (hl : ℚ) = T.health :=
    (hnum T.health (by simp [RecordText.fields])).of_value hhl
  have e_sf1XmitTime : blanks 1 ++ x.doub2for (xm : ℚ) = T.sf1XmitTime :=
    (hnum T.sf1XmitTime (by simp [RecordText.fields])).of_value hxm
  have h0 : ∀ r', parseLine0 x T r'
      = some { r' with PRNID := prn, time := t, af0 := v_af0, af1 := v_af1, af2 := v_af2 } := by
    intro r'
    simp only [parseLine0, hprn, he, p_af0, p_af1, p_af2, Option.some_bind]
  have h1 : ∀ r', parseLine1 x T r'
      = some { r' with IODE := v_IODE, Crs := v_Crs, dn := v_dn, M0 := v_M0 } := by
    intro r'
    simp only [parseLine1, p_IODE, p_Crs, p_dn, p_M0, Option.some_bind]
  have h2 : ∀ r', parseLine2 x T r'
      = some { r' with Cuc := v_Cuc, ecc := v_ecc, Cus := v_Cus, Ahalf := v_Ahalf } := by
    intro r'
    simp only [parseLine2, p_Cuc, p_ecc, p_Cus, p_Ahalf, Option.some_bind]
  have h3 : ∀ r', parseLine3 x T r'
      = some { r' with Toe := v_Toe, Cic := v_Cic, OMEGA0 := v_OMEGA0, Cis := v_Cis } := by
    intro r'
    simp only [parseLine3, p_Toe, p_Cic, p_OMEGA0, p_Cis, Option.some_bind]
  have h4 : ∀ r', parseLine4 x T r'
      = some { r' with i0 := v_i0, Crc := v_Crc, w := v_w, OMEGAdot := v_OMEGAdot } := by
    intro r'
    simp only [parseLine4, p_i0, p_Crc, p_w, p_OMEGAdot, Option.some_bind]
  have h5 : ∀ r', parseLine5 x T r'
      = some { r' with idot := v_idot, codeflgs := cf, L2Pdata := l2, toeWeek := tw } := by
    intro r'
    simp only [parseLine5, p_idot, hcf, htw, hl2, Option.some_bind,
      toShort_truncate_intCast _ rcf, toShort_truncate_intCast _ rtw,
      toShort_truncate_intCast _ rl2]
  have h6 : ∀ r', parseLine6 x T r'
      = some { r' with accuracy := v_accuracy, Tgd := v_Tgd, IODC := v_IODC, health := hl } := by
    intro r'
    simp only [parseLine6, p_accuracy, hhl, p_Tgd, p_IODC, Option.some_bind,
      toShort_truncate_intCast _ rhl]
  have h7 : ∀ r', parseLine7 x T r'
      = some { r' with sf1XmitTime := xm, fitint := vfit } := by
    intro r'
    simp only [parseLine7, hxm, pfit, Option.some_bind, truncate_intCast]
  have hp : parseText x T r0
      = some { time := t, PRNID := prn, sf1XmitTime := xm, toeWeek := tw, codeflgs := cf,
               accuracy := v_accuracy, health := hl, L2Pdata := l2, IODC := v_IODC,
               IODE := v_IODE, af0 := v_af0, af1 := v_af1, af2 := v_af2, Tgd := v_Tgd,
               Cuc := v_Cuc, Cus := v_Cus, Crc := v_Crc, Crs := v_Crs, Cic := v_Cic,
               Cis := v_Cis, Toe := v_Toe, M0 := v_M0, dn := v_dn, ecc := v_ecc,
               Ahalf := v_Ahalf, OMEGA0 := v_OMEGA0, i0 := v_i0, w := v_w,
               OMEGAdot := v_OMEGAdot, idot := v_idot, fitint := vfit } := by
    simp only [parseText, h0, h1, h2, h3, h4, h5, h6, h7, Option.some_bind]
  have hd := reallyGetRecord_parse x T r0 _ hw hp
  rw [hd]
  refine ⟨rfl, ?_⟩
  rw [reallyPutRecord_eq_lines]
  unfold headOf at hhead
  simp only [RecordText.lines, textOf, hhead, efit,
    e_af0, e_af1, e_af2, e_IODE, e_Crs, e_dn, e_M0, e_Cuc, e_ecc, e_Cus, e_Ahalf, e_Toe, e_Cic, e_OMEGA0,
    e_Cis, e_i0, e_Crc, e_w, e_OMEGAdot, e_idot, e_accuracy, e_Tgd, e_IODC, e_codeflgs, e_toeWeek, e_L2Pdata, e_health, e_sf1XmitTime]

/-- Witness for C7 (amended): the text of the example record for version 2.1,
whose lines are those of `exampleText`, and its text for version 2, whose line 8
carries no fit interval. -/
theorem C7_text_round_trip_witness :
    (textOf Ref.ext exampleRecord (21 / 10)).WellFormed ∧
    (textOf Ref.ext exampleRecord (21 / 10)).lines = exampleText ∧
    reallyPutRecord Ref.ext
        (reallyGetRecord Ref.ext RinexNavData.init
          (textOf Ref.ext exampleRecord (21 / 10)).lines).record (21 / 10)
      = (textOf Ref.ext exampleRecord (21 / 10)).lines ∧
    (textOf Ref.ext exampleRecord 2).lines = shortText ∧
    reallyPutRecord Ref.ext
        (reallyGetRecord Ref.ext RinexNavData.init (textOf Ref.ext exampleRecord 2).lines).record 2
      = (textOf Ref.ext exampleRecord 2).lines :=
  ⟨by decide!, by decide!,
    (C7_text_round_trip Ref.ext (21 / 10) (textOf Ref.ext exampleRecord (21 / 10))
      RinexNavData.init 12 2005 10 15 12 30 45 ⟨2453659, 45045, TimeSystem.GPS⟩
      1 1345 0 0 518400
      (by decide!) (by decide!) (by decide)
      (by unfold IsShort; decide) (by unfold IsShort; decide) (by unfold IsShort; decide)
      (by unfold IsShort; decide) (by decide!) (by decide!) (by decide!) (by decide!)
      (by decide!) (by unfold IsShort; decide) (by decide!) (by unfold IsShort; decide)
      (by decide!) (by unfold IsShort; decide) (by decide!) (by unfold IsShort; decide)
      (by decide!)
      ⟨fun _ => by decide!, fun h => absurd h (by decide!)⟩).2,
    by decide!,
    (C7_text_round_trip Ref.ext 2 (textOf Ref.ext exampleRecord 2)
      RinexNavData.init 12 2005 10 15 12 30 45 ⟨2453659, 45045, TimeSystem.GPS⟩
      1 1345 0 0 518400
      (by decide!) (by decide!) (by decide)
      (by unfold IsShort; decide) (by unfold IsShort; decide) (by unfold IsShort; decide)
      (by unfold IsShort; decide) (by decide!) (by decide!) (by decide!) (by decide!)
      (by decide!) (by unfold IsShort; decide) (by decide!) (by unfold IsShort; decide)
      (by decide!) (by unfold IsShort; decide) (by decide!) (by unfold IsShort; decide)
      (by decide!)
      ⟨fun h => absurd h (by decide!), fun _ => ⟨by decide!, by decide!⟩⟩).2⟩


/-! ## Leap seconds in the PRN/epoch line -/

/-- C11: on a PRN/epoch line whose separators are blank and whose fields are
all extracted and parsed (two-digit year `yy`, month, day, hour, minute,
seconds `s`, three clock fields), with `Y` the year resolved from `yy`:
if `s ≥ 60` and the civil timestamp `(Y, mo, day, hr, min, 0)` exists, decoding
succeeds and the epoch is that timestamp advanced by `s` seconds; if `s < 60`
and the civil timestamp `(Y, mo, day, hr, min, s)` exists, decoding succeeds and
the epoch is that timestamp, nothing being added. -/
theorem C11_leap_second (x : Ext) (r : RinexNavData) (currentLine : Line)
    (prn yy mo day hr min : Int) (s v1 v2 v3 : ℚ)
    (hsep : ∀ i ∈ [2, 5, 8, 11, 14, 17], charAt currentLine i = ' ')
    (hprn : (substr currentLine 0 2).bind x.asInt = some prn)
    (hyy : (substr currentLine 2 3).bind x.asInt = some yy)
    (hmo : (substr currentLine 5 3).bind x.asInt = some mo)
    (hday : (substr currentLine 8 3).bind x.asInt = some day)
    (hhr : (substr currentLine 11 3).bind x.asInt = some hr)
    (hmin : (substr currentLine 14 3).bind x.asInt = some min)
    (hs : (substr currentLine 17 5).bind x.asDouble = some s)
    (h1 : field x currentLine 22 = some v1) (h2 : field x currentLine 41 = some v2)
    (h3 : field x currentLine 60 = some v3)
    (ryy : 0 ≤ yy ∧ yy ≤ 99) (rmo : IsShort mo) (rday : IsShort day) (rhr : IsShort hr)
    (rmin : IsShort min) :
    (60 ≤ s → ∀ t,
      x.civilToCommon (if 80 ≤ yy then 1900 + yy else 2000 + yy) mo day hr min 0
        TimeSystem.GPS = some t →
      getPRNEpoch x r currentLine
        = ⟨{ r with PRNID := prn, time := x.addSeconds t s, af0 := v1, af1 := v2, af2 := v3 },
            false⟩) ∧
    (s < 60 → ∀ t,
      x.civilToCommon (if 80 ≤ yy then 1900 + yy else 2000 + yy) mo day hr min s
        TimeSystem.GPS = some t →
      getPRNEpoch x r currentLine
        = ⟨{ r with PRNID := prn, time := t, af0 := v1, af1 := v2, af2 := v3 }, false⟩) := by
  have hany : ¬ ([2, 5, 8, 11, 14, 17].any (fun i => charAt currentLine i != ' ') = true) := by
    rw [List.any_eq_true]
    rintro ⟨i, hi, hne⟩
    rw [hsep i hi] at hne
    simp at hne
  have he := epochOf_of_fields x currentLine yy mo day hr min s hyy hmo hday hhr hmin hs
    ryy rmo rday rhr rmin
  constructor
  · intro h60 t ht
    have h60' : s ≥ 60 := h60
    simp only [h60', if_true] at he
    rw [ht] at he
    unfold getPRNEpoch
    rw [if_neg hany, hprn, he, h1, h2, h3]
    rfl
  · intro h60 t ht
    have h60' : ¬ (s ≥ 60) := not_le.mpr h60
    simp only [h60', if_false] at he
    rw [ht] at he
    unfold getPRNEpoch
    rw [if_neg hany, hprn, he, h1, h2, h3]
    rfl

/-- Witness for C11: the line `12 99 12 31 23 59 60.0 ...` with the reference
collaborators.  The timestamp 23:59:60 itself cannot be built, the timestamp
23:59:00 can, and the epoch is the latter advanced by 60 s. -/
theorem C11_leap_second_witness :
    (∀ i ∈ [2, 5, 8, 11, 14, 17], charAt leapLine i = ' ') ∧
    (substr leapLine 17 5).bind Ref.ext.asDouble = some 60 ∧
    Ref.ext.civilToCommon 1999 12 31 23 59 60 TimeSystem.GPS = none ∧
    Ref.ext.civilToCommon 1999 12 31 23 59 0 TimeSystem.GPS
      = some ⟨2451544, 86340, TimeSystem.GPS⟩ ∧
    getPRNEpoch Ref.ext RinexNavData.init leapLine
      = ⟨{ RinexNavData.init with
            PRNID := 12,
            time := Ref.ext.addSeconds ⟨2451544, 86340, TimeSystem.GPS⟩ 60,
            af0 := 1234 / 10000000, af1 := -5 / 1000000000000, af2 := 0 }, false⟩ :=
  ⟨by decide!, by decide!, by decide!, by decide!,
    (C11_leap_second Ref.ext RinexNavData.init leapLine 12 99 12 31 23 59 60
      (1234 / 10000000) (-5 / 1000000000000) 0
      (by decide!) (by decide!) (by decide!) (by decide!) (by decide!) (by decide!)
      (by decide!) (by decide!) (by decide!) (by decide!) (by decide!)
      (by decide) (by unfold IsShort; decide) (by unfold IsShort; decide)
      (by unfold IsShort; decide) (by unfold IsShort; decide)).1
      (by decide!) ⟨2451544, 86340, TimeSystem.GPS⟩ (by decide!)⟩

/-! ## The orbit lines -/

theorem truncate_of_nonneg (v : ℚ) (h : 0 ≤ v) : truncate v = ⌊v⌋ := by
  unfold truncate
  rw [Rat.floor_def]
  exact Int.tdiv_eq_ediv (Rat.num_nonneg.mpr h) (Int.natCast_nonneg _)

theorem truncate_of_nonpos (v : ℚ) (h : v ≤ 0) : truncate v = ⌈v⌉ := by
  have h1 : truncate (-v) = ⌊-v⌋ := truncate_of_nonneg (-v) (by linarith)
  have h2 : truncate (-v) = -truncate v := by
    unfold truncate
    rw [Rat.neg_num, Rat.neg_den, Int.neg_tdiv]
  rw [Int.floor_neg] at h1
  omega

/-- C12: when the four fields of width 19 at offsets 3, 22, 41 and 60 of a line
are extracted and parsed as `v1`, `v2`, `v3`, `v4`, the decoders of lines 2 to 7
(`getBroadcastOrbit1` to `getBroadcastOrbit6`) succeed and return the record
with exactly these members assigned: IODE, Crs, dn, M0; Cuc, ecc, Cus, Ahalf;
Toe, Cic, OMEGA0, Cis; i0, Crc, w, OMEGAdot; idot, codeflgs, toeWeek, L2Pdata;
accuracy, health, Tgd, IODC.  The members codeflgs, toeWeek, L2Pdata and health
receive the value converted to `short`: truncated toward zero (the floor of a
value that is not negative, the ceiling of one that is not positive) and, when
that is in the range of a `short`, unchanged by the conversion. -/
theorem C12_orbit_lines (x : Ext) (r : RinexNavData) (currentLine : Line) (v1 v2 v3 v4 : ℚ)
    (h1 : field x currentLine 3 = some v1) (h2 : field x currentLine 22 = some v2)
    (h3 : field x currentLine 41 = some v3) (h4 : field x currentLine 60 = some v4) :
    getBroadcastOrbit1 x r currentLine
      = ⟨{ r with IODE := v1, Crs := v2, dn := v3, M0 := v4 }, false⟩ ∧
    getBroadcastOrbit2 x r currentLine
      = ⟨{ r with Cuc := v1, ecc := v2, Cus := v3, Ahalf := v4 }, false⟩ ∧
    getBroadcastOrbit3 x r currentLine
      = ⟨{ r with Toe := v1, Cic := v2, OMEGA0 := v3, Cis := v4 }, false⟩ ∧
    getBroadcastOrbit4 x r currentLine
      = ⟨{ r with i0 := v1, Crc := v2, w := v3, OMEGAdot := v4 }, false⟩ ∧
    getBroadcastOrbit5 x r currentLine
      = ⟨{ r with idot := v1, codeflgs := toShort (truncate v2),
                  toeWeek := toShort (truncate v3), L2Pdata := toShort (truncate v4) },
          false⟩ ∧
    getBroadcastOrbit6 x r currentLine
      = ⟨{ r with accuracy := v1, health := toShort (truncate v2), Tgd := v3, IODC := v4 },
          false⟩ ∧
    (∀ v : ℚ, IsShort (truncate v) → toShort (truncate v) = truncate v) ∧
    (∀ v : ℚ, 0 ≤ v → truncate v = ⌊v⌋) ∧
    (∀ v : ℚ, v ≤ 0 → truncate v = ⌈v⌉) := by
  refine ⟨?_, ?_, ?_, ?_, ?_, ?_, ?_, truncate_of_nonneg, truncate_of_nonpos⟩
  · simp only [getBroadcastOrbit1, h1, h2, h3, h4, orFail]
  · simp only [getBroadcastOrbit2, h1, h2, h3, h4, orFail]
  · simp only [getBroadcastOrbit3, h1, h2, h3, h4, orFail]
  · simp only [getBroadcastOrbit4, h1, h2, h3, h4, orFail]
  · simp only [getBroadcastOrbit5, h1, h2, h3, h4, orFail]
  · simp only [getBroadcastOrbit6, h1, h2, h3, h4, orFail]
  · intro v hv
    exact toShort_of_range _ hv.1 hv.2

/-- Witness for C12: line 6 of the example text (the fields read 1e-10, 1, 1345
and 0) with the reference collaborators. -/
theorem C12_orbit_lines_witness :
    field Ref.ext
        ("    0.100000000000D-09 0.100000000000D+01 0.134500000000D+04 0.000000000000D+00").toList
        3 = some (1 / 10000000000) ∧
    getBroadcastOrbit5 Ref.ext RinexNavData.init
        ("    0.100000000000D-09 0.100000000000D+01 0.134500000000D+04 0.000000000000D+00").toList
      = ⟨{ RinexNavData.init with
            idot := 1 / 10000000000, codeflgs := toShort (truncate 1),
            toeWeek := toShort (truncate 1345), L2Pdata := toShort (truncate 0) }, false⟩ ∧
    toShort (truncate 1345) = 1345 ∧ truncate (7 / 2) = 3 ∧ truncate (-7 / 2) = -3 :=
  ⟨by decide!,
    (C12_orbit_lines Ref.ext RinexNavData.init
      ("    0.100000000000D-09 0.100000000000D+01 0.134500000000D+04 0.000000000000D+00").toList
      (1 / 10000000000) 1 1345 0
      (by decide!) (by decide!) (by decide!) (by decide!)).2.2.2.2.1,
    by decide!, by decide!, by decide!⟩

/-! ## Line 8: transmit time and fit interval -/

/-- C13 (as stated) fails for a value with a fractional part: the transmit-time
field of `fractionalLine8` is parsed as 518400.5 and `getBroadcastOrbit7`
stores 518400, the member being an integer. -/
theorem C13_store_raw_counterexample :
    field Ref.ext fractionalLine8 3 = some (1036801 / 2) ∧
    (getBroadcastOrbit7 Ref.ext RinexNavData.init fractionalLine8).failed = false ∧
    (getBroadcastOrbit7 Ref.ext RinexNavData.init fractionalLine8).record.sf1XmitTime
      = 518400 ∧
    (((getBroadcastOrbit7 Ref.ext RinexNavData.init fractionalLine8).record.sf1XmitTime : Int) : ℚ)
      ≠ 1036801 / 2 := by
  refine ⟨by decide!, by decide!, by decide!, by decide!⟩

/-- C13 (amended): when the field at offset 3 of line 8 is extracted and parsed
as `v`, `getBroadcastOrbit7` stores `v` truncated toward zero to an integer as
transmit time, so an integer value is stored as it is, whatever its sign or
size and whatever `Toe` and `toeWeek` are; `toeWeek` is not modified.  The
function then succeeds with the fit interval read from offset 22, or fails there
with the transmit time already stored; no other member changes.  With the
reference codec, the values -100 and 700000 are stored as -100 and 700000. -/
theorem C13_store_raw :
    (∀ (x : Ext) (r : RinexNavData) (currentLine : Line) (v : ℚ),
      field x currentLine 3 = some v →
      (getBroadcastOrbit7 x r currentLine).record.sf1XmitTime = truncate v ∧
      (∀ z : Int, v = (z : ℚ) →
        (getBroadcastOrbit7 x r currentLine).record.sf1XmitTime = z) ∧
      (getBroadcastOrbit7 x r currentLine).record.toeWeek = r.toeWeek ∧
      (∀ w : ℚ, field x currentLine 22 = some w →
        getBroadcastOrbit7 x r currentLine
          = ⟨{ r with sf1XmitTime := truncate v, fitint := w }, false⟩) ∧
      (field x currentLine 22 = none →
        getBroadcastOrbit7 x r currentLine = ⟨{ r with sf1XmitTime := truncate v }, true⟩)) ∧
    (getBroadcastOrbit7 Ref.ext weekEndRecord
        ("    -.100000000000D+03 0.400000000000D+01").toList).record.sf1XmitTime = -100 ∧
    (getBroadcastOrbit7 Ref.ext weekEndRecord
        ("    0.700000000000D+06 0.400000000000D+01").toList).record.sf1XmitTime = 700000 ∧
    (getBroadcastOrbit7 Ref.ext weekEndRecord
        ("    0.700000000000D+06 0.400000000000D+01").toList).record.toeWeek = 1000 := by
  refine ⟨?_, by decide!, by decide!, by decide!⟩
  intro x r currentLine v h1
  have hsome : ∀ w : ℚ, field x currentLine 22 = some w →
      getBroadcastOrbit7 x r currentLine
        = ⟨{ r with sf1XmitTime := truncate v, fitint := w }, false⟩ := by
    intro w h2
    simp only [getBroadcastOrbit7, h1, h2, orFail]
  have hnone : field x currentLine 22 = none →
      getBroadcastOrbit7 x r currentLine = ⟨{ r with sf1XmitTime := truncate v }, true⟩ := by
    intro h2
    simp only [getBroadcastOrbit7, h1, h2, orFail]
  have hst : (getBroadcastOrbit7 x r currentLine).record.sf1XmitTime = truncate v := by
    cases h2 : field x currentLine 22 with
    | none => rw [hnone h2]
    | some w => rw [hsome w h2]
  refine ⟨hst, ?_, ?_, hsome, hnone⟩
  · intro z hz
    rw [hst, hz, truncate_intCast]
  · cases h2 : field x currentLine 22 with
    | none => rw [hnone h2]
    | some w => rw [hsome w h2]

/-- Witness for C13 (amended): line 8 of the example text, decoded into a record
whose `toeWeek` is 1000. -/
theorem C13_store_raw_witness :
    field Ref.ext ("    0.518400000000D+06 0.400000000000D+01").toList 3
      = some ((518400 : Int) : ℚ) ∧
    (getBroadcastOrbit7 Ref.ext weekEndRecord
        ("    0.518400000000D+06 0.400000000000D+01").toList).record.sf1XmitTime = 518400 :=
  ⟨by decide!,
    (C13_store_raw.1 Ref.ext weekEndRecord ("    0.518400000000D+06 0.400000000000D+01").toList
      ((518400 : Int) : ℚ) (by decide!)).2.1 518400 rfl⟩

theorem substr_at_end (s : Line) (len : Nat) : substr s s.length len = some [] := by
  unfold substr
  rw [if_neg (by omega), List.drop_length, List.take_nil]

/-- C14: on a line 8 of 22 characters, the form written for a version below 2.1,
with the transmit-time field extracted and parsed as `v`, the field at offset 22
is the empty string; when the codec reads the empty string as `z`,
`getBroadcastOrbit7` succeeds and the fit interval becomes `z`.  With a codec
that reads the empty string as zero, decoding succeeds and the fit interval is
zero (so it is the value held before, or zero).  The line written for a version
below 2.1 has 22 characters when the number is written in 18. -/
theorem C14_absent_fit_interval :
    (∀ (x : Ext) (r : RinexNavData) (currentLine : Line) (v z : ℚ),
      currentLine.length = 22 → field x currentLine 3 = some v → x.for2doub [] = some z →
      getBroadcastOrbit7 x r currentLine
          = ⟨{ r with sf1XmitTime := truncate v, fitint := z }, false⟩ ∧
      (z = 0 →
        (getBroadcastOrbit7 x r currentLine).failed = false ∧
        ((getBroadcastOrbit7 x r currentLine).record.fitint = r.fitint ∨
         (getBroadcastOrbit7 x r currentLine).record.fitint = 0))) ∧
    (∀ (x : Ext) (r : RinexNavData) (ver : ℚ),
      ver < 21 / 10 → (x.doub2for (r.sf1XmitTime : ℚ)).length = 18 →
      (putBroadcastOrbit7 x r ver).length = 22) := by
  constructor
  · intro x r currentLine v z hlen h1 hz
    have h2 : field x currentLine 22 = some z := by
      unfold field
      rw [← hlen, substr_at_end]
      exact hz
    have h : getBroadcastOrbit7 x r currentLine
        = ⟨{ r with sf1XmitTime := truncate v, fitint := z }, false⟩ := by
      simp only [getBroadcastOrbit7, h1, h2, orFail]
    refine ⟨h, ?_⟩
    intro hz0
    rw [h]
    exact ⟨rfl, Or.inr hz0⟩
  · intro x r ver hv hlen
    have hnv : ¬ (ver ≥ 21 / 10) := not_le.mpr hv
    simp only [putBroadcastOrbit7, hnv, if_false, List.length_append, blanks_length, hlen]

/-- Witness for C14: the line `shortLine8` decoded into the example record,
whose fit interval is 4, with the reference codec: the decoding succeeds and the
fit interval becomes 0. -/
theorem C14_absent_fit_interval_witness :
    shortLine8.length = 22 ∧ field Ref.ext shortLine8 3 = some 518400 ∧
    Ref.ext.for2doub [] = some 0 ∧ exampleRecord.fitint = 4 ∧
    getBroadcastOrbit7 Ref.ext exampleRecord shortLine8
      = ⟨{ exampleRecord with sf1XmitTime := truncate 518400, fitint := 0 }, false⟩ ∧
    putBroadcastOrbit7 Ref.ext exampleRecord 2 = shortLine8 :=
  ⟨by decide, by decide!, by decide!, by decide!,
    (C14_absent_fit_interval.1 Ref.ext exampleRecord shortLine8 518400 0
      (by decide) (by decide!) (by decide!)).1,
    by decide!⟩

/-- C15: the line 8 written by `putBroadcastOrbit7` is three blanks, the field
of the transmit time (a blank and the 18 characters of `doub2for`) and, exactly
when the version is at least 2.1, the field of the fit interval; below 2.1 the
line ends after the first field.  With numbers written in 18 characters the
line has 41 characters from version 2.1 on and 22 below.  The example record
gives `    0.518400000000D+06 0.400000000000D+01` for versions 2.1 and 2.11 and
`    0.518400000000D+06` for versions 2 and 2.09. -/
theorem C15_version_gate :
    (∀ (x : Ext) (r : RinexNavData) (ver : ℚ),
      (ver ≥ 21 / 10 →
        putBroadcastOrbit7 x r ver
          = blanks 3 ++ (blanks 1 ++ x.doub2for (r.sf1XmitTime : ℚ))
              ++ (blanks 1 ++ x.doub2for r.fitint)) ∧
      (ver < 21 / 10 →
        putBroadcastOrbit7 x r ver
          = blanks 3 ++ (blanks 1 ++ x.doub2for (r.sf1XmitTime : ℚ))) ∧
      ((x.doub2for (r.sf1XmitTime : ℚ)).length = 18 → (x.doub2for r.fitint).length = 18 →
        (blanks 1 ++ x.doub2for (r.sf1XmitTime : ℚ)).length = 19 ∧
        (blanks 1 ++ x.doub2for r.fitint).length = 19 ∧
        ((putBroadcastOrbit7 x r ver).length = 41 ↔ ver ≥ 21 / 10) ∧
        ((putBroadcastOrbit7 x r ver).length = 22 ↔ ver < 21 / 10))) ∧
    putBroadcastOrbit7 Ref.ext exampleRecord (21 / 10)
      = ("    0.518400000000D+06 0.400000000000D+01").toList ∧
    putBroadcastOrbit7 Ref.ext exampleRecord (211 / 100)
      = ("    0.518400000000D+06 0.400000000000D+01").toList ∧
    putBroadcastOrbit7 Ref.ext exampleRecord 2 = ("    0.518400000000D+06").toList ∧
    putBroadcastOrbit7 Ref.ext exampleRecord (209 / 100)
      = ("    0.518400000000D+06").toList := by
  refine ⟨?_, by decide!, by decide!, by decide!, by decide!⟩
  intro x r ver
  have hge : ver ≥ 21 / 10 →
      putBroadcastOrbit7 x r ver
        = blanks 3 ++ (blanks 1 ++ x.doub2for (r.sf1XmitTime : ℚ))
            ++ (blanks 1 ++ x.doub2for r.fitint) := by
    intro hv
    simp only [putBroadcastOrbit7, hv, if_true, List.append_assoc]
  have hlt : ver < 21 / 10 →
      putBroadcastOrbit7 x r ver
        = blanks 3 ++ (blanks 1 ++ x.doub2for (r.sf1XmitTime : ℚ)) := by
    intro hv
    have hnv : ¬ (ver ≥ 21 / 10) := not_le.mpr hv
    simp only [putBroadcastOrbit7, hnv, if_false, List.append_assoc]
  refine ⟨hge, hlt, ?_⟩
  intro l1 l2
  refine ⟨by simp [blanks_length, l1], by simp [blanks_length, l2], ?_, ?_⟩
  · by_cases hv : ver ≥ 21 / 10
    · rw [hge hv]
      simp [blanks_length, l1, l2, hv]
    · rw [hlt (not_le.mp hv)]
      simp [blanks_length, l1, hv]
  · by_cases hv : ver ≥ 21 / 10
    · rw [hge hv]
      simp [blanks_length, l1, l2, hv]
    · rw [hlt (not_le.mp hv)]
      simp [blanks_length, l1, not_le.mp hv]

/-- Witness for C15: the example record written for version 2, with the
reference codec. -/
theorem C15_version_gate_witness :
    (2 : ℚ) < 21 / 10 ∧
    putBroadcastOrbit7 Ref.ext exampleRecord 2
      = blanks 3 ++ (blanks 1 ++ Ref.ext.doub2for (exampleRecord.sf1XmitTime : ℚ)) ∧
    (Ref.ext.doub2for (exampleRecord.sf1XmitTime : ℚ)).length = 18 ∧
    (Ref.ext.doub2for exampleRecord.fitint).length = 18 ∧
    ((putBroadcastOrbit7 Ref.ext exampleRecord 2).length = 22 ↔ (2 : ℚ) < 21 / 10) :=
  ⟨by decide!,
    (C15_version_gate.1 Ref.ext exampleRecord 2).2.1 (by decide!),
    by decide!, by decide!,
    ((C15_version_gate.1 Ref.ext exampleRecord 2).2.2 (by decide!) (by decide!)).2.2.2⟩

/-! ## The modern model: semi-major axis -/

/-- C16 (as stated) fails in its example: for a record with `Ahalf = 5153.5` the
conversion, run with the reference model, gives the semi-major axis
26558562.25, which is 5153.5 squared, and not 26559568.25. -/
theorem C16_semi_major_axis_counterexample :
    (toGPSEphemeris Ref.timeLib Ref.modern
        { RinexNavData.init with Ahalf := 10307 / 2 }).map (fun g => g.A)
      = some (2655856225 / 100) ∧
    (10307 / 2 : ℚ) * (10307 / 2) = 2655856225 / 100 ∧
    (2655856225 / 100 : ℚ) ≠ 2655956825 / 100 := by
  refine ⟨by decide!, by norm_num, by norm_num⟩

/-- C16 (amended): the assignments of the conversion set the semi-major axis of
the model to `Ahalf * Ahalf`, the square of `Ahalf`, whatever the model held
before; when neither `setFitIntervalFlag` nor `adjustValidity` changes the
semi-major axis, this is its value in the model returned.  For
`Ahalf = 5153.5` the value is 26558562.25. -/
theorem C16_semi_major_axis :
    (∀ (σ : Type) (tl : TimeLib) (gpse : GPSEphemeris σ) (r : RinexNavData),
      (loadGPSEphemeris tl gpse r).A = r.Ahalf * r.Ahalf ∧
      (loadGPSEphemeris tl gpse r).A = r.Ahalf ^ 2) ∧
    (∀ (σ : Type) (tl : TimeLib) (m : ModernModel σ) (r : RinexNavData) (g : GPSEphemeris σ),
      (∀ a h, (m.setFitIntervalFlag a h).A = a.A) →
      (∀ a b, m.adjustValidity a = some b → b.A = a.A) →
      toGPSEphemeris tl m r = some g →
      g.A = r.Ahalf ^ 2 ∧ (r.Ahalf = 10307 / 2 → g.A = 2655856225 / 100)) := by
  have hload : ∀ (σ : Type) (tl : TimeLib) (gpse : GPSEphemeris σ) (r : RinexNavData),
      (loadGPSEphemeris tl gpse r).A = r.Ahalf * r.Ahalf := fun _ _ _ _ => rfl
  refine ⟨fun σ tl gpse r => ⟨hload σ tl gpse r, by rw [hload, sq]⟩, ?_⟩
  intro σ tl m r g hflag hadj hg
  have hA : g.A = r.Ahalf ^ 2 := by
    unfold toGPSEphemeris at hg
    rw [hadj _ g hg, hflag, hload, sq]
  refine ⟨hA, ?_⟩
  intro h
  rw [hA, h]
  norm_num

/-- Witness for C16 (amended): the reference model, and the default record with
`Ahalf = 5153.5`. -/
theorem C16_semi_major_axis_witness :
    (∀ a h, (Ref.modern.setFitIntervalFlag a h).A = a.A) ∧
    (∀ a b, Ref.modern.adjustValidity a = some b → b.A = a.A) ∧
    ∃ g, toGPSEphemeris Ref.timeLib Ref.modern { RinexNavData.init with Ahalf := 10307 / 2 }
        = some g ∧
      g.A = (10307 / 2 : ℚ) ^ 2 ∧ g.A = 2655856225 / 100 :=
  ⟨fun _ _ => rfl,
    fun a b h => by
      simp only [Ref.modern, Option.some.injEq] at h
      rw [← h],
    (Ref.modern.adjustValidity (Ref.modern.setFitIntervalFlag
        (loadGPSEphemeris Ref.timeLib Ref.modern.init
          { RinexNavData.init with Ahalf := 10307 / 2 })
        (truncate ({ RinexNavData.init with Ahalf := 10307 / 2 } : RinexNavData).fitint))).get
      (by decide!),
    by simp [toGPSEphemeris, Ref.modern],
    (C16_semi_major_axis.2 Ref.Derived Ref.timeLib Ref.modern
      { RinexNavData.init with Ahalf := 10307 / 2 } _
      (fun _ _ => rfl)
      (fun a b h => by
        simp only [Ref.modern, Option.some.injEq] at h
        rw [← h])
      (by simp [toGPSEphemeris, Ref.modern])).1,
    (C16_semi_major_axis.2 Ref.Derived Ref.timeLib Ref.modern
      { RinexNavData.init with Ahalf := 10307 / 2 } _
      (fun _ _ => rfl)
      (fun a b h => by
        simp only [Ref.modern, Option.some.injEq] at h
        rw [← h])
      (by simp [toGPSEphemeris, Ref.modern])).2 rfl⟩

/-! ## Flattened export and the legacy subframe-oriented model -/

/-- C17: `toList` returns exactly 31 values, in the order PRN, transmit seconds
of week, transmit week, code flags, accuracy, health, L2 P flag, IODC, IODE,
seconds of week of the clock epoch, af0, af1, af2, Tgd, Cuc, Cus, Crc, Crs, Cic,
Cis, Toe, M0, dn, ecc, Ahalf, OMEGA0, i0, w, OMEGAdot, idot, fit interval; the
transmit entries are those of the resolved transmit time `getXmitWS`, the clock
epoch entry is that of the time library applied to the epoch of the record, and
every other entry is the member of the record.  For the example record and the
reference time library the list is the one displayed. -/
theorem C17_toList_order :
    (∀ (tl : TimeLib) (r : RinexNavData),
      toList tl r
        = [(r.PRNID : ℚ), (getXmitWS r).sow, ((getXmitWS r).week : ℚ), (r.codeflgs : ℚ),
           r.accuracy, (r.health : ℚ), (r.L2Pdata : ℚ), r.IODC, r.IODE,
           (tl.toWeekSecond r.time).sow, r.af0, r.af1, r.af2, r.Tgd, r.Cuc, r.Cus, r.Crc,
           r.Crs, r.Cic, r.Cis, r.Toe, r.M0, r.dn, r.ecc, r.Ahalf, r.OMEGA0, r.i0, r.w,
           r.OMEGAdot, r.idot, r.fitint] ∧
      (toList tl r).length = 31) ∧
    toList Ref.timeLib exampleRecord
      = [(exampleRecord.PRNID : ℚ), 518400, 1345, (exampleRecord.codeflgs : ℚ),
         exampleRecord.accuracy, (exampleRecord.health : ℚ), (exampleRecord.L2Pdata : ℚ),
         exampleRecord.IODC, exampleRecord.IODE, 563445, exampleRecord.af0,
         exampleRecord.af1, exampleRecord.af2, exampleRecord.Tgd, exampleRecord.Cuc,
         exampleRecord.Cus, exampleRecord.Crc, exampleRecord.Crs, exampleRecord.Cic,
         exampleRecord.Cis, exampleRecord.Toe, exampleRecord.M0, exampleRecord.dn,
         exampleRecord.ecc, exampleRecord.Ahalf, exampleRecord.OMEGA0, exampleRecord.i0,
         exampleRecord.w, exampleRecord.OMEGAdot, exampleRecord.idot,
         exampleRecord.fitint] := by
  refine ⟨fun tl r => ⟨rfl, rfl⟩, by decide!⟩

/-- Adding seconds to a continuous time twice is adding their sum. -/
theorem Ref.addSeconds_add (t : CommonTime) (a b : ℚ) :
    Ref.addSeconds (Ref.addSeconds t a) b = Ref.addSeconds t (a + b) := by
  have key : Rat.floor ((t.sod + a - 86400 * ((Rat.floor ((t.sod + a) / 86400) : Int) : ℚ) + b)
        / 86400)
      = Rat.floor ((t.sod + (a + b)) / 86400) - Rat.floor ((t.sod + a) / 86400) := by
    have e : (t.sod + a - 86400 * ((Rat.floor ((t.sod + a) / 86400) : Int) : ℚ) + b) / 86400
        = (t.sod + (a + b)) / 86400 - ((Rat.floor ((t.sod + a) / 86400) : Int) : ℚ) := by
      field_simp
      ring
    rw [e]
    exact Int.floor_sub_int ((t.sod + (a + b)) / 86400 : ℚ) (Rat.floor ((t.sod + a) / 86400))
  unfold Ref.addSeconds
  simp only [key]
  congr 1
  · ring
  · push_cast
    ring

/-- C18: the conversion to the legacy model passes to subframe 1 the seconds of
week and the week of `T`, the resolved subframe-1 transmit time of the record
taken as a continuous time and converted back to week and seconds; to subframe 2
the seconds of week of `T + 6`; and to subframe 3 the seconds of week of
`(T + 6) + 6`, which is that of `T + 12` when adding seconds is additive.  With
the reference time library, a record transmitted at second 604797 of week 1000
has subframe 1 at second 604797 of week 1000, and subframes 2 and 3 at seconds 3
and 9, which are in week 1001. -/
theorem C18_subframe_times :
    (∀ (tl : TimeLib) (r : RinexNavData),
      getHOWTime tl r = tl.toCommonTime (getXmitWS r) ∧
      (sf1Args tl r).how = (tl.toWeekSecond (getHOWTime tl r)).sow ∧
      (sf1Args tl r).fullweek = (tl.toWeekSecond (getHOWTime tl r)).week ∧
      (sf2Args tl r).how = (tl.toWeekSecond (tl.addSeconds (getHOWTime tl r) 6)).sow ∧
      (sf3Args tl r).how
        = (tl.toWeekSecond (tl.addSeconds (tl.addSeconds (getHOWTime tl r) 6) 6)).sow ∧
      (tl.addSeconds (tl.addSeconds (getHOWTime tl r) 6) 6
          = tl.addSeconds (getHOWTime tl r) 12 →
        (sf3Args tl r).how = (tl.toWeekSecond (tl.addSeconds (getHOWTime tl r) 12)).sow) ∧
      ∀ (ε : Type) (l : LegacyModel ε),
        toEngEphemeris tl l r
          = l.setAccuracy
              (l.setFIC
                (l.setSF3 (l.setSF2 (l.setSF1 l.init (sf1Args tl r)) (sf2Args tl r))
                  (sf3Args tl r))
                false)
              r.accuracy) ∧
    (∀ (t : CommonTime),
      Ref.timeLib.addSeconds (Ref.timeLib.addSeconds t 6) 6 = Ref.timeLib.addSeconds t 12) ∧
    getXmitWS weekEndRecord = ⟨1000, 604797, TimeSystem.GPS⟩ ∧
    (sf1Args Ref.timeLib weekEndRecord).how = 604797 ∧
    (sf1Args Ref.timeLib weekEndRecord).fullweek = 1000 ∧
    (sf2Args Ref.timeLib weekEndRecord).how = 3 ∧
    (sf3Args Ref.timeLib weekEndRecord).how = 9 ∧
    (Ref.timeLib.toWeekSecond
        (Ref.timeLib.addSeconds (getHOWTime Ref.timeLib weekEndRecord) 6)).week = 1001 ∧
    (Ref.timeLib.toWeekSecond
        (Ref.timeLib.addSeconds (getHOWTime Ref.timeLib weekEndRecord) 12)).week = 1001 := by
  refine ⟨fun tl r => ⟨rfl, rfl, rfl, rfl, rfl, fun h => ?_, fun ε l => rfl⟩, ?_,
    by decide!, by decide!, by decide!, by decide!, by decide!, by decide!, by decide!⟩
  · rw [← h]
    rfl
  · intro t
    have h := Ref.addSeconds_add t 6 6
    norm_num at h
    exact h

/-- Witness for C18: the record transmitted at second 604797 of week 1000, with
the reference time library, for which adding seconds is additive. -/
theorem C18_subframe_times_witness :
    Ref.timeLib.addSeconds (Ref.timeLib.addSeconds (getHOWTime Ref.timeLib weekEndRecord) 6) 6
      = Ref.timeLib.addSeconds (getHOWTime Ref.timeLib weekEndRecord) 12 ∧
    (sf3Args Ref.timeLib weekEndRecord).how
      = (Ref.timeLib.toWeekSecond
          (Ref.timeLib.addSeconds (getHOWTime Ref.timeLib weekEndRecord) 12)).sow ∧
    (Ref.timeLib.toWeekSecond
        (Ref.timeLib.addSeconds (getHOWTime Ref.timeLib weekEndRecord) 12)).sow = 9 :=
  ⟨by decide!,
    (C18_subframe_times.1 Ref.timeLib weekEndRecord).2.2.2.2.2.1 (by decide!),
    by decide!⟩

/-- C19: the conversion to the legacy model passes to `setSF2` the fit-interval
flag 1 when the fit interval of the record is greater than 4 and the flag 0
otherwise, so that a fit interval of exactly 4 gives 0; it passes the accuracy
flag 0 to `setSF1`; and it calls `setSF1`, `setSF2`, `setSF3`, `setFIC(false)`
and last `setAccuracy` with the accuracy of the record, so that the model
returned is the result of `setAccuracy`. -/
theorem C19_fit_flag_accuracy (tl : TimeLib) (r : RinexNavData) :
    (sf2Args tl r).fitInt = (if r.fitint > 4 then 1 else 0) ∧
    (r.fitint > 4 → (sf2Args tl r).fitInt = 1) ∧
    (r.fitint ≤ 4 → (sf2Args tl r).fitInt = 0) ∧
    (r.fitint = 4 → (sf2Args tl r).fitInt = 0) ∧
    (sf1Args tl r).acc = 0 ∧
    ∀ (ε : Type) (l : LegacyModel ε),
      toEngEphemeris tl l r
        = l.setAccuracy
            (l.setFIC
              (l.setSF3 (l.setSF2 (l.setSF1 l.init (sf1Args tl r)) (sf2Args tl r))
                (sf3Args tl r))
              false)
            r.accuracy := by
  have h : (sf2Args tl r).fitInt = (if r.fitint > 4 then 1 else 0) := rfl
  refine ⟨h, fun h4 => ?_, fun h4 => ?_, fun h4 => ?_, rfl, fun ε l => rfl⟩
  · rw [h, if_pos h4]
  · rw [h, if_neg (not_lt.mpr h4)]
  · rw [h, if_neg (not_lt.mpr (le_of_eq h4))]

/-- Witness for C19: the example record, whose fit interval is exactly 4 hours,
and the example record with a fit interval of 6 hours. -/
theorem C19_fit_flag_accuracy_witness :
    exampleRecord.fitint = 4 ∧
    (sf2Args Ref.timeLib exampleRecord).fitInt = 0 ∧
    (sf2Args Ref.timeLib { exampleRecord with fitint := 6 }).fitInt = 1 ∧
    (sf1Args Ref.timeLib exampleRecord).acc = 0 ∧
    exampleRecord.accuracy = 2 :=
  ⟨rfl,
    (C19_fit_flag_accuracy Ref.timeLib exampleRecord).2.2.2.1 rfl,
    (C19_fit_flag_accuracy Ref.timeLib { exampleRecord with fitint := 6 }).2.1 (by decide!),
    (C19_fit_flag_accuracy Ref.timeLib exampleRecord).2.2.2.2.1,
    rfl⟩

/-! ## The modern model: order of the calls -/

/-- C20: in the conversion to the modern model, `setFitIntervalFlag` is applied
to the model that results from the assignments, whose IODC is the IODC of the
record whatever the default-constructed model held, and `adjustValidity` is
applied to the result of `setFitIntervalFlag`.  With the reference model, whose
default IODC is 0 and whose derived state records what the two calls see, the
flag is derived from the record's IODC and from the truncated fit-interval
hours, and the validity is adjusted after the flag was derived. -/
theorem C20_fit_interval_order :
    (∀ (σ : Type) (tl : TimeLib) (m : ModernModel σ) (r : RinexNavData),
      toGPSEphemeris tl m r
        = m.adjustValidity
            (m.setFitIntervalFlag (loadGPSEphemeris tl m.init r) (truncate r.fitint)) ∧
      (loadGPSEphemeris tl m.init r).IODC = r.IODC ∧
      (loadGPSEphemeris tl m.init r).fitint = r.fitint) ∧
    Ref.modern.init.IODC = 0 ∧ Ref.modern.init.other.flagIODC = none ∧
    (∀ (tl : TimeLib) (r : RinexNavData),
      ∃ g, toGPSEphemeris tl Ref.modern r = some g ∧
        g.IODC = r.IODC ∧
        g.other.flagIODC = some r.IODC ∧
        g.other.flagHours = some (truncate r.fitint) ∧
        g.other.adjustedAfterFlag = some true) := by
  refine ⟨fun σ tl m r => ⟨rfl, rfl, rfl⟩, rfl, rfl, ?_⟩
  intro tl r
  exact ⟨_, rfl, rfl, rfl, rfl, rfl⟩

/-! ## Half-week closeness of the resolved time and of the stored time -/

/-- C21: for a record with `0 ≤ Toe < FULLWEEK` and a transmit time that is not
negative, whose normalized seconds of week `n = fixSF1xmitSOW sf1XmitTime` lie
in `[0, FULLWEEK)`, `getXmitWS` returns the seconds of week `n` and a week such
that `week * FULLWEEK + n` differs from `toeWeek * FULLWEEK + Toe` by at most
`HALFWEEK`.  The week is `toeWeek - 1` when `Toe - n < -HALFWEEK`,
`toeWeek + 1` when `Toe - n > HALFWEEK`, and `toeWeek` otherwise. -/
theorem C21_half_week_closeness (r : RinexNavData)
    (htoe0 : 0 ≤ r.Toe) (htoe1 : r.Toe < (FULLWEEK : ℚ)) (hx : 0 ≤ r.sf1XmitTime)
    (hn0 : 0 ≤ fixSF1xmitSOW r.sf1XmitTime) (hn1 : fixSF1xmitSOW r.sf1XmitTime < FULLWEEK) :
    (getXmitWS r).sow = ((fixSF1xmitSOW r.sf1XmitTime : Int) : ℚ) ∧
    ((getXmitWS r).week = r.toeWeek - 1 ∨ (getXmitWS r).week = r.toeWeek ∨
      (getXmitWS r).week = r.toeWeek + 1) ∧
    |((getXmitWS r).week : ℚ) * (FULLWEEK : ℚ) + (getXmitWS r).sow
        - ((r.toeWeek : ℚ) * (FULLWEEK : ℚ) + r.Toe)| ≤ (HALFWEEK : ℚ) := by
  have hq0 : (0 : ℚ) ≤ ((fixSF1xmitSOW r.sf1XmitTime : Int) : ℚ) := by exact_mod_cast hn0
  have hq1 : ((fixSF1xmitSOW r.sf1XmitTime : Int) : ℚ) < (FULLWEEK : ℚ) := by exact_mod_cast hn1
  have hneg : ¬ r.sf1XmitTime < 0 := not_lt.mpr hx
  rw [FULLWEEK_cast] at htoe1 hq1
  rw [FULLWEEK_cast, HALFWEEK_cast]
  unfold getXmitWS
  rw [if_neg hneg]
  simp only [HALFWEEK_cast]
  by_cases h1 : r.Toe - ((fixSF1xmitSOW r.sf1XmitTime : Int) : ℚ) < -302400
  · rw [if_pos h1]
    refine ⟨rfl, Or.inl rfl, ?_⟩
    rw [abs_le]
    push_cast
    constructor <;> linarith
  · rw [if_neg h1]
    by_cases h2 : r.Toe - ((fixSF1xmitSOW r.sf1XmitTime : Int) : ℚ) > 302400
    · rw [if_pos h2]
      refine ⟨rfl, Or.inr (Or.inr rfl), ?_⟩
      rw [abs_le]
      push_cast
      constructor <;> linarith
    · rw [if_neg h2]
      refine ⟨rfl, Or.inr (Or.inl rfl), ?_⟩
      rw [abs_le]
      constructor <;> linarith

/-- Witness for C21: week 1000 with `Toe = 100` and a transmit time of 604700,
near the end of the week: the resolved week is 999 and the two absolute times
differ by 200 seconds. -/
theorem C21_half_week_closeness_witness :
    getXmitWS { RinexNavData.init with toeWeek := 1000, Toe := 100, sf1XmitTime := 604700 }
      = ⟨999, 604700, TimeSystem.GPS⟩ ∧
    |((getXmitWS { RinexNavData.init with
          toeWeek := 1000, Toe := 100, sf1XmitTime := 604700 }).week : ℚ) * (FULLWEEK : ℚ)
        + (getXmitWS { RinexNavData.init with
          toeWeek := 1000, Toe := 100, sf1XmitTime := 604700 }).sow
        - ((({ RinexNavData.init with
          toeWeek := 1000, Toe := 100, sf1XmitTime := 604700 } : RinexNavData).toeWeek : ℚ)
            * (FULLWEEK : ℚ)
          + ({ RinexNavData.init with
          toeWeek := 1000, Toe := 100, sf1XmitTime := 604700 } : RinexNavData).Toe)|
      ≤ (HALFWEEK : ℚ) :=
  ⟨by decide!,
    (C21_half_week_closeness
      { RinexNavData.init with toeWeek := 1000, Toe := 100, sf1XmitTime := 604700 }
      (by decide!) (by decide!) (by decide) (by decide) (by decide)).2.2⟩

/-- C22: for a record with `0 ≤ Toe < FULLWEEK` and
`0 ≤ sf1XmitTime < FULLWEEK` and every `fullweek`, after `setXmitWeek` the
stored `Toe` and transmit time differ by at most `HALFWEEK`; the new transmit
time is the old one, or the old one less or plus `FULLWEEK`, hence congruent to
it modulo `FULLWEEK`; and the record differs from the old one in `toeWeek` and
`sf1XmitTime` at most. -/
theorem C22_setXmitWeek_normal_form (r : RinexNavData) (fullweek : Nat)
    (htoe0 : 0 ≤ r.Toe) (htoe1 : r.Toe < (FULLWEEK : ℚ))
    (hx0 : 0 ≤ r.sf1XmitTime) (hx1 : r.sf1XmitTime < FULLWEEK) :
    |(setXmitWeek r fullweek).Toe - (((setXmitWeek r fullweek).sf1XmitTime : Int) : ℚ)|
      ≤ (HALFWEEK : ℚ) ∧
    ((setXmitWeek r fullweek).sf1XmitTime = r.sf1XmitTime ∨
      (setXmitWeek r fullweek).sf1XmitTime = r.sf1XmitTime - FULLWEEK ∨
      (setXmitWeek r fullweek).sf1XmitTime = r.sf1XmitTime + FULLWEEK) ∧
    (setXmitWeek r fullweek).sf1XmitTime % FULLWEEK = r.sf1XmitTime % FULLWEEK ∧
    setXmitWeek r fullweek
      = { r with toeWeek := (setXmitWeek r fullweek).toeWeek,
                 sf1XmitTime := (setXmitWeek r fullweek).sf1XmitTime } := by
  have hq0 : (0 : ℚ) ≤ ((r.sf1XmitTime : Int) : ℚ) := by exact_mod_cast hx0
  have hq1 : ((r.sf1XmitTime : Int) : ℚ) < (FULLWEEK : ℚ) := by exact_mod_cast hx1
  have hneg : ¬ r.sf1XmitTime < 0 := not_lt.mpr hx0
  rw [FULLWEEK_cast] at htoe1 hq1
  rw [HALFWEEK_cast]
  unfold setXmitWeek
  rw [if_neg hneg]
  simp only [HALFWEEK_cast]
  by_cases h1 : r.Toe - ((r.sf1XmitTime : Int) : ℚ) < -302400
  · rw [if_pos h1]
    refine ⟨?_, Or.inr (Or.inl rfl), ?_, rfl⟩
    · rw [abs_le]
      simp only [Int.cast_sub, FULLWEEK_cast]
      constructor <;> linarith
    · show (r.sf1XmitTime - FULLWEEK) % FULLWEEK = r.sf1XmitTime % FULLWEEK
      unfold FULLWEEK
      omega
  · rw [if_neg h1]
    by_cases h2 : r.Toe - ((r.sf1XmitTime : Int) : ℚ) > 302400
    · rw [if_pos h2]
      refine ⟨?_, Or.inr (Or.inr rfl), ?_, rfl⟩
      · rw [abs_le]
        simp only [Int.cast_add, FULLWEEK_cast]
        constructor <;> linarith
      · show (r.sf1XmitTime + FULLWEEK) % FULLWEEK = r.sf1XmitTime % FULLWEEK
        unfold FULLWEEK
        omega
    · rw [if_neg h2]
      refine ⟨?_, Or.inl rfl, rfl, rfl⟩
      rw [abs_le]
      constructor <;> linarith

/-- Witness for C22: `Toe = 100` and a transmit time of 604700, assigned the
week 1000: the stored transmit time becomes -100 and `toeWeek` 1001. -/
theorem C22_setXmitWeek_normal_form_witness :
    (setXmitWeek { RinexNavData.init with Toe := 100, sf1XmitTime := 604700 } 1000).sf1XmitTime
      = -100 ∧
    (setXmitWeek { RinexNavData.init with Toe := 100, sf1XmitTime := 604700 } 1000).toeWeek
      = 1001 ∧
    |(setXmitWeek { RinexNavData.init with Toe := 100, sf1XmitTime := 604700 } 1000).Toe
        - (((setXmitWeek { RinexNavData.init with
            Toe := 100, sf1XmitTime := 604700 } 1000).sf1XmitTime : Int) : ℚ)|
      ≤ (HALFWEEK : ℚ) :=
  ⟨by decide!, by decide!,
    (C22_setXmitWeek_normal_form
      { RinexNavData.init with Toe := 100, sf1XmitTime := 604700 } 1000
      (by decide!) (by decide!) (by decide) (by decide)).1⟩

end gpstk
